import Mathlib

/-!
# The NPObject bridge of `bindings/v8/V8NPObject.cpp`

A shallow embedding of the script-to-plugin dispatcher and of the wrapper
table of `Blink/Source/bindings/v8/V8NPObject.cpp`.

* Pointers to native objects are natural numbers; a null pointer is `none`.
* The mutable state the file reads and writes (alive flags, reference counts,
  the static wrapper table, the template map, native info of wrappers) is the
  record `World`, threaded explicitly.
* A vtable capability is a function on `World`: a native call may re-enter and
  change anything in it, in particular clear the alive flag of its own object.
* Every call the embedded code makes to a collaborator is appended to a trace
  of `Event`s, so that "is called", "is not called" and "is called before" are
  statements about that trace.
-/

namespace WebCore

/-! ## Values and identifiers -/

/-- A non-null `NPObject*`, by pointer identity. -/
abbrev NPObject := Nat

/-- A non-empty handle to a script object, by identity. -/
structure V8Object where
  id : Nat
deriving DecidableEq, Repr

/-- The enumeration `InvokeFunctionType` (lines 49-53). -/
inductive InvokeFunctionType where
  | InvokeMethod
  | InvokeConstruct
  | InvokeDefault
deriving DecidableEq, Repr

/-- The struct `IdentifierRep` (lines 55-64): the flag `m_isString` together with the
member of the union `m_value` it selects. -/
inductive IdentifierRep where
  | m_string (s : String)
  | m_number (n : Int)
deriving DecidableEq, Repr

/-- The accessor `IdentifierRep::number()` (line 56). -/
def IdentifierRep.number : IdentifierRep → Int
  | .m_string _ => 0
  | .m_number n => n

/-- The accessor `IdentifierRep::string()` (line 57); `none` is the null pointer. -/
def IdentifierRep.string : IdentifierRep → Option String
  | .m_string s => some s
  | .m_number _ => none

/-- An `NPIdentifier` is a pointer to an interned `IdentifierRep`; interning makes
pointer equality coincide with equality of the representation. -/
abbrev NPIdentifier := IdentifierRep

/-- Script values as far as this file inspects them. -/
inductive V8Value where
  | undefined
  | null
  | boolean (b : Bool)
  | number (n : Int)
  | string (s : String)
  | symbol (s : Option String)
  | object (o : V8Object)
  | function (functionTemplate : Nat) (name : String)
deriving DecidableEq, Repr

/-- The test `key->IsString()`. -/
def V8Value.IsString : V8Value → Bool
  | .string _ => true
  | _ => false

/-- The text of a value after `v8::String::Cast`; only a string has one. -/
def V8Value.stringCast : V8Value → String
  | .string s => s
  | _ => ""

/-- Native values (`NPVariant`) as far as this file inspects them: it writes the void
variant (`VOID_TO_NPVARIANT`) and otherwise only passes variants along. -/
inductive NPVariant where
  | void
  | null
  | bool (b : Bool)
  | int32 (n : Int)
  | string (s : String)
  | object (o : NPObject)
deriving DecidableEq, Repr

/-- The `NPVariant` storage a call refers to: element `i` of the array `npArgs`, the local
`result`, or the local `npValue`. -/
inductive VariantSlot where
  | npArgs (i : Nat)
  | result
  | npValue
deriving DecidableEq, Repr

/-- The error kinds passed to `throwError` in this file. -/
inductive V8ErrorType where
  | v8ReferenceError
  | v8GeneralError
deriving DecidableEq, Repr

/-- What a dispatcher entry point hands back to the engine, a `v8::Handle<v8::Value>`.
The handles produced by the collaborators `v8Undefined()` and `throwError(...)` are kept
as they are written in the source rather than resolved to a value. -/
inductive Handle where
  | empty
  | value (v : V8Value)
  | v8Undefined
  | throwError
deriving DecidableEq, Repr

/-- A function template: its identity and the data given to `SetCallHandler`. -/
structure FunctionTemplate where
  id : Nat
  data : V8Value
deriving DecidableEq, Repr

/-! ## State, capabilities and the trace -/

/-- The mutable state the bridge works on. -/
structure World where
  /-- The answer of `_NPN_IsAlive`. -/
  alive : NPObject → Bool
  /-- The field `referenceCount` of each native object. -/
  referenceCount : NPObject → Nat
  /-- The pairs (object, root) recorded by `_NPN_RegisterObject`, latest first. -/
  registered : List (NPObject × Option NPObject)
  /-- The static `DOMWrapperMap<NPObject>` behind `staticNPObjectMap()`. -/
  npObjectMap : NPObject → Option V8Object
  /-- The native pointer stored in the internal field of a script object. -/
  nativeInfo : V8Object → Option NPObject
  /-- The map `m_map` of the shared `V8NPTemplateMap`. -/
  templateMap : NPIdentifier → Option FunctionTemplate
  /-- The function-local static `npObjectDesc` of `createV8ObjectForNPObject`. -/
  npObjectDesc : Option FunctionTemplate
  /-- How many function templates `v8::FunctionTemplate::New()` has handed out. -/
  templatesCreated : Nat
  /-- How many instances `V8ObjectConstructor::newInstance` has handed out. -/
  instancesCreated : Nat

/-- The capability table `NPClass`: every slot is optional, and a call may change the
world (it can re-enter the engine). An out-parameter is returned with the result. -/
structure NPClass where
  structVersion : Nat
  hasMethod : Option (NPObject → NPIdentifier → World → Bool × World)
  invoke : Option (NPObject → NPIdentifier → List NPVariant → Nat → World → Bool × NPVariant × World)
  invokeDefault : Option (NPObject → List NPVariant → Nat → World → Bool × NPVariant × World)
  hasProperty : Option (NPObject → NPIdentifier → World → Bool × World)
  getProperty : Option (NPObject → NPIdentifier → World → Bool × NPVariant × World)
  setProperty : Option (NPObject → NPIdentifier → NPVariant → World → Bool × World)
  enumerate : Option (NPObject → World → Bool × List NPIdentifier × World)
  construct : Option (NPObject → List NPVariant → Nat → World → Bool × NPVariant × World)

/-- The collaborators of the file that are declared elsewhere, taken as parameters. -/
structure Runtime where
  /-- The field `_class` of a native object. -/
  _class : NPObject → NPClass
  /-- The test `object->_class == npScriptObjectClass`. -/
  isScriptObjectClass : NPObject → Bool
  /-- The field `v8Object` of an object seen as a `V8NPObject`. -/
  v8Object : NPObject → Option V8Object
  /-- The marshaller `convertV8ObjectToNPVariant(value, owner, &slot)`, as the variant
  it writes. -/
  convertV8ObjectToNPVariant : V8Value → NPObject → NPVariant
  /-- The marshaller `convertNPVariantToV8Object(&variant, owner, isolate)`. -/
  convertNPVariantToV8Object : NPVariant → NPObject → Handle
  /-- The interner `getStringIdentifier`. -/
  getStringIdentifier : V8Value → NPIdentifier
  /-- The constant `npObjectInternalFieldCount`. -/
  npObjectInternalFieldCount : Nat
  /-- The constant `NP_CLASS_STRUCT_VERSION_ENUM` that the macro
  `NP_CLASS_STRUCT_VERSION_HAS_ENUM` compares against. -/
  NP_CLASS_STRUCT_VERSION_ENUM : Nat
  /-- The constructor `V8ObjectConstructor::newInstance`: the object produced by the
  n-th construction, or `none` when it yields an empty handle. -/
  newInstance : Nat → Option V8Object

/-- One call made by the embedded code to a collaborator. -/
inductive Event where
  | isAlive (npObject : NPObject)
  | throwError (type : V8ErrorType) (message : String)
  | convertV8ObjectToNPVariant (object : V8Value) (owner : NPObject) (slot : VariantSlot)
  | convertNPVariantToV8Object (variant : NPVariant) (owner : NPObject)
  | releaseVariantValue (slot : VariantSlot)
  | hasProperty (npObject : NPObject) (identifier : NPIdentifier)
  | getProperty (npObject : NPObject) (identifier : NPIdentifier)
  | setProperty (npObject : NPObject) (identifier : NPIdentifier) (value : NPVariant)
  | hasMethod (npObject : NPObject) (identifier : NPIdentifier)
  | invoke (npObject : NPObject) (identifier : NPIdentifier) (args : List NPVariant) (argCount : Nat)
  | construct (npObject : NPObject) (args : List NPVariant) (argCount : Nat)
  | invokeDefault (npObject : NPObject) (args : List NPVariant) (argCount : Nat)
  | enumerate (npObject : NPObject)
  | retainObject (npObject : NPObject)
  | registerObject (npObject : NPObject) (root : Option NPObject)
  | releaseObject (npObject : NPObject)
  | newInstance
  | setNativeInfo (wrapper : V8Object) (npObject : NPObject)
  | clearNativeInfo (wrapper : V8Object)
  | mapGet (npObject : NPObject)
  | mapSet (npObject : NPObject) (wrapper : V8Object)
  | mapRemoveAndDispose (npObject : NPObject) (wrapper : V8Object)
  | templateGet (key : NPIdentifier)
  | templateSet (key : NPIdentifier) (wrapper : FunctionTemplate)
deriving DecidableEq, Repr

/-- The event is a call into the capability table of a native object. -/
def Event.isVtableCall : Event → Bool
  | .hasProperty _ _ => true
  | .getProperty _ _ => true
  | .setProperty _ _ _ => true
  | .hasMethod _ _ => true
  | .invoke _ _ _ _ => true
  | .construct _ _ _ => true
  | .invokeDefault _ _ _ => true
  | .enumerate _ => true
  | _ => false

/-- The event marshals a value in either direction. -/
def Event.isMarshal : Event → Bool
  | .convertV8ObjectToNPVariant _ _ _ => true
  | .convertNPVariantToV8Object _ _ => true
  | _ => false

/-- The event raises some error. -/
def Event.isAnyThrow : Event → Bool
  | .throwError _ _ => true
  | _ => false

/-- What one run of an operation yields: the value returned, the world it leaves and
the calls it made, in order. -/
structure Outcome (α : Type) where
  returnValue : α
  world : World
  trace : List Event

/-- The same outcome, preceded by calls made earlier in the operation. -/
def Outcome.after {α : Type} (earlier : List Event) (o : Outcome α) : Outcome α :=
  { o with trace := earlier ++ o.trace }

/-! ## Collaborators on the world -/

/-- Modelled from the spec: `_NPN_IsAlive` of the plugin runtime, the primitive
`isAlive(object) -> bool` reading the alive flag of a native object. -/
def _NPN_IsAlive (w : World) (npObject : NPObject) : Bool :=
  w.alive npObject

/-- Modelled from the spec: `_NPN_RetainObject` of the plugin runtime, the primitive
`retain(object)`, reference count plus one. -/
def _NPN_RetainObject (w : World) (npObject : NPObject) : World :=
  { w with referenceCount := fun o => if o = npObject then w.referenceCount o + 1 else w.referenceCount o }

/-- Modelled from the spec: `_NPN_ReleaseObject` of the plugin runtime, the primitive
`release(object)`, reference count minus one. -/
def _NPN_ReleaseObject (w : World) (npObject : NPObject) : World :=
  { w with referenceCount := fun o => if o = npObject then w.referenceCount o - 1 else w.referenceCount o }

/-- Modelled from the spec: `_NPN_RegisterObject` of the plugin runtime, the primitive
`registerObject(object, root)` recording the object against its root. -/
def _NPN_RegisterObject (w : World) (npObject : NPObject) (root : Option NPObject) : World :=
  { w with registered := (npObject, root) :: w.registered }

/-- Modelled from the spec: `DOMWrapperMap<NPObject>::get`, the reverse lookup from a
native object to its proxy; `none` is the empty handle. -/
def DOMWrapperMap.get (w : World) (key : NPObject) : Option V8Object :=
  w.npObjectMap key

/-- Modelled from the spec: `DOMWrapperMap<NPObject>::set`, the insertion of a proxy
under the identity of its native object. -/
def DOMWrapperMap.set (w : World) (key : NPObject) (wrapper : V8Object) : World :=
  { w with npObjectMap := fun o => if o = key then some wrapper else w.npObjectMap o }

/-- Modelled from the spec: `DOMWrapperMap<NPObject>::removeAndDispose`, the removal of
the table entry of a native object. -/
def DOMWrapperMap.removeAndDispose (w : World) (key : NPObject) (_wrapper : V8Object) : World :=
  { w with npObjectMap := fun o => if o = key then none else w.npObjectMap o }

/-- Modelled from the spec: `V8DOMWrapper::setNativeInfo`, which makes a script object
the proxy that owns a reference to one native object. -/
def V8DOMWrapper.setNativeInfo (w : World) (wrapper : V8Object) (object : NPObject) : World :=
  { w with nativeInfo := fun v => if v = wrapper then some object else w.nativeInfo v }

/-- Modelled from the spec: `V8DOMWrapper::clearNativeInfo`, which removes the native
object from a proxy. -/
def V8DOMWrapper.clearNativeInfo (w : World) (wrapper : V8Object) : World :=
  { w with nativeInfo := fun v => if v = wrapper then none else w.nativeInfo v }

/-- Modelled from the spec: `v8ObjectToNPObject`, the native object a script object is
the proxy of, read from its internal bridge state; `none` is the null pointer. -/
def v8ObjectToNPObject (w : World) (object : V8Object) : Option NPObject :=
  w.nativeInfo object

/-- Modelled from the spec: `toNative` on a wrapper, the same internal bridge state as
read by the weak callback. -/
def toNative (w : World) (wrapper : V8Object) : Option NPObject :=
  w.nativeInfo wrapper

/-- The macro `NP_CLASS_STRUCT_VERSION_HAS_ENUM`. -/
def NP_CLASS_STRUCT_VERSION_HAS_ENUM (rt : Runtime) (npclass : NPClass) : Bool :=
  decide (rt.NP_CLASS_STRUCT_VERSION_ENUM ≤ npclass.structVersion)

/-! ## `V8NPTemplateMap` (lines 163-205) -/

/-- The method `V8NPTemplateMap::get` (lines 169-172). -/
def V8NPTemplateMap.get (w : World) (key : NPIdentifier) : Option FunctionTemplate :=
  w.templateMap key

/-- The assertion `ASSERT(!m_map.contains(key))` of `V8NPTemplateMap::set` (line 176). -/
def V8NPTemplateMap.setAssertion (w : World) (key : NPIdentifier) : Bool :=
  (w.templateMap key).isNone

/-- The method `V8NPTemplateMap::set` (lines 174-179). -/
def V8NPTemplateMap.set (w : World) (key : NPIdentifier) (wrapper : FunctionTemplate) : World :=
  { w with templateMap := fun k => if k = key then some wrapper else w.templateMap k }

/-- The method `V8NPTemplateMap::dispose` (lines 194-201); `none` when the assertion
`it != m_map.end()` does not hold. -/
def V8NPTemplateMap.dispose (w : World) (key : NPIdentifier) : Option World :=
  match w.templateMap key with
  | none => none
  | some _ => some { w with templateMap := fun k => if k = key then none else w.templateMap k }

/-! ## The call dispatcher -/

/-- The receiver of an invocation, `args.Holder()`: one of the three plug-in element
wrappers with the script object of its instance (`none` when `getInstance()` is null),
or any other object with its internal field count. -/
inductive Holder where
  | V8HTMLAppletElement (scriptInstance : Option V8Object)
  | V8HTMLEmbedElement (scriptInstance : Option V8Object)
  | V8HTMLObjectElement (scriptInstance : Option V8Object)
  | other (holder : V8Object) (InternalFieldCount : Nat)

/-- The engine's `v8::Arguments`. -/
structure Arguments where
  Holder : Holder
  args : List V8Value
  Data : V8Value
  IsConstructCall : Bool

/-- The argument count `args.Length()`. -/
def Arguments.Length (args : Arguments) : Nat :=
  args.args.length

/-- The event raised by `throwError(v8ReferenceError, "NPObject deleted", ...)`. -/
def npObjectDeleted : Event :=
  Event.throwError V8ErrorType.v8ReferenceError "NPObject deleted"

/-- The event raised by `throwError(v8GeneralError, "Error calling method on NPObject.", ...)`. -/
def errorCallingMethod : Event :=
  Event.throwError V8ErrorType.v8GeneralError "Error calling method on NPObject."

/-- Lines 70-96 of `npObjectInvokeImpl`: the local `npObject` as the holder determines it.
The outer `none` is the early return of line 93. -/
def holderNPObject (rt : Runtime) (w : World) : Holder → Option (Option NPObject)
  | .V8HTMLAppletElement scriptInstance => some (scriptInstance.bind (v8ObjectToNPObject w))
  | .V8HTMLEmbedElement scriptInstance => some (scriptInstance.bind (v8ObjectToNPObject w))
  | .V8HTMLObjectElement scriptInstance => some (scriptInstance.bind (v8ObjectToNPObject w))
  | .other holder InternalFieldCount =>
    if InternalFieldCount ≠ rt.npObjectInternalFieldCount then none
    else some (v8ObjectToNPObject w holder)

/-- Lines 106-107: the calls marshalling argument `i` into slot `i`, from `i` on. -/
def marshalCalls (npObject : NPObject) : Nat → List V8Value → List Event
  | _, [] => []
  | i, a :: rest =>
    Event.convertV8ObjectToNPVariant a npObject (VariantSlot.npArgs i) :: marshalCalls npObject (i + 1) rest

/-- Lines 106-107: the content of `npArgs` after the loop. -/
def marshalledArgs (rt : Runtime) (npObject : NPObject) (args : List V8Value) : List NPVariant :=
  args.map (fun a => rt.convertV8ObjectToNPVariant a npObject)

/-- Lines 136-137: the calls releasing slots `i`, `i + 1`, ... of `npArgs`, `n` of them. -/
def releaseCalls : Nat → Nat → List Event
  | _, 0 => []
  | i, n + 1 => Event.releaseVariantValue (VariantSlot.npArgs i) :: releaseCalls (i + 1) n

/-- Lines 109-131: the switch on `functionId`. Yields `retval`, `result`, the world after
the native call, and the call made (none when the capability is absent). -/
def invokeSwitch (rt : Runtime) (functionId : InvokeFunctionType) (npObject : NPObject)
    (Data : V8Value) (npArgs : List NPVariant) (numArgs : Nat) (w : World) :
    (Bool × NPVariant × World) × List Event :=
  match functionId with
  | .InvokeMethod =>
    match (rt._class npObject).invoke with
    | some invoke =>
      let identifier := rt.getStringIdentifier Data
      (invoke npObject identifier npArgs numArgs w, [Event.invoke npObject identifier npArgs numArgs])
    | none => ((true, NPVariant.void, w), [])
  | .InvokeConstruct =>
    match (rt._class npObject).construct with
    | some construct =>
      (construct npObject npArgs numArgs w, [Event.construct npObject npArgs numArgs])
    | none => ((true, NPVariant.void, w), [])
  | .InvokeDefault =>
    match (rt._class npObject).invokeDefault with
    | some invokeDefault =>
      (invokeDefault npObject npArgs numArgs w, [Event.invokeDefault npObject npArgs numArgs])
    | none => ((true, NPVariant.void, w), [])

/-- Lines 102-145 of `npObjectInvokeImpl`, entered with a live `npObject`. -/
def invokeLive (rt : Runtime) (args : Arguments) (functionId : InvokeFunctionType)
    (npObject : NPObject) (w : World) : Outcome Handle :=
  let numArgs := args.Length
  let npArgs := marshalledArgs rt npObject args.args
  let call := invokeSwitch rt functionId npObject args.Data npArgs numArgs w
  let retval := call.1.1
  let result := call.1.2.1
  let w1 := call.1.2.2
  let thrown := if retval = false then [errorCallingMethod] else []
  let earlier := marshalCalls npObject 0 args.args ++ call.2 ++ thrown ++ releaseCalls 0 numArgs
    ++ [Event.isAlive npObject]
  if _NPN_IsAlive w1 npObject then
    ⟨rt.convertNPVariantToV8Object result npObject, w1,
      earlier ++ [Event.convertNPVariantToV8Object result npObject, Event.releaseVariantValue VariantSlot.result]⟩
  else
    ⟨Handle.empty, w1, earlier ++ [Event.releaseVariantValue VariantSlot.result]⟩

/-- The function `npObjectInvokeImpl` (lines 68-146). -/
def npObjectInvokeImpl (rt : Runtime) (args : Arguments) (functionId : InvokeFunctionType)
    (w : World) : Outcome Handle :=
  match holderNPObject rt w args.Holder with
  | none =>
    ⟨Handle.throwError, w, [Event.throwError V8ErrorType.v8ReferenceError "NPMethod called on non-NPObject"]⟩
  | some none => ⟨Handle.throwError, w, [npObjectDeleted]⟩
  | some (some npObject) =>
    if _NPN_IsAlive w npObject = false then
      ⟨Handle.throwError, w, [Event.isAlive npObject, npObjectDeleted]⟩
    else
      (invokeLive rt args functionId npObject w).after [Event.isAlive npObject]

/-- The handler `npObjectMethodHandler` (lines 149-152). -/
def npObjectMethodHandler (rt : Runtime) (args : Arguments) (w : World) : Outcome Handle :=
  npObjectInvokeImpl rt args InvokeFunctionType.InvokeMethod w

/-- The handler `npObjectInvokeDefaultHandler` (lines 155-161). -/
def npObjectInvokeDefaultHandler (rt : Runtime) (args : Arguments) (w : World) : Outcome Handle :=
  if args.IsConstructCall then
    npObjectInvokeImpl rt args InvokeFunctionType.InvokeConstruct w
  else
    npObjectInvokeImpl rt args InvokeFunctionType.InvokeDefault w

/-- Lines 224-236 of `npObjectGetProperty`: the property branch, entered after
`hasProperty` has answered true in world `w`. -/
def getPropertyBranch (rt : Runtime)
    (getProperty : NPObject → NPIdentifier → World → Bool × NPVariant × World)
    (npObject : NPObject) (identifier : NPIdentifier) (w : World) : Outcome Handle :=
  if _NPN_IsAlive w npObject = false then
    ⟨Handle.throwError, w, [Event.isAlive npObject, npObjectDeleted]⟩
  else
    let got := getProperty npObject identifier w
    let result := got.2.1
    let w1 := got.2.2
    if got.1 = false then
      ⟨Handle.v8Undefined, w1, [Event.isAlive npObject, Event.getProperty npObject identifier]⟩
    else if _NPN_IsAlive w1 npObject then
      ⟨rt.convertNPVariantToV8Object result npObject, w1,
        [Event.isAlive npObject, Event.getProperty npObject identifier, Event.isAlive npObject,
          Event.convertNPVariantToV8Object result npObject, Event.releaseVariantValue VariantSlot.result]⟩
    else
      ⟨Handle.empty, w1,
        [Event.isAlive npObject, Event.getProperty npObject identifier, Event.isAlive npObject,
          Event.releaseVariantValue VariantSlot.result]⟩

/-- Lines 247-261 of `npObjectGetProperty`: the function served from the template cached
under the identifier, created and stored first when the map has none. -/
def getMethodTemplate (identifier : NPIdentifier) (key : V8Value) (w : World) : Outcome Handle :=
  match V8NPTemplateMap.get w identifier with
  | some functionTemplate =>
    ⟨Handle.value (V8Value.function functionTemplate.id key.stringCast), w,
      [Event.templateGet identifier]⟩
  | none =>
    let temp : FunctionTemplate := ⟨w.templatesCreated, key⟩
    let w1 := { w with templatesCreated := w.templatesCreated + 1 }
    ⟨Handle.value (V8Value.function temp.id key.stringCast), V8NPTemplateMap.set w1 identifier temp,
      [Event.templateGet identifier, Event.templateSet identifier temp]⟩

/-- Lines 240-264 of `npObjectGetProperty`: the method branch, entered when the property
branch was not taken, in world `w`. -/
def getMethodBranch (rt : Runtime) (npObject : NPObject) (identifier : NPIdentifier)
    (key : V8Value) (w : World) : Outcome Handle :=
  if _NPN_IsAlive w npObject = false then
    ⟨Handle.throwError, w, [Event.isAlive npObject, npObjectDeleted]⟩
  else
    match key.IsString, (rt._class npObject).hasMethod with
    | true, some hasMethod =>
      let has := hasMethod npObject identifier w
      if has.1 then
        if _NPN_IsAlive has.2 npObject = false then
          ⟨Handle.throwError, has.2,
            [Event.isAlive npObject, Event.hasMethod npObject identifier, Event.isAlive npObject,
              npObjectDeleted]⟩
        else
          (getMethodTemplate identifier key has.2).after
            [Event.isAlive npObject, Event.hasMethod npObject identifier, Event.isAlive npObject]
      else
        ⟨Handle.v8Undefined, has.2, [Event.isAlive npObject, Event.hasMethod npObject identifier]⟩
    | _, _ => ⟨Handle.v8Undefined, w, [Event.isAlive npObject]⟩

/-- The function `npObjectGetProperty` (lines 213-265). -/
def npObjectGetProperty (rt : Runtime) (self : V8Object) (identifier : NPIdentifier)
    (key : V8Value) (w : World) : Outcome Handle :=
  match v8ObjectToNPObject w self with
  | none => ⟨Handle.throwError, w, [npObjectDeleted]⟩
  | some npObject =>
    if _NPN_IsAlive w npObject = false then
      ⟨Handle.throwError, w, [Event.isAlive npObject, npObjectDeleted]⟩
    else
      match (rt._class npObject).hasProperty, (rt._class npObject).getProperty with
      | some hasProperty, some getProperty =>
        let has := hasProperty npObject identifier w
        if has.1 then
          (getPropertyBranch rt getProperty npObject identifier has.2).after
            [Event.isAlive npObject, Event.hasProperty npObject identifier]
        else
          (getMethodBranch rt npObject identifier key has.2).after
            [Event.isAlive npObject, Event.hasProperty npObject identifier]
      | _, _ => (getMethodBranch rt npObject identifier key w).after [Event.isAlive npObject]

/-- The function `npObjectSetProperty` (lines 297-320). -/
def npObjectSetProperty (rt : Runtime) (self : V8Object) (identifier : NPIdentifier)
    (value : V8Value) (w : World) : Outcome Handle :=
  match v8ObjectToNPObject w self with
  | none => ⟨Handle.value value, w, [npObjectDeleted]⟩
  | some npObject =>
    if _NPN_IsAlive w npObject = false then
      ⟨Handle.value value, w, [Event.isAlive npObject, npObjectDeleted]⟩
    else
      match (rt._class npObject).hasProperty, (rt._class npObject).setProperty with
      | some hasProperty, some setProperty =>
        let has := hasProperty npObject identifier w
        if has.1 then
          if _NPN_IsAlive has.2 npObject = false then
            ⟨Handle.throwError, has.2,
              [Event.isAlive npObject, Event.hasProperty npObject identifier, Event.isAlive npObject,
                npObjectDeleted]⟩
          else
            let npValue := rt.convertV8ObjectToNPVariant value npObject
            let success := setProperty npObject identifier npValue has.2
            let calls := [Event.isAlive npObject, Event.hasProperty npObject identifier,
              Event.isAlive npObject,
              Event.convertV8ObjectToNPVariant value npObject VariantSlot.npValue,
              Event.setProperty npObject identifier npValue,
              Event.releaseVariantValue VariantSlot.npValue]
            if success.1 then
              ⟨Handle.value value, success.2, calls⟩
            else
              ⟨Handle.v8Undefined, success.2, calls⟩
        else
          ⟨Handle.v8Undefined, has.2, [Event.isAlive npObject, Event.hasProperty npObject identifier]⟩
      | _, _ => ⟨Handle.v8Undefined, w, [Event.isAlive npObject]⟩

/-- Lines 362-368 of `npObjectPropertyEnumerator`: the element stored for one identifier. -/
def enumeratedElement (namedProperty : Bool) (identifier : IdentifierRep) : V8Value :=
  if namedProperty then V8Value.symbol identifier.string
  else V8Value.number identifier.number

/-- The function `npObjectPropertyEnumerator` (lines 348-375). The array handle is
`none` when empty. The outer `none` is the dereference of a null `npObject` at line 357,
reached because line 355 does not return. -/
def npObjectPropertyEnumerator (rt : Runtime) (Holder : V8Object) (namedProperty : Bool)
    (w : World) : Option (Outcome (Option (List V8Value))) :=
  match v8ObjectToNPObject w Holder with
  | none => none
  | some npObject =>
    let entry :=
      if _NPN_IsAlive w npObject = false then [Event.isAlive npObject, npObjectDeleted]
      else [Event.isAlive npObject]
    match NP_CLASS_STRUCT_VERSION_HAS_ENUM rt (rt._class npObject), (rt._class npObject).enumerate with
    | true, some enumerate =>
      let got := enumerate npObject w
      if got.1 then
        some ⟨some (got.2.1.map (enumeratedElement namedProperty)), got.2.2,
          entry ++ [Event.enumerate npObject]⟩
      else
        some ⟨none, got.2.2, entry ++ [Event.enumerate npObject]⟩
    | _, _ => some ⟨none, w, entry⟩

/-- The function `npObjectNamedPropertyEnumerator` (lines 377-380). -/
def npObjectNamedPropertyEnumerator (rt : Runtime) (Holder : V8Object) (w : World) :
    Option (Outcome (Option (List V8Value))) :=
  npObjectPropertyEnumerator rt Holder true w

/-- The function `npObjectIndexedPropertyEnumerator` (lines 382-385). -/
def npObjectIndexedPropertyEnumerator (rt : Runtime) (Holder : V8Object) (w : World) :
    Option (Outcome (Option (List V8Value))) :=
  npObjectPropertyEnumerator rt Holder false w

/-! ## The wrapper table -/

/-- The weak callback `WeakHandleListener<DOMWrapperMap<NPObject> >::callback`
(lines 393-409) for the wrapper `value`; `none` when one of its assertions
(`npObject` non-null, the table maps `npObject` to the wrapper) does not hold. -/
def weakCallback (value : V8Object) (w : World) : Option (Outcome Unit) :=
  match toNative w value with
  | none => none
  | some npObject =>
    if DOMWrapperMap.get w npObject ≠ some value then none
    else
      let w1 := DOMWrapperMap.removeAndDispose w npObject value
      if _NPN_IsAlive w1 npObject then
        some ⟨(), _NPN_ReleaseObject w1 npObject,
          [Event.mapRemoveAndDispose npObject value, Event.isAlive npObject,
            Event.releaseObject npObject]⟩
      else
        some ⟨(), w1, [Event.mapRemoveAndDispose npObject value, Event.isAlive npObject]⟩

/-- Lines 432-438 of `createV8ObjectForNPObject`: the lazy initialisation of the static
`npObjectDesc`. -/
def initNPObjectDesc (w : World) : World :=
  match w.npObjectDesc with
  | some _ => w
  | none =>
    { w with npObjectDesc := some ⟨w.templatesCreated, V8Value.undefined⟩,
             templatesCreated := w.templatesCreated + 1 }

/-- The function `createV8ObjectForNPObject` (lines 411-459); the returned handle is
`none` when empty. -/
def createV8ObjectForNPObject (rt : Runtime) (object : NPObject) (root : Option NPObject)
    (w : World) : Outcome (Option V8Object) :=
  if rt.isScriptObjectClass object then
    ⟨rt.v8Object object, w, []⟩
  else
    match DOMWrapperMap.get w object with
    | some wrapper => ⟨some wrapper, w, [Event.mapGet object]⟩
    | none =>
      let w1 := initNPObjectDesc w
      match rt.newInstance w1.instancesCreated with
      | none => ⟨none, w1, [Event.mapGet object, Event.newInstance]⟩
      | some value =>
        let w2 := { w1 with instancesCreated := w1.instancesCreated + 1 }
        let w3 := V8DOMWrapper.setNativeInfo w2 value object
        let w4 := _NPN_RetainObject w3 object
        let w5 := _NPN_RegisterObject w4 object root
        ⟨some value, DOMWrapperMap.set w5 object value,
          [Event.mapGet object, Event.newInstance, Event.setNativeInfo value object,
            Event.retainObject object, Event.registerObject object root,
            Event.mapSet object value]⟩

/-- The function `forgetV8ObjectForNPObject` (lines 461-470). -/
def forgetV8ObjectForNPObject (object : NPObject) (w : World) : Outcome Unit :=
  match DOMWrapperMap.get w object with
  | some wrapper =>
    let w1 := V8DOMWrapper.clearNativeInfo w wrapper
    let w2 := DOMWrapperMap.removeAndDispose w1 object wrapper
    ⟨(), _NPN_ReleaseObject w2 object,
      [Event.mapGet object, Event.clearNativeInfo wrapper, Event.mapRemoveAndDispose object wrapper,
        Event.releaseObject object]⟩
  | none => ⟨(), w, [Event.mapGet object]⟩

/-! ## Vocabulary of the statements -/

/-- The entry condition `!npObject || !_NPN_IsAlive(npObject)` (lines 99, 219, 302, 354). -/
def deletedAtEntry (w : World) : Option NPObject → Bool
  | none => true
  | some npObject => !_NPN_IsAlive w npObject

/-- The event is a call of `_NPN_RetainObject`. -/
def Event.isRetain : Event → Bool
  | .retainObject _ => true
  | _ => false

/-- The event is a call of `_NPN_RegisterObject`. -/
def Event.isRegister : Event → Bool
  | .registerObject _ _ => true
  | _ => false

/-- The event is a call of `_NPN_ReleaseObject`. -/
def Event.isRelease : Event → Bool
  | .releaseObject _ => true
  | _ => false

/-- The slot a call of `convertV8ObjectToNPVariant` writes. -/
def Event.marshalSlot : Event → Option VariantSlot
  | .convertV8ObjectToNPVariant _ _ slot => some slot
  | _ => none

/-- The slot a call of `_NPN_ReleaseVariantValue` frees. -/
def Event.releasedSlot : Event → Option VariantSlot
  | .releaseVariantValue slot => some slot
  | _ => none

/-- The event converts a native result to a script value. -/
def Event.isResultConversion : Event → Bool
  | .convertNPVariantToV8Object _ _ => true
  | _ => false

/-- The argument array and count handed to an invoking capability. -/
def Event.nativeArgs : Event → Option (List NPVariant × Nat)
  | .invoke _ _ args argCount => some (args, argCount)
  | .construct _ args argCount => some (args, argCount)
  | .invokeDefault _ args argCount => some (args, argCount)
  | _ => none

/-- The capability that `npObjectInvokeImpl` dispatches to for a function type, applied to
the object (and, for a method, to the identifier of `args.Data()`); `none` when the class
lacks it. -/
def invokeCapability (rt : Runtime) (functionId : InvokeFunctionType) (npObject : NPObject)
    (Data : V8Value) : Option (List NPVariant → Nat → World → Bool × NPVariant × World) :=
  match functionId with
  | .InvokeMethod => (rt._class npObject).invoke.map (fun f => f npObject (rt.getStringIdentifier Data))
  | .InvokeConstruct => (rt._class npObject).construct.map (fun f => f npObject)
  | .InvokeDefault => (rt._class npObject).invokeDefault.map (fun f => f npObject)

/-! ## A concrete plugin on which the operations are evaluated -/

/-- The world in which `npObject` has ceased to be alive. -/
def destroy (npObject : NPObject) (w : World) : World :=
  { w with alive := fun o => if o = npObject then false else w.alive o }

/-- A class with no capability at all. -/
def bareClass : NPClass :=
  { structVersion := 3, hasMethod := none, invoke := none, invokeDefault := none,
    hasProperty := none, getProperty := none, setProperty := none, enumerate := none,
    construct := none }

/-- A class with every capability, each succeeding without touching the world. -/
def quietClass : NPClass :=
  { structVersion := 3,
    hasMethod := some (fun _ _ w => (true, w)),
    invoke := some (fun _ _ _ argCount w => (true, NPVariant.int32 argCount, w)),
    invokeDefault := some (fun _ _ _ w => (false, NPVariant.void, w)),
    hasProperty := some (fun _ _ w => (true, w)),
    getProperty := some (fun _ _ w => (true, NPVariant.int32 7, w)),
    setProperty := some (fun _ _ _ w => (true, w)),
    enumerate := some (fun _ w => (true, [IdentifierRep.m_string "x", IdentifierRep.m_number 4], w)),
    construct := some (fun _ _ _ w => (true, NPVariant.null, w)) }

/-- A class whose getter, setter and invoking capabilities report success and destroy
their own object while they run. -/
def selfDestroyingClass : NPClass :=
  { structVersion := 3,
    hasMethod := some (fun _ _ w => (true, w)),
    invoke := some (fun o _ _ _ w => (true, NPVariant.int32 1, destroy o w)),
    invokeDefault := some (fun o _ _ w => (true, NPVariant.int32 1, destroy o w)),
    hasProperty := some (fun _ _ w => (true, w)),
    getProperty := some (fun o _ w => (true, NPVariant.int32 7, destroy o w)),
    setProperty := some (fun o _ _ w => (true, destroy o w)),
    enumerate := some (fun _ w => (true, [IdentifierRep.m_string "x"], w)),
    construct := some (fun o _ _ w => (true, NPVariant.int32 1, destroy o w)) }

/-- A runtime in which object 1 is quiet, object 3 is bare and every other object
destroys itself. -/
def sampleRuntime : Runtime :=
  { _class := fun o => if o = 1 then quietClass else if o = 3 then bareClass else selfDestroyingClass,
    isScriptObjectClass := fun _ => false,
    v8Object := fun _ => none,
    convertV8ObjectToNPVariant := fun v _ =>
      match v with
      | V8Value.number n => NPVariant.int32 n
      | V8Value.string s => NPVariant.string s
      | _ => NPVariant.void,
    convertNPVariantToV8Object := fun v _ =>
      match v with
      | NPVariant.int32 n => Handle.value (V8Value.number n)
      | _ => Handle.value V8Value.undefined,
    getStringIdentifier := fun v => IdentifierRep.m_string v.stringCast,
    npObjectInternalFieldCount := 3,
    NP_CLASS_STRUCT_VERSION_ENUM := 2,
    newInstance := fun n => if n < 5 then some ⟨100 + n⟩ else none }

/-- A world with live objects 1, 2 and 3 and a dead object 4; the script objects 10, 20, 30
and 40 are their proxies, script object 50 has no native object. -/
def sampleWorld : World :=
  { alive := fun o => decide (o = 1 ∨ o = 2 ∨ o = 3),
    referenceCount := fun _ => 1,
    registered := [],
    npObjectMap := fun o => if 1 ≤ o ∧ o ≤ 4 then some ⟨10 * o⟩ else none,
    nativeInfo := fun v =>
      if v.id = 10 then some 1 else if v.id = 20 then some 2 else if v.id = 30 then some 3
      else if v.id = 40 then some 4 else none,
    templateMap := fun _ => none,
    npObjectDesc := none,
    templatesCreated := 0,
    instancesCreated := 0 }

/-- The sample runtime with one more object, 9, whose class is the script-object class
and which bridges the script object 90. -/
def bridgeRuntime : Runtime :=
  { sampleRuntime with
    isScriptObjectClass := fun o => decide (o = 9),
    v8Object := fun o => if o = 9 then some ⟨90⟩ else none }

/-! ## `CachedScript` (`core/loader/cache/CachedScript.cpp`) -/

/-- Modelled from the spec: the enumeration `ContentTypeOptionsDisposition`, two-valued,
with `ContentTypeOptionsNone = 0` and `ContentTypeOptionsNosniff = 1`. -/
inductive ContentTypeOptionsDisposition where
  | ContentTypeOptionsNone
  | ContentTypeOptionsNosniff
deriving DecidableEq, Repr

/-- The integer value of an enumerator of `ContentTypeOptionsDisposition`. -/
def ContentTypeOptionsDisposition.toInt : ContentTypeOptionsDisposition → Int
  | .ContentTypeOptionsNone => 0
  | .ContentTypeOptionsNosniff => 1

/-- The response `m_response` of a cached resource: its header fields by name. -/
structure ResourceResponse where
  httpHeaderField : String → String

/-- The collaborators of `CachedScript` that are declared elsewhere, taken as parameters:
the header parser, the media-type splitter, `String::lower` and the MIME type registry. -/
structure HTTPCollaborators where
  parseContentTypeOptionsHeader : String → ContentTypeOptionsDisposition
  extractMIMETypeFromMediaType : String → String
  lower : String → String
  isSupportedJavaScriptMIMEType : String → Bool

/-- The unary operator `!` applied to an integral value. -/
def logicalNot (n : Int) : Bool :=
  decide (n = 0)

/-- The integral promotion of a `bool` operand of `==`. -/
def boolToInt (b : Bool) : Int :=
  if b then 1 else 0

/-- The method `CachedScript::mimeType` (lines 66-69). -/
def CachedScript.mimeType (c : HTTPCollaborators) (m_response : ResourceResponse) : String :=
  c.lower (c.extractMIMETypeFromMediaType (m_response.httpHeaderField "Content-Type"))

/-- The method `CachedScript::mimeTypeAllowedByNosniff` (lines 93-96): the expression
`!parse(...) == ContentTypeOptionsNosniff || isSupportedJavaScriptMIMEType(mimeType())`,
in which `!` applies to the parsed value before the comparison. -/
def CachedScript.mimeTypeAllowedByNosniff (c : HTTPCollaborators) (m_response : ResourceResponse) :
    Bool :=
  decide (boolToInt (logicalNot
      (c.parseContentTypeOptionsHeader (m_response.httpHeaderField "X-Content-Type-Options")).toInt)
    = ContentTypeOptionsDisposition.ContentTypeOptionsNosniff.toInt)
  || c.isSupportedJavaScriptMIMEType (CachedScript.mimeType c m_response)

/-! ## Vocabulary for the liveness discipline -/

/-- The class whose capabilities are those of `c` wherever their object is alive and do
nothing (report failure, leave the world alone) where it is not. -/
def NPClass.liveOnly (c : NPClass) : NPClass :=
  { structVersion := c.structVersion,
    hasMethod := c.hasMethod.map
      (fun f o identifier w => if _NPN_IsAlive w o then f o identifier w else (false, w)),
    invoke := c.invoke.map
      (fun f o identifier args argCount w =>
        if _NPN_IsAlive w o then f o identifier args argCount w else (false, NPVariant.void, w)),
    invokeDefault := c.invokeDefault.map
      (fun f o args argCount w =>
        if _NPN_IsAlive w o then f o args argCount w else (false, NPVariant.void, w)),
    hasProperty := c.hasProperty.map
      (fun f o identifier w => if _NPN_IsAlive w o then f o identifier w else (false, w)),
    getProperty := c.getProperty.map
      (fun f o identifier w =>
        if _NPN_IsAlive w o then f o identifier w else (false, NPVariant.void, w)),
    setProperty := c.setProperty.map
      (fun f o identifier value w => if _NPN_IsAlive w o then f o identifier value w else (false, w)),
    enumerate := c.enumerate.map
      (fun f o w => if _NPN_IsAlive w o then f o w else (false, [], w)),
    construct := c.construct.map
      (fun f o args argCount w =>
        if _NPN_IsAlive w o then f o args argCount w else (false, NPVariant.void, w)) }

/-- The runtime in which every class is replaced by its `liveOnly` version: a call of a
capability on an object that is not alive at the moment of the call has no effect. -/
def Runtime.liveOnly (rt : Runtime) : Runtime :=
  { rt with _class := fun o => (rt._class o).liveOnly }

/-- Scans a trace for the liveness discipline of `npObject`. The flag tells whether
`_NPN_IsAlive(npObject)` has been called since the last call into the capability table
(or since the start). A call into the capability table and a marshalling call are allowed
only with the flag set; a call into the capability table clears it. -/
def recheckedFrom (npObject : NPObject) : Bool → List Event → Bool
  | _, [] => true
  | checked, e :: rest =>
    if e = Event.isAlive npObject then recheckedFrom npObject true rest
    else if e.isVtableCall then checked && recheckedFrom npObject false rest
    else if e.isMarshal then checked && recheckedFrom npObject checked rest
    else recheckedFrom npObject checked rest

/-- Every call into the capability table and every marshalling call of the trace is
preceded by a liveness check of `npObject` made after the previous call into the
capability table. -/
def livenessRechecked (npObject : NPObject) (trace : List Event) : Bool :=
  recheckedFrom npObject false trace

/-! ## Vocabulary for the method template cache -/

/-- The event is a call of `V8NPTemplateMap::get` or `V8NPTemplateMap::set`. -/
def Event.isTemplateCall : Event → Bool
  | .templateGet _ => true
  | .templateSet _ _ => true
  | _ => false

/-- No template is disposed of, or replaced, between the world `w` and the world `later`:
every identifier that has a template in `w` has the same template in `later`. -/
def templatesKept (w later : World) : Prop :=
  ∀ key functionTemplate, V8NPTemplateMap.get w key = some functionTemplate →
    V8NPTemplateMap.get later key = some functionTemplate

/-- No call into the capability table made by `npObjectGetProperty` disposes of a
template. -/
def Runtime.keepsTemplates (rt : Runtime) : Prop :=
  ∀ (o : NPObject) (identifier : NPIdentifier) (w : World),
    (∀ f, (rt._class o).hasProperty = some f → templatesKept w (f o identifier w).2) ∧
    (∀ f, (rt._class o).getProperty = some f → templatesKept w (f o identifier w).2.2) ∧
    (∀ f, (rt._class o).hasMethod = some f → templatesKept w (f o identifier w).2)

/-- The world after a sequence of `npObjectGetProperty` calls, each given by its receiver,
identifier and key. -/
def npObjectGetPropertySequence (rt : Runtime) :
    List (V8Object × NPIdentifier × V8Value) → World → World
  | [], w => w
  | call :: rest, w =>
    npObjectGetPropertySequence rt rest (npObjectGetProperty rt call.1 call.2.1 call.2.2 w).world

/-- A class that has no properties and answers true to every `hasMethod`. -/
def methodClass : NPClass :=
  { bareClass with
    hasMethod := some (fun _ _ w => (true, w)),
    invoke := some (fun _ _ _ argCount w => (true, NPVariant.int32 argCount, w)) }

/-- The sample runtime in which every object is of the method class. -/
def methodRuntime : Runtime :=
  { sampleRuntime with _class := fun _ => methodClass }

/-! ## Vocabulary for the exact run of an invocation -/

/-- What the native call of `npObjectInvokeImpl` yields, read off the class of the object:
the result of the capability of the function type on the given arguments, or, when the
class lacks it, `retval` still true, `result` still void and the world as it was. -/
def nativeInvocation (rt : Runtime) (functionId : InvokeFunctionType) (npObject : NPObject)
    (Data : V8Value) (npArgs : List NPVariant) (numArgs : Nat) (w : World) :
    Bool × NPVariant × World :=
  match invokeCapability rt functionId npObject Data with
  | some capability => capability npArgs numArgs w
  | none => (true, NPVariant.void, w)

/-- The call into the capability table that an invocation of the given function type
makes, read off the class of the object: none when the class lacks the capability. -/
def invocationCall (rt : Runtime) (functionId : InvokeFunctionType) (npObject : NPObject)
    (Data : V8Value) (npArgs : List NPVariant) (numArgs : Nat) : List Event :=
  match functionId with
  | .InvokeMethod =>
    if (rt._class npObject).invoke.isSome then
      [Event.invoke npObject (rt.getStringIdentifier Data) npArgs numArgs]
    else []
  | .InvokeConstruct =>
    if (rt._class npObject).construct.isSome then [Event.construct npObject npArgs numArgs]
    else []
  | .InvokeDefault =>
    if (rt._class npObject).invokeDefault.isSome then [Event.invokeDefault npObject npArgs numArgs]
    else []

/-- The calls marshalling the arguments of an invocation, argument `i` into slot `i`, in
the order of the arguments. -/
def argumentMarshalling (npObject : NPObject) (args : List V8Value) : List Event :=
  args.enum.map (fun p => Event.convertV8ObjectToNPVariant p.2 npObject (VariantSlot.npArgs p.1))

/-- The calls releasing the slots `0 .. n-1` of `npArgs`, in that order. -/
def argumentRelease (n : Nat) : List Event :=
  (List.range n).map (fun i => Event.releaseVariantValue (VariantSlot.npArgs i))

/-- For a live object, the condition of line 223 is false and leaves the world `after`:
either the class lacks `hasProperty` or `getProperty` and the world is as before, or
`hasProperty` answers false. -/
def propertyBranchNotTaken (rt : Runtime) (npObject : NPObject) (identifier : NPIdentifier)
    (w after : World) : Prop :=
  (((rt._class npObject).hasProperty = none ∨ (rt._class npObject).getProperty = none) ∧
      after = w) ∨
  ∃ hasProperty getProperty,
    (rt._class npObject).hasProperty = some hasProperty ∧
    (rt._class npObject).getProperty = some getProperty ∧
    (hasProperty npObject identifier w).1 = false ∧
    after = (hasProperty npObject identifier w).2

/-- The run of `npObjectGetProperty` is a method lookup whose template step is made in the
world `step`: the receiver has a native object alive at entry, the property branch is not
taken and the object is alive after it, the key is a string, `hasMethod` is present and
answers true, leaving `step`, and the object is alive in `step`. -/
def methodLookup (rt : Runtime) (self : V8Object) (identifier : NPIdentifier) (key : V8Value)
    (w step : World) : Prop :=
  ∃ npObject after hasMethod,
    v8ObjectToNPObject w self = some npObject ∧
    _NPN_IsAlive w npObject = true ∧
    propertyBranchNotTaken rt npObject identifier w after ∧
    _NPN_IsAlive after npObject = true ∧
    key.IsString = true ∧
    (rt._class npObject).hasMethod = some hasMethod ∧
    (hasMethod npObject identifier after).1 = true ∧
    step = (hasMethod npObject identifier after).2 ∧
    _NPN_IsAlive step npObject = true

/-! ## Wrapper table: identity of the proxy -/

theorem initNPObjectDesc_instancesCreated (w : World) :
    (initNPObjectDesc w).instancesCreated = w.instancesCreated := by
  unfold initNPObjectDesc
  cases w.npObjectDesc <;> rfl

theorem initNPObjectDesc_npObjectMap (w : World) :
    (initNPObjectDesc w).npObjectMap = w.npObjectMap := by
  unfold initNPObjectDesc
  cases w.npObjectDesc <;> rfl

theorem initNPObjectDesc_referenceCount (w : World) :
    (initNPObjectDesc w).referenceCount = w.referenceCount := by
  unfold initNPObjectDesc
  cases w.npObjectDesc <;> rfl

theorem initNPObjectDesc_registered (w : World) :
    (initNPObjectDesc w).registered = w.registered := by
  unfold initNPObjectDesc
  cases w.npObjectDesc <;> rfl

/-- C1. Identity uniqueness of `createV8ObjectForNPObject`: for an object that is not of
the script-object class, any root and any world, if the proxy, when it has to be
constructed, is constructed successfully, then a second call made in the world the first
call leaves returns the same non-empty proxy, leaves the world (the wrapper table
included) unchanged, and makes no retain and no register call; over both calls the object
is retained at most once and the table maps the object to exactly that proxy. -/
theorem createV8ObjectForNPObject_identity (rt : Runtime) (object : NPObject)
    (root : Option NPObject) (w : World)
    (hclass : rt.isScriptObjectClass object = false)
    (hconstructed : DOMWrapperMap.get w object = none → rt.newInstance w.instancesCreated ≠ none) :
    ∃ proxy : V8Object,
      (createV8ObjectForNPObject rt object root w).returnValue = some proxy ∧
      (createV8ObjectForNPObject rt object root
        (createV8ObjectForNPObject rt object root w).world).returnValue = some proxy ∧
      (createV8ObjectForNPObject rt object root
        (createV8ObjectForNPObject rt object root w).world).world
          = (createV8ObjectForNPObject rt object root w).world ∧
      (∀ e ∈ (createV8ObjectForNPObject rt object root
        (createV8ObjectForNPObject rt object root w).world).trace,
          e.isRetain = false ∧ e.isRegister = false) ∧
      (((createV8ObjectForNPObject rt object root w).trace ++
        (createV8ObjectForNPObject rt object root
          (createV8ObjectForNPObject rt object root w).world).trace).filter Event.isRetain).length ≤ 1 ∧
      DOMWrapperMap.get (createV8ObjectForNPObject rt object root
        (createV8ObjectForNPObject rt object root w).world).world object = some proxy := by
  cases hget : DOMWrapperMap.get w object with
  | some wrapper =>
    have h1 : createV8ObjectForNPObject rt object root w = ⟨some wrapper, w, [Event.mapGet object]⟩ := by
      simp [createV8ObjectForNPObject, hclass, hget]
    refine ⟨wrapper, ?_⟩
    rw [h1]
    simp only [h1]
    simp [Event.isRetain, Event.isRegister, hget]
  | none =>
    have hnew := hconstructed hget
    rw [← initNPObjectDesc_instancesCreated] at hnew
    obtain ⟨value, hvalue⟩ := Option.ne_none_iff_exists'.mp hnew
    have h1 : createV8ObjectForNPObject rt object root w = ⟨some value,
        DOMWrapperMap.set (_NPN_RegisterObject (_NPN_RetainObject (V8DOMWrapper.setNativeInfo
          { initNPObjectDesc w with instancesCreated := (initNPObjectDesc w).instancesCreated + 1 }
          value object) object) object root) object value,
        [Event.mapGet object, Event.newInstance, Event.setNativeInfo value object,
          Event.retainObject object, Event.registerObject object root,
          Event.mapSet object value]⟩ := by
      simp [createV8ObjectForNPObject, hclass, hget, hvalue]
    have hget2 : ∀ w2 : World, DOMWrapperMap.get (DOMWrapperMap.set w2 object value) object = some value := by
      intro w2
      simp [DOMWrapperMap.get, DOMWrapperMap.set]
    have h2 : ∀ w2 : World, createV8ObjectForNPObject rt object root (DOMWrapperMap.set w2 object value)
        = ⟨some value, DOMWrapperMap.set w2 object value, [Event.mapGet object]⟩ := by
      intro w2
      simp [createV8ObjectForNPObject, hclass, hget2]
    refine ⟨value, ?_⟩
    rw [h1]
    simp only [h2]
    simp [Event.isRetain, Event.isRegister, hget2]

/-- C1, evaluated: object 7 is not in the table of the sample world and its proxy can be
constructed. -/
theorem createV8ObjectForNPObject_identity_witness :
    ∃ proxy : V8Object,
      (createV8ObjectForNPObject sampleRuntime 7 none sampleWorld).returnValue = some proxy ∧
      (createV8ObjectForNPObject sampleRuntime 7 none
        (createV8ObjectForNPObject sampleRuntime 7 none sampleWorld).world).returnValue = some proxy ∧
      (createV8ObjectForNPObject sampleRuntime 7 none
        (createV8ObjectForNPObject sampleRuntime 7 none sampleWorld).world).world
          = (createV8ObjectForNPObject sampleRuntime 7 none sampleWorld).world ∧
      (∀ e ∈ (createV8ObjectForNPObject sampleRuntime 7 none
        (createV8ObjectForNPObject sampleRuntime 7 none sampleWorld).world).trace,
          e.isRetain = false ∧ e.isRegister = false) ∧
      (((createV8ObjectForNPObject sampleRuntime 7 none sampleWorld).trace ++
        (createV8ObjectForNPObject sampleRuntime 7 none
          (createV8ObjectForNPObject sampleRuntime 7 none sampleWorld).world).trace).filter
            Event.isRetain).length ≤ 1 ∧
      DOMWrapperMap.get (createV8ObjectForNPObject sampleRuntime 7 none
        (createV8ObjectForNPObject sampleRuntime 7 none sampleWorld).world).world 7 = some proxy :=
  createV8ObjectForNPObject_identity sampleRuntime 7 none sampleWorld rfl (by decide)

/-! ## Wrapper table: failed construction and the finalizer -/

/-- C9. Atomic failure of wrap: for an object that is neither of the script-object class
nor in the wrapper table, when `V8ObjectConstructor::newInstance` yields an empty handle,
`createV8ObjectForNPObject` returns the empty handle, the wrapper table is unchanged and
has no entry for the object, reference counts and registrations are unchanged, and no
retain, register or table insertion is made. -/
theorem createV8ObjectForNPObject_construction_fails (rt : Runtime) (object : NPObject)
    (root : Option NPObject) (w : World)
    (hclass : rt.isScriptObjectClass object = false)
    (hfresh : DOMWrapperMap.get w object = none)
    (hfails : rt.newInstance w.instancesCreated = none) :
    (createV8ObjectForNPObject rt object root w).returnValue = none ∧
    (createV8ObjectForNPObject rt object root w).world.npObjectMap = w.npObjectMap ∧
    DOMWrapperMap.get (createV8ObjectForNPObject rt object root w).world object = none ∧
    (createV8ObjectForNPObject rt object root w).world.referenceCount = w.referenceCount ∧
    (createV8ObjectForNPObject rt object root w).world.registered = w.registered ∧
    (∀ e ∈ (createV8ObjectForNPObject rt object root w).trace,
      e.isRetain = false ∧ e.isRegister = false ∧ ∀ wrapper, e ≠ Event.mapSet object wrapper) := by
  have hfails2 : rt.newInstance (initNPObjectDesc w).instancesCreated = none := by
    rw [initNPObjectDesc_instancesCreated]; exact hfails
  have h1 : createV8ObjectForNPObject rt object root w
      = ⟨none, initNPObjectDesc w, [Event.mapGet object, Event.newInstance]⟩ := by
    simp [createV8ObjectForNPObject, hclass, hfresh, hfails2]
  rw [h1]
  refine ⟨rfl, initNPObjectDesc_npObjectMap w, ?_, initNPObjectDesc_referenceCount w,
    initNPObjectDesc_registered w, ?_⟩
  · simpa [DOMWrapperMap.get, initNPObjectDesc_npObjectMap] using hfresh
  · simp [Event.isRetain, Event.isRegister]

/-- C9, evaluated: the sixth construction of the sample runtime fails. -/
theorem createV8ObjectForNPObject_construction_fails_witness :
    (createV8ObjectForNPObject sampleRuntime 7 (some 1)
      { sampleWorld with instancesCreated := 5 }).returnValue = none ∧
    (createV8ObjectForNPObject sampleRuntime 7 (some 1)
      { sampleWorld with instancesCreated := 5 }).world.npObjectMap = sampleWorld.npObjectMap ∧
    DOMWrapperMap.get (createV8ObjectForNPObject sampleRuntime 7 (some 1)
      { sampleWorld with instancesCreated := 5 }).world 7 = none ∧
    (createV8ObjectForNPObject sampleRuntime 7 (some 1)
      { sampleWorld with instancesCreated := 5 }).world.referenceCount = sampleWorld.referenceCount ∧
    (createV8ObjectForNPObject sampleRuntime 7 (some 1)
      { sampleWorld with instancesCreated := 5 }).world.registered = sampleWorld.registered ∧
    (∀ e ∈ (createV8ObjectForNPObject sampleRuntime 7 (some 1)
      { sampleWorld with instancesCreated := 5 }).trace,
      e.isRetain = false ∧ e.isRegister = false ∧ ∀ wrapper, e ≠ Event.mapSet 7 wrapper) :=
  createV8ObjectForNPObject_construction_fails sampleRuntime 7 (some 1)
    { sampleWorld with instancesCreated := 5 } rfl (by decide) (by decide)

/-- C10. Finalizer effect: when the weak callback fires for the wrapper of a native
object that the table maps to that wrapper, it completes; afterwards the table has no
entry for the object and every other entry is unchanged; every release call in its trace
is preceded by the removal from the table; the object is released exactly once (and its
reference count goes down by one) when it is alive at that time, and no release is made
(and the count is unchanged) when it is not alive. -/
theorem weakCallback_effect (value : V8Object) (npObject : NPObject) (w : World)
    (hnative : toNative w value = some npObject)
    (hmapped : DOMWrapperMap.get w npObject = some value) :
    ∃ r : Outcome Unit, weakCallback value w = some r ∧
      DOMWrapperMap.get r.world npObject = none ∧
      (∀ other, other ≠ npObject → DOMWrapperMap.get r.world other = DOMWrapperMap.get w other) ∧
      (∀ before later, r.trace = before ++ Event.releaseObject npObject :: later →
        Event.mapRemoveAndDispose npObject value ∈ before) ∧
      (∀ e ∈ r.trace, e.isRelease = true → e = Event.releaseObject npObject) ∧
      (_NPN_IsAlive w npObject = true →
        r.trace.count (Event.releaseObject npObject) = 1 ∧
        r.world.referenceCount npObject = w.referenceCount npObject - 1) ∧
      (_NPN_IsAlive w npObject = false →
        (∀ e ∈ r.trace, e.isRelease = false) ∧ r.world.referenceCount = w.referenceCount) := by
  cases halive : _NPN_IsAlive w npObject with
  | true =>
    have halive1 : _NPN_IsAlive (DOMWrapperMap.removeAndDispose w npObject value) npObject = true := halive
    refine ⟨⟨(), _NPN_ReleaseObject (DOMWrapperMap.removeAndDispose w npObject value) npObject,
      [Event.mapRemoveAndDispose npObject value, Event.isAlive npObject,
        Event.releaseObject npObject]⟩, ?_, ?_, ?_, ?_, ?_, ?_, ?_⟩
    · simp [weakCallback, hnative, hmapped, halive1]
    · simp [DOMWrapperMap.get, _NPN_ReleaseObject, DOMWrapperMap.removeAndDispose]
    · intro other hother
      simp [DOMWrapperMap.get, _NPN_ReleaseObject, DOMWrapperMap.removeAndDispose, hother]
    · intro before later h
      match before, h with
      | [], h => simp at h
      | [_], h => simp at h
      | [a, _], h =>
        simp only [List.cons_append, List.nil_append, List.cons.injEq] at h
        simp [← h.1]
      | a :: _ :: _ :: rest, h =>
        simp only [List.cons_append, List.cons.injEq] at h
        simp [← h.1]
    · simp [Event.isRelease]
    · intro _
      refine ⟨by simp [List.count_cons], ?_⟩
      simp [_NPN_ReleaseObject, DOMWrapperMap.removeAndDispose]
    · intro h
      cases h
  | false =>
    have halive1 : _NPN_IsAlive (DOMWrapperMap.removeAndDispose w npObject value) npObject = false := halive
    refine ⟨⟨(), DOMWrapperMap.removeAndDispose w npObject value,
      [Event.mapRemoveAndDispose npObject value, Event.isAlive npObject]⟩, ?_, ?_, ?_, ?_, ?_, ?_, ?_⟩
    · simp [weakCallback, hnative, hmapped, halive1]
    · simp [DOMWrapperMap.get, DOMWrapperMap.removeAndDispose]
    · intro other hother
      simp [DOMWrapperMap.get, DOMWrapperMap.removeAndDispose, hother]
    · intro before later h
      match before, h with
      | [], h => simp at h
      | [_], h => simp at h
      | [a, _], h => simp at h
      | a :: _ :: _ :: rest, h => simp at h
    · simp [Event.isRelease]
    · intro h
      cases h
    · intro _
      refine ⟨by simp [Event.isRelease], rfl⟩

/-- C10, evaluated: the wrapper 10 of the live object 1 of the sample world is finalized. -/
theorem weakCallback_effect_witness :
    toNative sampleWorld (V8Object.mk 10) = some 1 ∧
    DOMWrapperMap.get sampleWorld 1 = some (V8Object.mk 10) ∧
    _NPN_IsAlive sampleWorld 1 = true ∧
    ∃ r : Outcome Unit, weakCallback (V8Object.mk 10) sampleWorld = some r ∧
      DOMWrapperMap.get r.world 1 = none ∧
      r.trace.count (Event.releaseObject 1) = 1 ∧
      r.world.referenceCount 1 = sampleWorld.referenceCount 1 - 1 :=
  ⟨rfl, rfl, rfl,
    (weakCallback_effect (V8Object.mk 10) 1 sampleWorld rfl rfl).imp
      (fun _ h => ⟨h.1, h.2.1, (h.2.2.2.2.2.1 rfl).1, (h.2.2.2.2.2.1 rfl).2⟩)⟩

/-! ## Dispatcher: liveness at entry -/

/-- C2. Liveness short-circuit at entry for get, set and invoke: when the native object
of the receiver is null or not alive as the operation starts, each of
`npObjectGetProperty`, `npObjectSetProperty` and `npObjectInvokeImpl` (for every function
type) raises the "NPObject deleted" reference error, makes no call into the capability
table, marshals nothing and leaves the world as it was. For `npObjectInvokeImpl` the
native object of the receiver is the one lines 70-96 determine from the holder. -/
theorem liveness_short_circuit_at_entry (rt : Runtime) (w : World) :
    (∀ self identifier key, deletedAtEntry w (v8ObjectToNPObject w self) = true →
      npObjectDeleted ∈ (npObjectGetProperty rt self identifier key w).trace ∧
      (∀ e ∈ (npObjectGetProperty rt self identifier key w).trace,
        e.isVtableCall = false ∧ e.isMarshal = false) ∧
      (npObjectGetProperty rt self identifier key w).world = w) ∧
    (∀ self identifier value, deletedAtEntry w (v8ObjectToNPObject w self) = true →
      npObjectDeleted ∈ (npObjectSetProperty rt self identifier value w).trace ∧
      (∀ e ∈ (npObjectSetProperty rt self identifier value w).trace,
        e.isVtableCall = false ∧ e.isMarshal = false) ∧
      (npObjectSetProperty rt self identifier value w).world = w) ∧
    (∀ args functionId npObject, holderNPObject rt w args.Holder = some npObject →
      deletedAtEntry w npObject = true →
      npObjectDeleted ∈ (npObjectInvokeImpl rt args functionId w).trace ∧
      (∀ e ∈ (npObjectInvokeImpl rt args functionId w).trace,
        e.isVtableCall = false ∧ e.isMarshal = false) ∧
      (npObjectInvokeImpl rt args functionId w).world = w) := by
  refine ⟨?_, ?_, ?_⟩
  · intro self identifier key hdead
    cases hself : v8ObjectToNPObject w self with
    | none => simp [npObjectGetProperty, hself, npObjectDeleted, Event.isVtableCall, Event.isMarshal]
    | some npObject =>
      rw [hself] at hdead
      have halive : _NPN_IsAlive w npObject = false := by simpa [deletedAtEntry] using hdead
      simp [npObjectGetProperty, hself, halive, npObjectDeleted, Event.isVtableCall, Event.isMarshal]
  · intro self identifier value hdead
    cases hself : v8ObjectToNPObject w self with
    | none => simp [npObjectSetProperty, hself, npObjectDeleted, Event.isVtableCall, Event.isMarshal]
    | some npObject =>
      rw [hself] at hdead
      have halive : _NPN_IsAlive w npObject = false := by simpa [deletedAtEntry] using hdead
      simp [npObjectSetProperty, hself, halive, npObjectDeleted, Event.isVtableCall, Event.isMarshal]
  · intro args functionId npObject hholder hdead
    cases npObject with
    | none => simp [npObjectInvokeImpl, hholder, npObjectDeleted, Event.isVtableCall, Event.isMarshal]
    | some npObject =>
      have halive : _NPN_IsAlive w npObject = false := by simpa [deletedAtEntry] using hdead
      simp [npObjectInvokeImpl, hholder, halive, npObjectDeleted, Event.isVtableCall, Event.isMarshal]

/-- C2, evaluated: a get on the proxy 40 of the dead object 4, a set on the script object
50 that has no native object, and a method call on the proxy 40. -/
theorem liveness_short_circuit_at_entry_witness :
    deletedAtEntry sampleWorld (v8ObjectToNPObject sampleWorld (V8Object.mk 40)) = true ∧
    deletedAtEntry sampleWorld (v8ObjectToNPObject sampleWorld (V8Object.mk 50)) = true ∧
    npObjectDeleted ∈ (npObjectGetProperty sampleRuntime (V8Object.mk 40)
      (IdentifierRep.m_string "x") (V8Value.string "x") sampleWorld).trace ∧
    npObjectDeleted ∈ (npObjectSetProperty sampleRuntime (V8Object.mk 50)
      (IdentifierRep.m_string "x") (V8Value.number 1) sampleWorld).trace ∧
    (∀ e ∈ (npObjectInvokeImpl sampleRuntime
        ⟨Holder.other (V8Object.mk 40) 3, [V8Value.number 1], V8Value.string "f", false⟩
        InvokeFunctionType.InvokeMethod sampleWorld).trace,
      e.isVtableCall = false ∧ e.isMarshal = false) :=
  ⟨rfl, rfl,
    ((liveness_short_circuit_at_entry sampleRuntime sampleWorld).1 (V8Object.mk 40)
      (IdentifierRep.m_string "x") (V8Value.string "x") rfl).1,
    ((liveness_short_circuit_at_entry sampleRuntime sampleWorld).2.1 (V8Object.mk 50)
      (IdentifierRep.m_string "x") (V8Value.number 1) rfl).1,
    ((liveness_short_circuit_at_entry sampleRuntime sampleWorld).2.2
      ⟨Holder.other (V8Object.mk 40) 3, [V8Value.number 1], V8Value.string "f", false⟩
      InvokeFunctionType.InvokeMethod (some 4) rfl rfl).2.1⟩

/-- C3, the code at a dead object: enumerating the proxy 40 of the dead object 4 of the
sample world, whose class has the enumerate capability, raises "NPObject deleted" and
then still calls the native `enumerate` and returns its identifiers. -/
theorem npObjectPropertyEnumerator_dead_object_enumerates :
    deletedAtEntry sampleWorld (v8ObjectToNPObject sampleWorld (V8Object.mk 40)) = true ∧
    ∃ r, npObjectPropertyEnumerator sampleRuntime (V8Object.mk 40) true sampleWorld = some r ∧
      r.trace = [Event.isAlive 4, npObjectDeleted, Event.enumerate 4] ∧
      r.returnValue = some [V8Value.symbol (some "x")] := by
  refine ⟨rfl, ?_⟩
  simp [npObjectPropertyEnumerator, v8ObjectToNPObject, sampleWorld, sampleRuntime, _NPN_IsAlive,
    NP_CLASS_STRUCT_VERSION_HAS_ENUM, selfDestroyingClass, enumeratedElement, IdentifierRep.string]

/-! ## Dispatcher: destruction during a getter -/

/-- C4, as stated, fails: on the proxy 20 of the live object 2 of the sample world, whose
`hasProperty` answers true and whose `getProperty` reports success while destroying its
own object, `npObjectGetProperty` raises no error at all; it returns an empty handle. -/
theorem npObjectGetProperty_reentrant_destruction_raises_nothing :
    v8ObjectToNPObject sampleWorld (V8Object.mk 20) = some 2 ∧
    _NPN_IsAlive sampleWorld 2 = true ∧
    (∃ hasProperty getProperty,
      (sampleRuntime._class 2).hasProperty = some hasProperty ∧
      (sampleRuntime._class 2).getProperty = some getProperty ∧
      (hasProperty 2 (IdentifierRep.m_string "x") sampleWorld).1 = true ∧
      (getProperty 2 (IdentifierRep.m_string "x")
        (hasProperty 2 (IdentifierRep.m_string "x") sampleWorld).2).1 = true ∧
      _NPN_IsAlive (getProperty 2 (IdentifierRep.m_string "x")
        (hasProperty 2 (IdentifierRep.m_string "x") sampleWorld).2).2.2 2 = false) ∧
    npObjectDeleted ∉ (npObjectGetProperty sampleRuntime (V8Object.mk 20)
      (IdentifierRep.m_string "x") (V8Value.string "x") sampleWorld).trace ∧
    (∀ e ∈ (npObjectGetProperty sampleRuntime (V8Object.mk 20)
      (IdentifierRep.m_string "x") (V8Value.string "x") sampleWorld).trace, e.isAnyThrow = false) ∧
    (npObjectGetProperty sampleRuntime (V8Object.mk 20)
      (IdentifierRep.m_string "x") (V8Value.string "x") sampleWorld).returnValue = Handle.empty := by
  refine ⟨rfl, rfl, ⟨_, _, rfl, rfl, rfl, rfl, ?_⟩, ?_, ?_, ?_⟩
  · simp [_NPN_IsAlive, destroy]
  all_goals
    simp [npObjectGetProperty, getPropertyBranch, Outcome.after, v8ObjectToNPObject, sampleWorld,
      sampleRuntime, selfDestroyingClass, _NPN_IsAlive, destroy, npObjectDeleted, Event.isAnyThrow]

/-- C4, amended. Reentrant destruction during property get: for an object alive at entry
with `hasProperty` and `getProperty` present, `hasProperty(identifier)` true and the
object alive when `hasProperty` returns, if the native `getProperty` call reports success
but the object is no longer alive when it returns, `npObjectGetProperty` completes with
exactly the calls listed: the native result is not converted to a script value, it is
released, no error is raised, and the handle returned is empty. -/
theorem npObjectGetProperty_reentrant_destruction (rt : Runtime) (self : V8Object)
    (identifier : NPIdentifier) (key : V8Value) (w : World) (npObject : NPObject)
    (hasProperty : NPObject → NPIdentifier → World → Bool × World)
    (getProperty : NPObject → NPIdentifier → World → Bool × NPVariant × World)
    (hself : v8ObjectToNPObject w self = some npObject)
    (halive : _NPN_IsAlive w npObject = true)
    (hhas : (rt._class npObject).hasProperty = some hasProperty)
    (hget : (rt._class npObject).getProperty = some getProperty)
    (hpresent : (hasProperty npObject identifier w).1 = true)
    (hstill : _NPN_IsAlive (hasProperty npObject identifier w).2 npObject = true)
    (hsuccess : (getProperty npObject identifier (hasProperty npObject identifier w).2).1 = true)
    (hgone : _NPN_IsAlive
      (getProperty npObject identifier (hasProperty npObject identifier w).2).2.2 npObject = false) :
    (npObjectGetProperty rt self identifier key w).trace =
      [Event.isAlive npObject, Event.hasProperty npObject identifier, Event.isAlive npObject,
        Event.getProperty npObject identifier, Event.isAlive npObject,
        Event.releaseVariantValue VariantSlot.result] ∧
    (∀ e ∈ (npObjectGetProperty rt self identifier key w).trace,
      e.isResultConversion = false ∧ e.isAnyThrow = false) ∧
    Event.releaseVariantValue VariantSlot.result ∈ (npObjectGetProperty rt self identifier key w).trace ∧
    (npObjectGetProperty rt self identifier key w).returnValue = Handle.empty ∧
    (npObjectGetProperty rt self identifier key w).world =
      (getProperty npObject identifier (hasProperty npObject identifier w).2).2.2 := by
  have h : npObjectGetProperty rt self identifier key w =
      ⟨Handle.empty, (getProperty npObject identifier (hasProperty npObject identifier w).2).2.2,
        [Event.isAlive npObject, Event.hasProperty npObject identifier, Event.isAlive npObject,
          Event.getProperty npObject identifier, Event.isAlive npObject,
          Event.releaseVariantValue VariantSlot.result]⟩ := by
    simp [npObjectGetProperty, getPropertyBranch, Outcome.after, hself, halive, hhas, hget,
      hpresent, hstill, hsuccess, hgone]
  rw [h]
  simp [Event.isResultConversion, Event.isAnyThrow]

/-- C4 amended, evaluated on the proxy 20 of the self-destroying object 2. -/
theorem npObjectGetProperty_reentrant_destruction_witness :
    (npObjectGetProperty sampleRuntime (V8Object.mk 20) (IdentifierRep.m_string "x")
      (V8Value.string "x") sampleWorld).trace =
      [Event.isAlive 2, Event.hasProperty 2 (IdentifierRep.m_string "x"), Event.isAlive 2,
        Event.getProperty 2 (IdentifierRep.m_string "x"), Event.isAlive 2,
        Event.releaseVariantValue VariantSlot.result] ∧
    (npObjectGetProperty sampleRuntime (V8Object.mk 20) (IdentifierRep.m_string "x")
      (V8Value.string "x") sampleWorld).returnValue = Handle.empty :=
  have h := npObjectGetProperty_reentrant_destruction sampleRuntime (V8Object.mk 20)
    (IdentifierRep.m_string "x") (V8Value.string "x") sampleWorld 2
    (fun _ _ w => (true, w)) (fun o _ w => (true, NPVariant.int32 7, destroy o w))
    rfl rfl rfl rfl rfl rfl rfl (by simp [_NPN_IsAlive, destroy])
  ⟨h.1, h.2.2.2.1⟩

/-! ## Dispatcher: the shape of an invocation -/

theorem marshalCalls_mem (npObject : NPObject) :
    ∀ (l : List V8Value) (i : Nat) (e : Event), e ∈ marshalCalls npObject i l →
      ∃ a j, i ≤ j ∧ j < i + l.length ∧
        e = Event.convertV8ObjectToNPVariant a npObject (VariantSlot.npArgs j) := by
  intro l
  induction l with
  | nil => intro i e h; simp [marshalCalls] at h
  | cons a rest ih =>
    intro i e h
    simp only [marshalCalls, List.mem_cons] at h
    rcases h with h | h
    · exact ⟨a, i, Nat.le_refl i, by simp, h⟩
    · obtain ⟨b, j, h1, h2, h3⟩ := ih (i + 1) e h
      exact ⟨b, j, by omega, by simp only [List.length_cons]; omega, h3⟩

theorem releaseCalls_mem :
    ∀ (n i : Nat) (e : Event), e ∈ releaseCalls i n →
      ∃ j, i ≤ j ∧ j < i + n ∧ e = Event.releaseVariantValue (VariantSlot.npArgs j) := by
  intro n
  induction n with
  | zero => intro i e h; simp [releaseCalls] at h
  | succ n ih =>
    intro i e h
    simp only [releaseCalls, List.mem_cons] at h
    rcases h with h | h
    · exact ⟨i, Nat.le_refl i, by omega, h⟩
    · obtain ⟨j, h1, h2, h3⟩ := ih (i + 1) e h
      exact ⟨j, by omega, by omega, h3⟩

/-- The switch of lines 113-131 either finds the capability absent and makes no call, or
makes exactly one call, to the capability of the function type, with the arguments given. -/
theorem invokeSwitch_cases (rt : Runtime) (functionId : InvokeFunctionType) (npObject : NPObject)
    (Data : V8Value) (npArgs : List NPVariant) (numArgs : Nat) (w : World) :
    (invokeCapability rt functionId npObject Data = none ∧
      invokeSwitch rt functionId npObject Data npArgs numArgs w = ((true, NPVariant.void, w), [])) ∨
    (∃ c e, invokeCapability rt functionId npObject Data = some c ∧
      invokeSwitch rt functionId npObject Data npArgs numArgs w = (c npArgs numArgs w, [e]) ∧
      e.isVtableCall = true ∧ e.nativeArgs = some (npArgs, numArgs) ∧
      e.marshalSlot = none ∧ e.releasedSlot = none ∧ e.isAnyThrow = false ∧
      e.isResultConversion = false) := by
  cases functionId with
  | InvokeMethod =>
    cases h : (rt._class npObject).invoke with
    | none => left; simp [invokeCapability, invokeSwitch, h]
    | some f =>
      right
      exact ⟨f npObject (rt.getStringIdentifier Data),
        Event.invoke npObject (rt.getStringIdentifier Data) npArgs numArgs,
        by simp [invokeCapability, h], by simp [invokeSwitch, h], rfl, rfl, rfl, rfl, rfl, rfl⟩
  | InvokeConstruct =>
    cases h : (rt._class npObject).construct with
    | none => left; simp [invokeCapability, invokeSwitch, h]
    | some f =>
      right
      exact ⟨f npObject, Event.construct npObject npArgs numArgs, by simp [invokeCapability, h],
        by simp [invokeSwitch, h], rfl, rfl, rfl, rfl, rfl, rfl⟩
  | InvokeDefault =>
    cases h : (rt._class npObject).invokeDefault with
    | none => left; simp [invokeCapability, invokeSwitch, h]
    | some f =>
      right
      exact ⟨f npObject, Event.invokeDefault npObject npArgs numArgs, by simp [invokeCapability, h],
        by simp [invokeSwitch, h], rfl, rfl, rfl, rfl, rfl, rfl⟩

/-- The run of `npObjectInvokeImpl` on a receiver whose native object is alive at entry:
its calls in order, the world it leaves, and the two ways it ends. -/
theorem npObjectInvokeImpl_live (rt : Runtime) (args : Arguments) (functionId : InvokeFunctionType)
    (w : World) (npObject : NPObject)
    (hholder : holderNPObject rt w args.Holder = some (some npObject))
    (halive : _NPN_IsAlive w npObject = true) :
    ∃ ending,
      (npObjectInvokeImpl rt args functionId w).trace =
        Event.isAlive npObject :: (marshalCalls npObject 0 args.args
          ++ (invokeSwitch rt functionId npObject args.Data
                (marshalledArgs rt npObject args.args) args.Length w).2
          ++ (if (invokeSwitch rt functionId npObject args.Data
                (marshalledArgs rt npObject args.args) args.Length w).1.1 = false
              then [errorCallingMethod] else [])
          ++ releaseCalls 0 args.Length ++ [Event.isAlive npObject] ++ ending) ∧
      (npObjectInvokeImpl rt args functionId w).world =
        (invokeSwitch rt functionId npObject args.Data
          (marshalledArgs rt npObject args.args) args.Length w).1.2.2 ∧
      ((_NPN_IsAlive (npObjectInvokeImpl rt args functionId w).world npObject = true ∧
          ending = [Event.convertNPVariantToV8Object
              (invokeSwitch rt functionId npObject args.Data
                (marshalledArgs rt npObject args.args) args.Length w).1.2.1 npObject,
            Event.releaseVariantValue VariantSlot.result] ∧
          (npObjectInvokeImpl rt args functionId w).returnValue =
            rt.convertNPVariantToV8Object
              (invokeSwitch rt functionId npObject args.Data
                (marshalledArgs rt npObject args.args) args.Length w).1.2.1 npObject) ∨
        (_NPN_IsAlive (npObjectInvokeImpl rt args functionId w).world npObject = false ∧
          ending = [Event.releaseVariantValue VariantSlot.result] ∧
          (npObjectInvokeImpl rt args functionId w).returnValue = Handle.empty)) := by
  cases hafter : _NPN_IsAlive (invokeSwitch rt functionId npObject args.Data
      (marshalledArgs rt npObject args.args) args.Length w).1.2.2 npObject with
  | true =>
    refine ⟨_, ?_, ?_, Or.inl ⟨?_, rfl, ?_⟩⟩ <;>
      simp [npObjectInvokeImpl, invokeLive, Outcome.after, hholder, halive, hafter]
  | false =>
    refine ⟨_, ?_, ?_, Or.inr ⟨?_, rfl, ?_⟩⟩ <;>
      simp [npObjectInvokeImpl, invokeLive, Outcome.after, hholder, halive, hafter]

theorem marshalCalls_filter_slot (npObject : NPObject) :
    ∀ (l : List V8Value) (k i : Nat),
      (marshalCalls npObject k l).filter
          (fun e => decide (e.marshalSlot = some (VariantSlot.npArgs i))) =
        if k ≤ i then
          (l[i - k]?).toList.map
            (fun a => Event.convertV8ObjectToNPVariant a npObject (VariantSlot.npArgs i))
        else [] := by
  intro l
  induction l with
  | nil => intro k i; simp [marshalCalls]
  | cons a rest ih =>
    intro k i
    simp only [marshalCalls, List.filter_cons, ih (k + 1) i]
    rcases Nat.lt_trichotomy k i with h | h | h
    · have h1 : k + 1 ≤ i := h
      have h2 : k ≤ i := Nat.le_of_lt h
      have h3 : i - k = (i - (k + 1)) + 1 := by omega
      have h4 : k ≠ i := Nat.ne_of_lt h
      simp [Event.marshalSlot, h1, h2, h3, h4]
    · subst h
      simp [Event.marshalSlot]
    · have h1 : ¬ k + 1 ≤ i := by omega
      have h2 : ¬ k ≤ i := by omega
      have h4 : k ≠ i := by omega
      simp [Event.marshalSlot, h1, h2, h4]

theorem releaseCalls_filter_slot :
    ∀ (n k i : Nat),
      (releaseCalls k n).filter
          (fun e => decide (e.releasedSlot = some (VariantSlot.npArgs i))) =
        if k ≤ i ∧ i < k + n then [Event.releaseVariantValue (VariantSlot.npArgs i)] else [] := by
  intro n
  induction n with
  | zero => intro k i; simp [releaseCalls]
  | succ n ih =>
    intro k i
    simp only [releaseCalls, List.filter_cons, ih (k + 1) i]
    rcases Nat.lt_trichotomy k i with h | h | h
    · have h4 : k ≠ i := Nat.ne_of_lt h
      by_cases h5 : i < k + 1 + n
      · have h6 : k + 1 ≤ i ∧ i < k + 1 + n := ⟨h, h5⟩
        have h7 : k ≤ i ∧ i < k + (n + 1) := ⟨Nat.le_of_lt h, by omega⟩
        simp [Event.releasedSlot, h4, h6, h7]
      · have h6 : ¬ (k + 1 ≤ i ∧ i < k + 1 + n) := fun c => h5 c.2
        have h7 : ¬ (k ≤ i ∧ i < k + (n + 1)) := fun c => h5 (by omega)
        simp [Event.releasedSlot, h4, h6, h7]
    · subst h
      have h6 : ¬ (k + 1 ≤ k ∧ k < k + 1 + n) := fun c => by omega
      simp [Event.releasedSlot, h6]
    · have h4 : k ≠ i := by omega
      have h6 : ¬ (k + 1 ≤ i ∧ i < k + 1 + n) := fun c => by omega
      have h7 : ¬ (k ≤ i ∧ i < k + (n + 1)) := fun c => by omega
      simp [Event.releasedSlot, h4, h6, h7]

theorem marshalCalls_eq_enumFrom (npObject : NPObject) :
    ∀ (l : List V8Value) (k : Nat),
      marshalCalls npObject k l = (l.enumFrom k).map
        (fun p => Event.convertV8ObjectToNPVariant p.2 npObject (VariantSlot.npArgs p.1)) := by
  intro l
  induction l with
  | nil => intro k; rfl
  | cons a rest ih =>
    intro k
    simp [marshalCalls, List.enumFrom, ih]

theorem releaseCalls_eq_range' :
    ∀ (n k : Nat),
      releaseCalls k n = (List.range' k n).map
        (fun i => Event.releaseVariantValue (VariantSlot.npArgs i)) := by
  intro n
  induction n with
  | zero => intro k; rfl
  | succ n ih =>
    intro k
    simp [releaseCalls, List.range', ih]

theorem invokeSwitch_eq (rt : Runtime) (functionId : InvokeFunctionType) (npObject : NPObject)
    (Data : V8Value) (npArgs : List NPVariant) (numArgs : Nat) (w : World) :
    invokeSwitch rt functionId npObject Data npArgs numArgs w =
      (nativeInvocation rt functionId npObject Data npArgs numArgs w,
        invocationCall rt functionId npObject Data npArgs numArgs) := by
  cases functionId with
  | InvokeMethod =>
    cases h : (rt._class npObject).invoke <;>
      simp [invokeSwitch, nativeInvocation, invocationCall, invokeCapability, h]
  | InvokeConstruct =>
    cases h : (rt._class npObject).construct <;>
      simp [invokeSwitch, nativeInvocation, invocationCall, invokeCapability, h]
  | InvokeDefault =>
    cases h : (rt._class npObject).invokeDefault <;>
      simp [invokeSwitch, nativeInvocation, invocationCall, invokeCapability, h]

/-- The whole run of `npObjectInvokeImpl` on a receiver whose native object is alive at
entry: the value returned, the world left and the calls made, in order. -/
theorem npObjectInvokeImpl_live_exact (rt : Runtime) (args : Arguments)
    (functionId : InvokeFunctionType) (w : World) (npObject : NPObject)
    (hholder : holderNPObject rt w args.Holder = some (some npObject))
    (halive : _NPN_IsAlive w npObject = true) :
    (npObjectInvokeImpl rt args functionId w).world =
      (nativeInvocation rt functionId npObject args.Data
        (args.args.map (fun a => rt.convertV8ObjectToNPVariant a npObject)) args.args.length w).2.2 ∧
    (npObjectInvokeImpl rt args functionId w).returnValue =
      (if _NPN_IsAlive (nativeInvocation rt functionId npObject args.Data
          (args.args.map (fun a => rt.convertV8ObjectToNPVariant a npObject))
          args.args.length w).2.2 npObject = true
        then rt.convertNPVariantToV8Object (nativeInvocation rt functionId npObject args.Data
          (args.args.map (fun a => rt.convertV8ObjectToNPVariant a npObject))
          args.args.length w).2.1 npObject
        else Handle.empty) ∧
    (npObjectInvokeImpl rt args functionId w).trace =
      [Event.isAlive npObject] ++ argumentMarshalling npObject args.args
        ++ invocationCall rt functionId npObject args.Data
            (args.args.map (fun a => rt.convertV8ObjectToNPVariant a npObject)) args.args.length
        ++ (if (nativeInvocation rt functionId npObject args.Data
              (args.args.map (fun a => rt.convertV8ObjectToNPVariant a npObject))
              args.args.length w).1 = false
            then [errorCallingMethod] else [])
        ++ argumentRelease args.args.length
        ++ [Event.isAlive npObject]
        ++ (if _NPN_IsAlive (nativeInvocation rt functionId npObject args.Data
              (args.args.map (fun a => rt.convertV8ObjectToNPVariant a npObject))
              args.args.length w).2.2 npObject = true
            then [Event.convertNPVariantToV8Object (nativeInvocation rt functionId npObject
              args.Data (args.args.map (fun a => rt.convertV8ObjectToNPVariant a npObject))
              args.args.length w).2.1 npObject]
            else [])
        ++ [Event.releaseVariantValue VariantSlot.result] := by
  have hm : marshalCalls npObject 0 args.args = argumentMarshalling npObject args.args := by
    rw [marshalCalls_eq_enumFrom]
    rfl
  have hr : releaseCalls 0 args.args.length = argumentRelease args.args.length := by
    rw [releaseCalls_eq_range', argumentRelease, List.range_eq_range']
  cases hafter : _NPN_IsAlive (nativeInvocation rt functionId npObject args.Data
      (args.args.map (fun a => rt.convertV8ObjectToNPVariant a npObject))
      args.args.length w).2.2 npObject <;>
    simp [npObjectInvokeImpl, invokeLive, Outcome.after, hholder, halive, invokeSwitch_eq,
      marshalledArgs, Arguments.Length, hm, hr, hafter]

/-! ## Dispatcher: result marshalling, invocation errors, release of arguments -/

/-- C5, as stated, fails: a method call on the proxy 20 of the live object 2 of the sample
world, whose `invoke` reports success while destroying its own object, raises no error at
all; the caller gets an empty handle. -/
theorem npObjectInvokeImpl_destroyed_raises_nothing :
    holderNPObject sampleRuntime sampleWorld (Holder.other (V8Object.mk 20) 3) = some (some 2) ∧
    _NPN_IsAlive sampleWorld 2 = true ∧
    _NPN_IsAlive (npObjectInvokeImpl sampleRuntime
      ⟨Holder.other (V8Object.mk 20) 3, [V8Value.number 5], V8Value.string "f", false⟩
      InvokeFunctionType.InvokeMethod sampleWorld).world 2 = false ∧
    npObjectDeleted ∉ (npObjectInvokeImpl sampleRuntime
      ⟨Holder.other (V8Object.mk 20) 3, [V8Value.number 5], V8Value.string "f", false⟩
      InvokeFunctionType.InvokeMethod sampleWorld).trace ∧
    (∀ e ∈ (npObjectInvokeImpl sampleRuntime
      ⟨Holder.other (V8Object.mk 20) 3, [V8Value.number 5], V8Value.string "f", false⟩
      InvokeFunctionType.InvokeMethod sampleWorld).trace, e.isAnyThrow = false) ∧
    (npObjectInvokeImpl sampleRuntime
      ⟨Holder.other (V8Object.mk 20) 3, [V8Value.number 5], V8Value.string "f", false⟩
      InvokeFunctionType.InvokeMethod sampleWorld).returnValue = Handle.empty := by
  refine ⟨rfl, rfl, ?_, ?_, ?_, ?_⟩ <;>
    simp [npObjectInvokeImpl, invokeLive, invokeSwitch, marshalCalls, releaseCalls, marshalledArgs,
      Arguments.Length, Outcome.after, holderNPObject, v8ObjectToNPObject, sampleWorld,
      sampleRuntime, selfDestroyingClass, _NPN_IsAlive, destroy, npObjectDeleted,
      Event.isAnyThrow]

/-- Every call in the run of `npObjectInvokeImpl` on a live object is one of: a liveness
check, the marshalling of an argument, the native call, the generic error after a failed
native call, the release of an argument, the conversion of the result with the object
alive afterwards, or the release of the result. -/
theorem npObjectInvokeImpl_live_events (rt : Runtime) (args : Arguments)
    (functionId : InvokeFunctionType) (w : World) (npObject : NPObject)
    (hholder : holderNPObject rt w args.Holder = some (some npObject))
    (halive : _NPN_IsAlive w npObject = true) :
    ∀ e ∈ (npObjectInvokeImpl rt args functionId w).trace,
      e = Event.isAlive npObject ∨
      (∃ a j, j < args.args.length ∧
        e = Event.convertV8ObjectToNPVariant a npObject (VariantSlot.npArgs j)) ∨
      e ∈ (invokeSwitch rt functionId npObject args.Data
            (marshalledArgs rt npObject args.args) args.Length w).2 ∨
      (e = errorCallingMethod ∧ (invokeSwitch rt functionId npObject args.Data
            (marshalledArgs rt npObject args.args) args.Length w).1.1 = false) ∨
      (∃ j, j < args.args.length ∧ e = Event.releaseVariantValue (VariantSlot.npArgs j)) ∨
      ((∃ v, e = Event.convertNPVariantToV8Object v npObject) ∧
        _NPN_IsAlive (npObjectInvokeImpl rt args functionId w).world npObject = true) ∨
      e = Event.releaseVariantValue VariantSlot.result := by
  obtain ⟨ending, htrace, -, hend⟩ := npObjectInvokeImpl_live rt args functionId w npObject hholder halive
  intro e he
  rw [htrace] at he
  simp only [List.mem_cons, List.mem_append, List.not_mem_nil, or_false] at he
  rcases he with he | ((((he | he) | he) | he) | he) | he
  · exact Or.inl he
  · obtain ⟨a, j, -, hj, h⟩ := marshalCalls_mem npObject _ _ e he
    exact Or.inr (Or.inl ⟨a, j, by simpa using hj, h⟩)
  · exact Or.inr (Or.inr (Or.inl he))
  · refine Or.inr (Or.inr (Or.inr (Or.inl ?_)))
    split at he
    · next hfalse => exact ⟨by simpa using he, hfalse⟩
    · simp at he
  · obtain ⟨j, -, hj, h⟩ := releaseCalls_mem _ _ e he
    exact Or.inr (Or.inr (Or.inr (Or.inr (Or.inl ⟨j, by simpa [Arguments.Length] using hj, h⟩))))
  · exact Or.inl he
  · rcases hend with ⟨hal, hending, -⟩ | ⟨-, hending, -⟩
    · rw [hending] at he
      simp only [List.mem_cons, List.mem_singleton, List.not_mem_nil, or_false] at he
      rcases he with he | he
      · exact Or.inr (Or.inr (Or.inr (Or.inr (Or.inr (Or.inl ⟨⟨_, he⟩, hal⟩)))))
      · exact Or.inr (Or.inr (Or.inr (Or.inr (Or.inr (Or.inr he)))))
    · rw [hending] at he
      simp only [List.mem_singleton] at he
      exact Or.inr (Or.inr (Or.inr (Or.inr (Or.inr (Or.inr he)))))

/-- The world `npObjectInvokeImpl` leaves on a live object is the world the native call
leaves, or the world at entry when the capability is absent. -/
theorem npObjectInvokeImpl_live_world (rt : Runtime) (args : Arguments)
    (functionId : InvokeFunctionType) (w : World) (npObject : NPObject)
    (hholder : holderNPObject rt w args.Holder = some (some npObject))
    (halive : _NPN_IsAlive w npObject = true) :
    (npObjectInvokeImpl rt args functionId w).world =
      match invokeCapability rt functionId npObject args.Data with
      | some c => (c (marshalledArgs rt npObject args.args) args.Length w).2.2
      | none => w := by
  obtain ⟨ending, -, hworld, -⟩ := npObjectInvokeImpl_live rt args functionId w npObject hholder halive
  rw [hworld]
  rcases invokeSwitch_cases rt functionId npObject args.Data
    (marshalledArgs rt npObject args.args) args.Length w with ⟨hc, hs⟩ | ⟨c, e, hc, hs, -⟩
  · rw [hc, hs]
  · rw [hc, hs]

/-- On an object alive at entry, some result conversion is among the calls of
`npObjectInvokeImpl` exactly when the object is alive in the world left; when it is not,
the handle returned is empty and "NPObject deleted" is not raised; every error raised is
the generic one, after a native call that reported failure. -/
theorem npObjectInvokeImpl_conversion_iff_alive (rt : Runtime) (args : Arguments)
    (functionId : InvokeFunctionType) (w : World) (npObject : NPObject)
    (hholder : holderNPObject rt w args.Holder = some (some npObject))
    (halive : _NPN_IsAlive w npObject = true) :
    ((∃ e ∈ (npObjectInvokeImpl rt args functionId w).trace, e.isResultConversion = true) ↔
      _NPN_IsAlive (npObjectInvokeImpl rt args functionId w).world npObject = true) ∧
    ((npObjectInvokeImpl rt args functionId w).world =
      match invokeCapability rt functionId npObject args.Data with
      | some c => (c (marshalledArgs rt npObject args.args) args.Length w).2.2
      | none => w) ∧
    (_NPN_IsAlive (npObjectInvokeImpl rt args functionId w).world npObject = false →
      (npObjectInvokeImpl rt args functionId w).returnValue = Handle.empty ∧
      npObjectDeleted ∉ (npObjectInvokeImpl rt args functionId w).trace) ∧
    (∀ e ∈ (npObjectInvokeImpl rt args functionId w).trace, e.isAnyThrow = true →
      e = errorCallingMethod ∧
      ∃ c, invokeCapability rt functionId npObject args.Data = some c ∧
        (c (marshalledArgs rt npObject args.args) args.Length w).1 = false) := by
  have hevents := npObjectInvokeImpl_live_events rt args functionId w npObject hholder halive
  have hworld := npObjectInvokeImpl_live_world rt args functionId w npObject hholder halive
  obtain ⟨ending, htrace, -, hend⟩ := npObjectInvokeImpl_live rt args functionId w npObject hholder halive
  have hswitch := invokeSwitch_cases rt functionId npObject args.Data
    (marshalledArgs rt npObject args.args) args.Length w
  have hthrow : ∀ e ∈ (npObjectInvokeImpl rt args functionId w).trace, e.isAnyThrow = true →
      e = errorCallingMethod ∧
      ∃ c, invokeCapability rt functionId npObject args.Data = some c ∧
        (c (marshalledArgs rt npObject args.args) args.Length w).1 = false := by
    intro e he hthrown
    rcases hevents e he with h | ⟨a, j, -, h⟩ | h | ⟨h, hfalse⟩ | ⟨j, -, h⟩ | ⟨⟨v, h⟩, -⟩ | h
    · rw [h] at hthrown; cases hthrown
    · rw [h] at hthrown; cases hthrown
    · rcases hswitch with ⟨-, hs⟩ | ⟨c, e1, -, hs, -, -, -, -, hnothrow, -⟩
      · rw [hs] at h; cases h
      · rw [hs] at h
        simp only [List.mem_singleton] at h
        rw [h, hnothrow] at hthrown; cases hthrown
    · refine ⟨h, ?_⟩
      rcases hswitch with ⟨-, hs⟩ | ⟨c, e1, hc, hs, -⟩
      · rw [hs] at hfalse; cases hfalse
      · rw [hs] at hfalse
        exact ⟨c, hc, hfalse⟩
    · rw [h] at hthrown; cases hthrown
    · rw [h] at hthrown; cases hthrown
    · rw [h] at hthrown; cases hthrown
  refine ⟨⟨?_, ?_⟩, hworld, ?_, hthrow⟩
  · rintro ⟨e, he, hconv⟩
    rcases hevents e he with h | ⟨a, j, -, h⟩ | h | ⟨h, -⟩ | ⟨j, -, h⟩ | ⟨-, hal⟩ | h
    · rw [h] at hconv; cases hconv
    · rw [h] at hconv; cases hconv
    · rcases hswitch with ⟨-, hs⟩ | ⟨c, e1, -, hs, -, -, -, -, -, hnoconv⟩
      · rw [hs] at h; cases h
      · rw [hs] at h
        simp only [List.mem_singleton] at h
        rw [h, hnoconv] at hconv; cases hconv
    · rw [h] at hconv; cases hconv
    · rw [h] at hconv; cases hconv
    · exact hal
    · rw [h] at hconv; cases hconv
  · intro hal
    rcases hend with ⟨-, hending, -⟩ | ⟨hgone, -, -⟩
    · refine ⟨Event.convertNPVariantToV8Object (invokeSwitch rt functionId npObject args.Data
        (marshalledArgs rt npObject args.args) args.Length w).1.2.1 npObject, ?_, rfl⟩
      rw [htrace, hending]
      simp
    · rw [hal] at hgone; cases hgone
  · intro hgone
    rcases hend with ⟨hal, -, -⟩ | ⟨-, -, hret⟩
    · rw [hgone] at hal; cases hal
    · refine ⟨hret, ?_⟩
      intro hmem
      have h := (hthrow npObjectDeleted hmem rfl).1
      simp [npObjectDeleted, errorCallingMethod] at h

theorem filter_nil_of_forall {p : Event → Bool} {l : List Event} (h : ∀ e ∈ l, p e = false) :
    l.filter p = [] := by
  rw [List.filter_eq_nil_iff]
  intro e he
  simp [h e he]

theorem argumentMarshalling_mem (npObject : NPObject) (l : List V8Value) (e : Event)
    (he : e ∈ argumentMarshalling npObject l) :
    ∃ a j, j < l.length ∧
      e = Event.convertV8ObjectToNPVariant a npObject (VariantSlot.npArgs j) := by
  have hm : marshalCalls npObject 0 l = argumentMarshalling npObject l := by
    rw [marshalCalls_eq_enumFrom]
    rfl
  rw [← hm] at he
  obtain ⟨a, j, -, hj, h⟩ := marshalCalls_mem npObject l 0 e he
  exact ⟨a, j, by simpa using hj, h⟩

theorem argumentRelease_mem (n : Nat) (e : Event) (he : e ∈ argumentRelease n) :
    ∃ j, j < n ∧ e = Event.releaseVariantValue (VariantSlot.npArgs j) := by
  simp only [argumentRelease, List.mem_map, List.mem_range] at he
  obtain ⟨j, hj, h⟩ := he
  exact ⟨j, hj, h.symm⟩

theorem invocationCall_mem (rt : Runtime) (functionId : InvokeFunctionType) (npObject : NPObject)
    (Data : V8Value) (npArgs : List NPVariant) (numArgs : Nat) (e : Event)
    (he : e ∈ invocationCall rt functionId npObject Data npArgs numArgs) :
    e.isVtableCall = true ∧ e.nativeArgs = some (npArgs, numArgs) ∧ e.marshalSlot = none ∧
      e.releasedSlot = none ∧ e.isAnyThrow = false ∧ e.isResultConversion = false := by
  cases functionId <;> simp only [invocationCall] at he <;> split at he <;>
    simp only [List.mem_singleton, List.not_mem_nil] at he <;> subst he <;>
    exact ⟨rfl, rfl, rfl, rfl, rfl, rfl⟩

/-- C5, amended. Result marshalling after invoke: for every call of `npObjectInvokeImpl`
(method, default or construct) on an object alive at entry, the world left is the one
the native call leaves (the world at entry when the capability is absent). When the
object is alive in it, the native result (void when the capability is absent) is
converted, once, and the conversion of that very result is what is returned; when the
object is no longer alive, nothing is converted, the handle returned is empty and no
"NPObject deleted" error is raised. So the result is converted if and only if the object
is still alive after the native call. In both cases the result is released once, and the
only error raised is the generic one, exactly when the native call returned false. -/
theorem npObjectInvokeImpl_result_marshalling (rt : Runtime) (args : Arguments)
    (functionId : InvokeFunctionType) (w : World) (npObject : NPObject)
    (hholder : holderNPObject rt w args.Holder = some (some npObject))
    (halive : _NPN_IsAlive w npObject = true) :
    (npObjectInvokeImpl rt args functionId w).world =
      (nativeInvocation rt functionId npObject args.Data
        (args.args.map (fun a => rt.convertV8ObjectToNPVariant a npObject)) args.args.length w).2.2 ∧
    (_NPN_IsAlive (npObjectInvokeImpl rt args functionId w).world npObject = true →
      (npObjectInvokeImpl rt args functionId w).returnValue =
        rt.convertNPVariantToV8Object (nativeInvocation rt functionId npObject args.Data
          (args.args.map (fun a => rt.convertV8ObjectToNPVariant a npObject))
          args.args.length w).2.1 npObject ∧
      (npObjectInvokeImpl rt args functionId w).trace.filter Event.isResultConversion =
        [Event.convertNPVariantToV8Object (nativeInvocation rt functionId npObject args.Data
          (args.args.map (fun a => rt.convertV8ObjectToNPVariant a npObject))
          args.args.length w).2.1 npObject]) ∧
    (_NPN_IsAlive (npObjectInvokeImpl rt args functionId w).world npObject = false →
      (npObjectInvokeImpl rt args functionId w).returnValue = Handle.empty ∧
      (npObjectInvokeImpl rt args functionId w).trace.filter Event.isResultConversion = [] ∧
      npObjectDeleted ∉ (npObjectInvokeImpl rt args functionId w).trace) ∧
    ((∃ e ∈ (npObjectInvokeImpl rt args functionId w).trace, e.isResultConversion = true) ↔
      _NPN_IsAlive (npObjectInvokeImpl rt args functionId w).world npObject = true) ∧
    (npObjectInvokeImpl rt args functionId w).trace.filter
        (fun e => decide (e.releasedSlot = some VariantSlot.result))
      = [Event.releaseVariantValue VariantSlot.result] ∧
    (npObjectInvokeImpl rt args functionId w).trace.filter Event.isAnyThrow =
      (if (nativeInvocation rt functionId npObject args.Data
          (args.args.map (fun a => rt.convertV8ObjectToNPVariant a npObject))
          args.args.length w).1 = false
        then [errorCallingMethod] else []) := by
  obtain ⟨hworld, hret, htrace⟩ :=
    npObjectInvokeImpl_live_exact rt args functionId w npObject hholder halive
  have hold := npObjectInvokeImpl_conversion_iff_alive rt args functionId w npObject hholder halive
  have hM : ∀ (p : Event → Bool), (∀ a j, p (Event.convertV8ObjectToNPVariant a npObject
      (VariantSlot.npArgs j)) = false) →
      (argumentMarshalling npObject args.args).filter p = [] := by
    intro p hp
    apply filter_nil_of_forall
    intro e he
    obtain ⟨a, j, -, h⟩ := argumentMarshalling_mem npObject args.args e he
    rw [h]
    exact hp a j
  have hR : ∀ (p : Event → Bool), (∀ j, j < args.args.length →
      p (Event.releaseVariantValue (VariantSlot.npArgs j)) = false) →
      (argumentRelease args.args.length).filter p = [] := by
    intro p hp
    apply filter_nil_of_forall
    intro e he
    obtain ⟨j, hj, h⟩ := argumentRelease_mem args.args.length e he
    rw [h]
    exact hp j hj
  have hC : ∀ (p : Event → Bool), (∀ e : Event, e.isVtableCall = true → p e = false) →
      (invocationCall rt functionId npObject args.Data
        (args.args.map (fun a => rt.convertV8ObjectToNPVariant a npObject))
        args.args.length).filter p = [] := by
    intro p hp
    apply filter_nil_of_forall
    intro e he
    exact hp e (invocationCall_mem rt functionId npObject args.Data _ _ e he).1
  have hconvCall : ∀ e : Event, e.isVtableCall = true → e.isResultConversion = false := by
    intro e h; cases e <;> first | rfl | cases h
  have hthrowCall : ∀ e : Event, e.isVtableCall = true → e.isAnyThrow = false := by
    intro e h; cases e <;> first | rfl | cases h
  have hrelCall : ∀ e : Event, e.isVtableCall = true →
      decide (e.releasedSlot = some VariantSlot.result) = false := by
    intro e h; cases e <;> first | rfl | cases h
  refine ⟨hworld, ?_, ?_, hold.1, ?_, ?_⟩
  · intro hal
    rw [hworld] at hal
    refine ⟨by rw [hret, if_pos hal], ?_⟩
    rw [htrace]
    simp only [List.filter_append, hM Event.isResultConversion (fun _ _ => rfl),
      hR Event.isResultConversion (fun _ _ => rfl), hC Event.isResultConversion hconvCall,
      hal, if_true]
    split <;> simp [Event.isResultConversion, errorCallingMethod]
  · intro hgone
    refine ⟨(hold.2.2.1 hgone).1, ?_, (hold.2.2.1 hgone).2⟩
    rw [hworld] at hgone
    rw [htrace]
    simp only [List.filter_append, hM Event.isResultConversion (fun _ _ => rfl),
      hR Event.isResultConversion (fun _ _ => rfl), hC Event.isResultConversion hconvCall,
      hgone]
    split <;> simp [Event.isResultConversion, errorCallingMethod]
  · rw [htrace]
    simp only [List.filter_append,
      hM (fun e => decide (e.releasedSlot = some VariantSlot.result)) (fun _ _ => rfl),
      hR (fun e => decide (e.releasedSlot = some VariantSlot.result))
        (fun _ _ => by simp [Event.releasedSlot]),
      hC (fun e => decide (e.releasedSlot = some VariantSlot.result)) hrelCall]
    split <;> split <;> simp [Event.releasedSlot, errorCallingMethod]
  · rw [htrace]
    simp only [List.filter_append, hM Event.isAnyThrow (fun _ _ => rfl),
      hR Event.isAnyThrow (fun _ _ => rfl), hC Event.isAnyThrow hthrowCall]
    split <;> split <;> simp [Event.isAnyThrow, errorCallingMethod]

/-- C5 amended, evaluated: a default call of the proxy 10 of the quiet object 1, whose
`invokeDefault` reports failure with a void result and leaves the object alive, returns
the conversion of that result; a method call with one argument on the same proxy, whose
`invoke` reports the argument count, returns the conversion of the integer 1. -/
theorem npObjectInvokeImpl_result_marshalling_witness :
    (npObjectInvokeImpl sampleRuntime
        ⟨Holder.other (V8Object.mk 10) 3, [V8Value.number 5], V8Value.undefined, false⟩
        InvokeFunctionType.InvokeDefault sampleWorld).returnValue
      = Handle.value V8Value.undefined ∧
    (npObjectInvokeImpl sampleRuntime
        ⟨Holder.other (V8Object.mk 10) 3, [V8Value.number 5], V8Value.string "f", false⟩
        InvokeFunctionType.InvokeMethod sampleWorld).returnValue
      = Handle.value (V8Value.number 1) ∧
    (npObjectInvokeImpl sampleRuntime
        ⟨Holder.other (V8Object.mk 10) 3, [V8Value.number 5], V8Value.string "f", false⟩
        InvokeFunctionType.InvokeMethod sampleWorld).trace.filter Event.isResultConversion
      = [Event.convertNPVariantToV8Object (NPVariant.int32 1) 1] :=
  have hworld1 := (npObjectInvokeImpl_result_marshalling sampleRuntime
    ⟨Holder.other (V8Object.mk 10) 3, [V8Value.number 5], V8Value.undefined, false⟩
    InvokeFunctionType.InvokeDefault sampleWorld 1 rfl rfl).1
  have hworld2 := (npObjectInvokeImpl_result_marshalling sampleRuntime
    ⟨Holder.other (V8Object.mk 10) 3, [V8Value.number 5], V8Value.string "f", false⟩
    InvokeFunctionType.InvokeMethod sampleWorld 1 rfl rfl).1
  ⟨((npObjectInvokeImpl_result_marshalling sampleRuntime
      ⟨Holder.other (V8Object.mk 10) 3, [V8Value.number 5], V8Value.undefined, false⟩
      InvokeFunctionType.InvokeDefault sampleWorld 1 rfl rfl).2.1 (by rw [hworld1]; rfl)).1,
    ((npObjectInvokeImpl_result_marshalling sampleRuntime
      ⟨Holder.other (V8Object.mk 10) 3, [V8Value.number 5], V8Value.string "f", false⟩
      InvokeFunctionType.InvokeMethod sampleWorld 1 rfl rfl).2.1 (by rw [hworld2]; rfl)).1,
    ((npObjectInvokeImpl_result_marshalling sampleRuntime
      ⟨Holder.other (V8Object.mk 10) 3, [V8Value.number 5], V8Value.string "f", false⟩
      InvokeFunctionType.InvokeMethod sampleWorld 1 rfl rfl).2.1 (by rw [hworld2]; rfl)).2⟩

/-- C6. Invocation error raised iff the native call fails: for every call of
`npObjectInvokeImpl` (method, construct or default) on an object alive at entry, also
when it stays alive, the generic error "Error calling method on NPObject." is raised if
and only if the capability of the function type is present and its call, on the
marshalled arguments in the world at entry, returns false; when the capability is absent
no call into the capability table is made, no error is raised, the world is unchanged and
the value returned is the script conversion of the void result. -/
theorem npObjectInvokeImpl_error_iff_native_failure (rt : Runtime) (args : Arguments)
    (functionId : InvokeFunctionType) (w : World) (npObject : NPObject)
    (hholder : holderNPObject rt w args.Holder = some (some npObject))
    (halive : _NPN_IsAlive w npObject = true) :
    (errorCallingMethod ∈ (npObjectInvokeImpl rt args functionId w).trace ↔
      ∃ c, invokeCapability rt functionId npObject args.Data = some c ∧
        (c (marshalledArgs rt npObject args.args) args.Length w).1 = false) ∧
    (invokeCapability rt functionId npObject args.Data = none →
      (∀ e ∈ (npObjectInvokeImpl rt args functionId w).trace,
        e.isVtableCall = false ∧ e.isAnyThrow = false) ∧
      (npObjectInvokeImpl rt args functionId w).world = w ∧
      (npObjectInvokeImpl rt args functionId w).returnValue =
        rt.convertNPVariantToV8Object NPVariant.void npObject) := by
  have hevents := npObjectInvokeImpl_live_events rt args functionId w npObject hholder halive
  obtain ⟨ending, htrace, hworld, hend⟩ :=
    npObjectInvokeImpl_live rt args functionId w npObject hholder halive
  have hswitch := invokeSwitch_cases rt functionId npObject args.Data
    (marshalledArgs rt npObject args.args) args.Length w
  refine ⟨⟨?_, ?_⟩, ?_⟩
  · intro hmem
    rcases hevents errorCallingMethod hmem with h | ⟨a, j, -, h⟩ | h | ⟨-, hfalse⟩ | ⟨j, -, h⟩ | ⟨⟨v, h⟩, -⟩ | h
    · simp [errorCallingMethod] at h
    · simp [errorCallingMethod] at h
    · rcases hswitch with ⟨-, hs⟩ | ⟨c, e1, -, hs, -, -, -, -, hnothrow, -⟩
      · rw [hs] at h; cases h
      · rw [hs] at h
        simp only [List.mem_singleton] at h
        rw [← h] at hnothrow
        simp [errorCallingMethod, Event.isAnyThrow] at hnothrow
    · rcases hswitch with ⟨-, hs⟩ | ⟨c, e1, hc, hs, -⟩
      · rw [hs] at hfalse; cases hfalse
      · rw [hs] at hfalse
        exact ⟨c, hc, hfalse⟩
    · simp [errorCallingMethod] at h
    · simp [errorCallingMethod] at h
    · simp [errorCallingMethod] at h
  · rintro ⟨c, hc, hfalse⟩
    rcases hswitch with ⟨hnone, -⟩ | ⟨c1, e1, hc1, hs, -⟩
    · rw [hnone] at hc; cases hc
    · rw [hc1] at hc
      cases hc
      rw [htrace, hs]
      simp [hfalse]
  · intro hnone
    rcases hswitch with ⟨-, hs⟩ | ⟨c1, e1, hc1, -⟩
    · have hw : (npObjectInvokeImpl rt args functionId w).world = w := by rw [hworld, hs]
      refine ⟨?_, hw, ?_⟩
      · intro e he
        rcases hevents e he with h | ⟨a, j, -, h⟩ | h | ⟨-, hfalse⟩ | ⟨j, -, h⟩ | ⟨⟨v, h⟩, -⟩ | h
        · rw [h]; exact ⟨rfl, rfl⟩
        · rw [h]; exact ⟨rfl, rfl⟩
        · rw [hs] at h; cases h
        · rw [hs] at hfalse; cases hfalse
        · rw [h]; exact ⟨rfl, rfl⟩
        · rw [h]; exact ⟨rfl, rfl⟩
        · rw [h]; exact ⟨rfl, rfl⟩
      · rcases hend with ⟨-, -, hret⟩ | ⟨hgone, -, -⟩
        · rw [hret, hs]
        · rw [hw, halive] at hgone; cases hgone
    · rw [hnone] at hc1; cases hc1

/-- C6, evaluated: a default call of the proxy 10 of the quiet object 1, whose
`invokeDefault` reports failure, raises the generic error; a method call on the proxy 30 of
the bare object 3, which has no `invoke`, returns the conversion of the void result. -/
theorem npObjectInvokeImpl_error_iff_native_failure_witness :
    errorCallingMethod ∈ (npObjectInvokeImpl sampleRuntime
      ⟨Holder.other (V8Object.mk 10) 3, [V8Value.number 5], V8Value.undefined, false⟩
      InvokeFunctionType.InvokeDefault sampleWorld).trace ∧
    (npObjectInvokeImpl sampleRuntime
      ⟨Holder.other (V8Object.mk 30) 3, [V8Value.number 5], V8Value.string "f", false⟩
      InvokeFunctionType.InvokeMethod sampleWorld).returnValue = Handle.value V8Value.undefined :=
  ⟨(npObjectInvokeImpl_error_iff_native_failure sampleRuntime
      ⟨Holder.other (V8Object.mk 10) 3, [V8Value.number 5], V8Value.undefined, false⟩
      InvokeFunctionType.InvokeDefault sampleWorld 1 rfl rfl).1.2
        ⟨fun _ _ w => (false, NPVariant.void, w), rfl, rfl⟩,
    ((npObjectInvokeImpl_error_iff_native_failure sampleRuntime
      ⟨Holder.other (V8Object.mk 30) 3, [V8Value.number 5], V8Value.string "f", false⟩
      InvokeFunctionType.InvokeMethod sampleWorld 3 rfl rfl).2 rfl).2.2⟩

/-- On a receiver alive at entry, the calls of `npObjectInvokeImpl` that marshal into or
release slot `i` of `npArgs` are one each for `i` below the argument count and none
otherwise, and every call into the capability table carries the marshalled arguments. -/
theorem npObjectInvokeImpl_slots (rt : Runtime) (args : Arguments)
    (functionId : InvokeFunctionType) (w : World) (npObject : NPObject)
    (hholder : holderNPObject rt w args.Holder = some (some npObject))
    (halive : _NPN_IsAlive w npObject = true) :
    (∀ (i : Nat) (hi : i < args.args.length),
      (npObjectInvokeImpl rt args functionId w).trace.filter
          (fun e => decide (e.marshalSlot = some (VariantSlot.npArgs i))) =
        [Event.convertV8ObjectToNPVariant (args.args.get ⟨i, hi⟩) npObject (VariantSlot.npArgs i)] ∧
      (npObjectInvokeImpl rt args functionId w).trace.filter
          (fun e => decide (e.releasedSlot = some (VariantSlot.npArgs i))) =
        [Event.releaseVariantValue (VariantSlot.npArgs i)]) ∧
    (∀ e ∈ (npObjectInvokeImpl rt args functionId w).trace, ∀ i,
      e.marshalSlot = some (VariantSlot.npArgs i) ∨ e.releasedSlot = some (VariantSlot.npArgs i) →
        i < args.args.length) ∧
    (∀ e ∈ (npObjectInvokeImpl rt args functionId w).trace, e.isVtableCall = true →
      e.nativeArgs =
        some (args.args.map (fun a => rt.convertV8ObjectToNPVariant a npObject), args.args.length)) := by
  have hevents := npObjectInvokeImpl_live_events rt args functionId w npObject hholder halive
  obtain ⟨ending, htrace, -, hend⟩ :=
    npObjectInvokeImpl_live rt args functionId w npObject hholder halive
  have hswitch := invokeSwitch_cases rt functionId npObject args.Data
    (marshalledArgs rt npObject args.args) args.Length w
  have hsw : ∀ e ∈ (invokeSwitch rt functionId npObject args.Data
      (marshalledArgs rt npObject args.args) args.Length w).2,
      e.isVtableCall = true ∧ e.nativeArgs = some (marshalledArgs rt npObject args.args, args.Length) ∧
      e.marshalSlot = none ∧ e.releasedSlot = none := by
    intro e he
    rcases hswitch with ⟨-, hs⟩ | ⟨c, e1, -, hs, h1, h2, h3, h4, -⟩
    · rw [hs] at he; cases he
    · rw [hs] at he
      simp only [List.mem_singleton] at he
      rw [he]
      exact ⟨h1, h2, h3, h4⟩
  have hthrown : ∀ e ∈ (if (invokeSwitch rt functionId npObject args.Data
      (marshalledArgs rt npObject args.args) args.Length w).1.1 = false
      then [errorCallingMethod] else []), e = errorCallingMethod := by
    intro e he
    split at he
    · simpa using he
    · cases he
  have hending : ∀ e ∈ ending, e.marshalSlot = none ∧
      (e.releasedSlot = none ∨ e.releasedSlot = some VariantSlot.result) := by
    intro e he
    rcases hend with ⟨-, h, -⟩ | ⟨-, h, -⟩
    · rw [h] at he
      simp only [List.mem_cons, List.not_mem_nil, or_false] at he
      rcases he with he | he
      · rw [he]; exact ⟨rfl, Or.inl rfl⟩
      · rw [he]; exact ⟨rfl, Or.inr rfl⟩
    · rw [h] at he
      simp only [List.mem_singleton] at he
      rw [he]; exact ⟨rfl, Or.inr rfl⟩
  refine ⟨?_, ?_, ?_⟩
  · intro i hi
    have hget : args.args[i]? = some (args.args.get ⟨i, hi⟩) := by
      simp [List.getElem?_eq_getElem hi]
    have hlen : i < args.Length := hi
    constructor
    · rw [htrace]
      simp only [List.filter_cons, List.filter_append, marshalCalls_filter_slot]
      have e1 : List.filter (fun e => decide (e.marshalSlot = some (VariantSlot.npArgs i)))
          (invokeSwitch rt functionId npObject args.Data
            (marshalledArgs rt npObject args.args) args.Length w).2 = [] := by
        rw [List.filter_eq_nil_iff]
        intro e he
        simp [(hsw e he).2.2.1]
      have e2 : List.filter (fun e => decide (e.marshalSlot = some (VariantSlot.npArgs i)))
          (if (invokeSwitch rt functionId npObject args.Data
            (marshalledArgs rt npObject args.args) args.Length w).1.1 = false
            then [errorCallingMethod] else []) = [] := by
        rw [List.filter_eq_nil_iff]
        intro e he
        rw [hthrown e he]
        simp [errorCallingMethod, Event.marshalSlot]
      have e3 : List.filter (fun e => decide (e.marshalSlot = some (VariantSlot.npArgs i)))
          (releaseCalls 0 args.Length) = [] := by
        rw [List.filter_eq_nil_iff]
        intro e he
        obtain ⟨j, -, -, hj⟩ := releaseCalls_mem _ _ e he
        rw [hj]
        simp [Event.marshalSlot]
      have e4 : List.filter (fun e => decide (e.marshalSlot = some (VariantSlot.npArgs i)))
          ending = [] := by
        rw [List.filter_eq_nil_iff]
        intro e he
        simp [(hending e he).1]
      rw [e1, e2, e3, e4]
      simp [Event.marshalSlot, hget]
    · rw [htrace]
      simp only [List.filter_cons, List.filter_append, releaseCalls_filter_slot]
      have e0 : List.filter (fun e => decide (e.releasedSlot = some (VariantSlot.npArgs i)))
          (marshalCalls npObject 0 args.args) = [] := by
        rw [List.filter_eq_nil_iff]
        intro e he
        obtain ⟨a, j, -, -, hj⟩ := marshalCalls_mem npObject _ _ e he
        rw [hj]
        simp [Event.releasedSlot]
      have e1 : List.filter (fun e => decide (e.releasedSlot = some (VariantSlot.npArgs i)))
          (invokeSwitch rt functionId npObject args.Data
            (marshalledArgs rt npObject args.args) args.Length w).2 = [] := by
        rw [List.filter_eq_nil_iff]
        intro e he
        simp [(hsw e he).2.2.2]
      have e2 : List.filter (fun e => decide (e.releasedSlot = some (VariantSlot.npArgs i)))
          (if (invokeSwitch rt functionId npObject args.Data
            (marshalledArgs rt npObject args.args) args.Length w).1.1 = false
            then [errorCallingMethod] else []) = [] := by
        rw [List.filter_eq_nil_iff]
        intro e he
        rw [hthrown e he]
        simp [errorCallingMethod, Event.releasedSlot]
      have e4 : List.filter (fun e => decide (e.releasedSlot = some (VariantSlot.npArgs i)))
          ending = [] := by
        rw [List.filter_eq_nil_iff]
        intro e he
        rcases (hending e he).2 with h | h <;> simp [h]
      rw [e0, e1, e2, e4]
      simp [Event.releasedSlot, hlen]
  · intro e he i hslot
    rcases hevents e he with h | ⟨a, j, hj, h⟩ | h | ⟨h, -⟩ | ⟨j, hj, h⟩ | ⟨⟨v, h⟩, -⟩ | h
    · rw [h] at hslot; simp [Event.marshalSlot, Event.releasedSlot] at hslot
    · rw [h] at hslot
      simp only [Event.marshalSlot, Event.releasedSlot, Option.some.injEq, VariantSlot.npArgs.injEq,
        reduceCtorEq, or_false] at hslot
      omega
    · have := hsw e h
      rcases hslot with hslot | hslot
      · rw [this.2.2.1] at hslot; cases hslot
      · rw [this.2.2.2] at hslot; cases hslot
    · rw [h] at hslot; simp [errorCallingMethod, Event.marshalSlot, Event.releasedSlot] at hslot
    · rw [h] at hslot
      simp only [Event.marshalSlot, Event.releasedSlot, Option.some.injEq, VariantSlot.npArgs.injEq,
        reduceCtorEq, false_or] at hslot
      omega
    · rw [h] at hslot; simp [Event.marshalSlot, Event.releasedSlot] at hslot
    · rw [h] at hslot; simp [Event.marshalSlot, Event.releasedSlot] at hslot
  · intro e he hcall
    rcases hevents e he with h | ⟨a, j, -, h⟩ | h | ⟨h, -⟩ | ⟨j, -, h⟩ | ⟨⟨v, h⟩, -⟩ | h
    · rw [h] at hcall; cases hcall
    · rw [h] at hcall; cases hcall
    · exact (hsw e h).2.1
    · rw [h] at hcall; cases hcall
    · rw [h] at hcall; cases hcall
    · rw [h] at hcall; cases hcall
    · rw [h] at hcall; cases hcall

/-- C7. Scoped release of marshalled arguments in `npObjectInvokeImpl`: for every call
whose receiver is alive at entry, with `n` script arguments, and for every outcome of the
native call, the calls made are, in this order: the liveness check, the marshalling of
argument `i` into slot `i` for `i = 0 .. n-1`, the call of the capability of the function
type when the class has it (with the `n` marshalled arguments in order and count `n`), the
generic error when that call returned false, the release of the slots `0 .. n-1`, the
second liveness check, the conversion of the result when the object is still alive, and
the release of the result. So each slot is marshalled exactly once, from its own
argument, and released exactly once, after the native call, whether the capability is
absent, succeeds, fails or destroys the object; no other slot of `npArgs` is touched. -/
theorem npObjectInvokeImpl_scoped_release (rt : Runtime) (args : Arguments)
    (functionId : InvokeFunctionType) (w : World) (npObject : NPObject)
    (hholder : holderNPObject rt w args.Holder = some (some npObject))
    (halive : _NPN_IsAlive w npObject = true) :
    ((npObjectInvokeImpl rt args functionId w).trace =
      [Event.isAlive npObject]
        ++ args.args.enum.map
            (fun p => Event.convertV8ObjectToNPVariant p.2 npObject (VariantSlot.npArgs p.1))
        ++ invocationCall rt functionId npObject args.Data
            (args.args.map (fun a => rt.convertV8ObjectToNPVariant a npObject)) args.args.length
        ++ (if (nativeInvocation rt functionId npObject args.Data
              (args.args.map (fun a => rt.convertV8ObjectToNPVariant a npObject))
              args.args.length w).1 = false
            then [errorCallingMethod] else [])
        ++ (List.range args.args.length).map
            (fun i => Event.releaseVariantValue (VariantSlot.npArgs i))
        ++ [Event.isAlive npObject]
        ++ (if _NPN_IsAlive (nativeInvocation rt functionId npObject args.Data
              (args.args.map (fun a => rt.convertV8ObjectToNPVariant a npObject))
              args.args.length w).2.2 npObject = true
            then [Event.convertNPVariantToV8Object (nativeInvocation rt functionId npObject
              args.Data (args.args.map (fun a => rt.convertV8ObjectToNPVariant a npObject))
              args.args.length w).2.1 npObject]
            else [])
        ++ [Event.releaseVariantValue VariantSlot.result]) ∧
    (∀ f, functionId = InvokeFunctionType.InvokeMethod → (rt._class npObject).invoke = some f →
      (npObjectInvokeImpl rt args functionId w).trace.filter Event.isVtableCall =
        [Event.invoke npObject (rt.getStringIdentifier args.Data)
          (args.args.map (fun a => rt.convertV8ObjectToNPVariant a npObject)) args.args.length]) ∧
    (∀ f, functionId = InvokeFunctionType.InvokeConstruct →
      (rt._class npObject).construct = some f →
      (npObjectInvokeImpl rt args functionId w).trace.filter Event.isVtableCall =
        [Event.construct npObject
          (args.args.map (fun a => rt.convertV8ObjectToNPVariant a npObject)) args.args.length]) ∧
    (∀ f, functionId = InvokeFunctionType.InvokeDefault →
      (rt._class npObject).invokeDefault = some f →
      (npObjectInvokeImpl rt args functionId w).trace.filter Event.isVtableCall =
        [Event.invokeDefault npObject
          (args.args.map (fun a => rt.convertV8ObjectToNPVariant a npObject)) args.args.length]) ∧
    (invokeCapability rt functionId npObject args.Data = none →
      (npObjectInvokeImpl rt args functionId w).trace.filter Event.isVtableCall = []) ∧
    (∀ (i : Nat) (hi : i < args.args.length),
      (npObjectInvokeImpl rt args functionId w).trace.filter
          (fun e => decide (e.marshalSlot = some (VariantSlot.npArgs i))) =
        [Event.convertV8ObjectToNPVariant (args.args.get ⟨i, hi⟩) npObject (VariantSlot.npArgs i)] ∧
      (npObjectInvokeImpl rt args functionId w).trace.filter
          (fun e => decide (e.releasedSlot = some (VariantSlot.npArgs i))) =
        [Event.releaseVariantValue (VariantSlot.npArgs i)]) ∧
    (∀ e ∈ (npObjectInvokeImpl rt args functionId w).trace, ∀ i,
      e.marshalSlot = some (VariantSlot.npArgs i) ∨ e.releasedSlot = some (VariantSlot.npArgs i) →
        i < args.args.length) ∧
    (∀ e ∈ (npObjectInvokeImpl rt args functionId w).trace, e.isVtableCall = true →
      e.nativeArgs =
        some (args.args.map (fun a => rt.convertV8ObjectToNPVariant a npObject), args.args.length)) := by
  obtain ⟨-, -, htrace⟩ :=
    npObjectInvokeImpl_live_exact rt args functionId w npObject hholder halive
  have hold := npObjectInvokeImpl_slots rt args functionId w npObject hholder halive
  have hcalls : (npObjectInvokeImpl rt args functionId w).trace.filter Event.isVtableCall =
      invocationCall rt functionId npObject args.Data
        (args.args.map (fun a => rt.convertV8ObjectToNPVariant a npObject)) args.args.length := by
    have hM : (argumentMarshalling npObject args.args).filter Event.isVtableCall = [] := by
      apply filter_nil_of_forall
      intro e he
      obtain ⟨a, j, -, h⟩ := argumentMarshalling_mem npObject args.args e he
      rw [h]; rfl
    have hR : (argumentRelease args.args.length).filter Event.isVtableCall = [] := by
      apply filter_nil_of_forall
      intro e he
      obtain ⟨j, -, h⟩ := argumentRelease_mem args.args.length e he
      rw [h]; rfl
    have hC : (invocationCall rt functionId npObject args.Data
        (args.args.map (fun a => rt.convertV8ObjectToNPVariant a npObject))
        args.args.length).filter Event.isVtableCall
        = invocationCall rt functionId npObject args.Data
          (args.args.map (fun a => rt.convertV8ObjectToNPVariant a npObject)) args.args.length := by
      rw [List.filter_eq_self]
      intro e he
      exact (invocationCall_mem rt functionId npObject args.Data _ _ e he).1
    rw [htrace]
    simp only [List.filter_append, hM, hR, hC]
    split <;> split <;> simp [Event.isVtableCall, errorCallingMethod]
  refine ⟨htrace, ?_, ?_, ?_, ?_, hold.1, hold.2.1, hold.2.2⟩
  · intro f hf hcap
    rw [hcalls, hf]
    simp [invocationCall, hcap]
  · intro f hf hcap
    rw [hcalls, hf]
    simp [invocationCall, hcap]
  · intro f hf hcap
    rw [hcalls, hf]
    simp [invocationCall, hcap]
  · intro hnone
    rw [hcalls]
    cases functionId <;> simp [invokeCapability] at hnone <;> simp [invocationCall, hnone]

/-- C7, evaluated on a method call with two arguments on the proxy 20 of the
self-destroying object 2: the exact calls, with both slots marshalled before the native
call and released after it. -/
theorem npObjectInvokeImpl_scoped_release_witness :
    (npObjectInvokeImpl sampleRuntime
        ⟨Holder.other (V8Object.mk 20) 3, [V8Value.number 5, V8Value.string "s"],
          V8Value.string "f", false⟩
        InvokeFunctionType.InvokeMethod sampleWorld).trace =
      [Event.isAlive 2,
        Event.convertV8ObjectToNPVariant (V8Value.number 5) 2 (VariantSlot.npArgs 0),
        Event.convertV8ObjectToNPVariant (V8Value.string "s") 2 (VariantSlot.npArgs 1),
        Event.invoke 2 (IdentifierRep.m_string "f") [NPVariant.int32 5, NPVariant.string "s"] 2,
        Event.releaseVariantValue (VariantSlot.npArgs 0),
        Event.releaseVariantValue (VariantSlot.npArgs 1),
        Event.isAlive 2,
        Event.releaseVariantValue VariantSlot.result] := by
  have h := (npObjectInvokeImpl_scoped_release sampleRuntime
    ⟨Holder.other (V8Object.mk 20) 3, [V8Value.number 5, V8Value.string "s"],
      V8Value.string "f", false⟩
    InvokeFunctionType.InvokeMethod sampleWorld 2 rfl rfl).1
  rw [h]
  simp [invocationCall, nativeInvocation, invokeCapability, sampleRuntime, selfDestroyingClass,
    sampleWorld, _NPN_IsAlive, destroy, List.enum, List.enumFrom, List.range, List.range.loop,
    V8Value.stringCast]

/-! ## Dispatcher: interception of a property set -/

/-- C11. No double-wrap: for a native object whose class is the script-object class,
`createV8ObjectForNPObject` returns the script object held in the object as a
`V8NPObject`, leaves the world (the wrapper table included) as it was and makes no call at
all: no table lookup or insertion, no proxy construction, no retain, no register. -/
theorem createV8ObjectForNPObject_script_object (rt : Runtime) (object : NPObject)
    (root : Option NPObject) (w : World)
    (hclass : rt.isScriptObjectClass object = true) :
    (createV8ObjectForNPObject rt object root w).returnValue = rt.v8Object object ∧
    (createV8ObjectForNPObject rt object root w).world = w ∧
    (createV8ObjectForNPObject rt object root w).trace = [] := by
  simp [createV8ObjectForNPObject, hclass]

/-- C11, evaluated: object 9 of the bridge runtime bridges the script object 90; it is
returned although the table of the sample world has no entry for 9. -/
theorem createV8ObjectForNPObject_script_object_witness :
    DOMWrapperMap.get sampleWorld 9 = none ∧
    (createV8ObjectForNPObject bridgeRuntime 9 (some 1) sampleWorld).returnValue
      = some (V8Object.mk 90) ∧
    (createV8ObjectForNPObject bridgeRuntime 9 (some 1) sampleWorld).trace = [] :=
  ⟨by decide,
    (createV8ObjectForNPObject_script_object bridgeRuntime 9 (some 1) sampleWorld rfl).1,
    (createV8ObjectForNPObject_script_object bridgeRuntime 9 (some 1) sampleWorld rfl).2.2⟩

/-- C15. `forgetV8ObjectForNPObject` undoes a wrap and is idempotent. When the table has
an entry for the object, whether or not the object is alive, the call clears the native
info of that proxy, removes exactly that entry and releases the object exactly once;
when the table has no entry it changes nothing and releases nothing. Hence a successful
fresh `createV8ObjectForNPObject` followed by `forgetV8ObjectForNPObject` restores the
wrapper table and the reference counts to their prior values, and a second
`forgetV8ObjectForNPObject` leaves the world as it is and releases nothing. -/
theorem forgetV8ObjectForNPObject_undoes_wrap (rt : Runtime) (object : NPObject)
    (root : Option NPObject) (w : World) :
    (∀ wrapper, DOMWrapperMap.get w object = some wrapper →
      (forgetV8ObjectForNPObject object w).trace =
        [Event.mapGet object, Event.clearNativeInfo wrapper,
          Event.mapRemoveAndDispose object wrapper, Event.releaseObject object] ∧
      (forgetV8ObjectForNPObject object w).world.nativeInfo wrapper = none ∧
      DOMWrapperMap.get (forgetV8ObjectForNPObject object w).world object = none ∧
      (∀ other, other ≠ object →
        DOMWrapperMap.get (forgetV8ObjectForNPObject object w).world other
          = DOMWrapperMap.get w other) ∧
      ((forgetV8ObjectForNPObject object w).trace.filter Event.isRelease).length = 1 ∧
      (forgetV8ObjectForNPObject object w).world.referenceCount object
        = w.referenceCount object - 1 ∧
      (∀ other, other ≠ object →
        (forgetV8ObjectForNPObject object w).world.referenceCount other
          = w.referenceCount other)) ∧
    (DOMWrapperMap.get w object = none →
      (forgetV8ObjectForNPObject object w).world = w ∧
      ∀ e ∈ (forgetV8ObjectForNPObject object w).trace, e.isRelease = false) ∧
    (rt.isScriptObjectClass object = false → DOMWrapperMap.get w object = none →
      rt.newInstance w.instancesCreated ≠ none →
      (forgetV8ObjectForNPObject object
        (createV8ObjectForNPObject rt object root w).world).world.npObjectMap = w.npObjectMap ∧
      (forgetV8ObjectForNPObject object
        (createV8ObjectForNPObject rt object root w).world).world.referenceCount
          = w.referenceCount ∧
      (forgetV8ObjectForNPObject object (forgetV8ObjectForNPObject object
        (createV8ObjectForNPObject rt object root w).world).world).world
          = (forgetV8ObjectForNPObject object
              (createV8ObjectForNPObject rt object root w).world).world ∧
      ∀ e ∈ (forgetV8ObjectForNPObject object (forgetV8ObjectForNPObject object
        (createV8ObjectForNPObject rt object root w).world).world).trace, e.isRelease = false) := by
  have hpresent : ∀ (w0 : World) wrapper, DOMWrapperMap.get w0 object = some wrapper →
      forgetV8ObjectForNPObject object w0 =
        ⟨(), _NPN_ReleaseObject (DOMWrapperMap.removeAndDispose
            (V8DOMWrapper.clearNativeInfo w0 wrapper) object wrapper) object,
          [Event.mapGet object, Event.clearNativeInfo wrapper,
            Event.mapRemoveAndDispose object wrapper, Event.releaseObject object]⟩ := by
    intro w0 wrapper h
    simp [forgetV8ObjectForNPObject, h]
  have habsent : ∀ (w0 : World), DOMWrapperMap.get w0 object = none →
      forgetV8ObjectForNPObject object w0 = ⟨(), w0, [Event.mapGet object]⟩ := by
    intro w0 h
    simp [forgetV8ObjectForNPObject, h]
  refine ⟨?_, ?_, ?_⟩
  · intro wrapper h
    rw [hpresent w wrapper h]
    refine ⟨rfl, ?_, ?_, ?_, ?_, ?_, ?_⟩
    · simp [_NPN_ReleaseObject, DOMWrapperMap.removeAndDispose, V8DOMWrapper.clearNativeInfo]
    · simp [DOMWrapperMap.get, _NPN_ReleaseObject, DOMWrapperMap.removeAndDispose]
    · intro other hother
      simp [DOMWrapperMap.get, _NPN_ReleaseObject, DOMWrapperMap.removeAndDispose,
        V8DOMWrapper.clearNativeInfo, hother]
    · simp [Event.isRelease]
    · simp [_NPN_ReleaseObject, DOMWrapperMap.removeAndDispose, V8DOMWrapper.clearNativeInfo]
    · intro other hother
      simp [_NPN_ReleaseObject, DOMWrapperMap.removeAndDispose, V8DOMWrapper.clearNativeInfo,
        hother]
  · intro h
    rw [habsent w h]
    exact ⟨rfl, by simp [Event.isRelease]⟩
  · intro hclass hfresh hnew
    rw [← initNPObjectDesc_instancesCreated] at hnew
    obtain ⟨value, hvalue⟩ := Option.ne_none_iff_exists'.mp hnew
    have hcreate : (createV8ObjectForNPObject rt object root w).world =
        DOMWrapperMap.set (_NPN_RegisterObject (_NPN_RetainObject (V8DOMWrapper.setNativeInfo
          { initNPObjectDesc w with instancesCreated := (initNPObjectDesc w).instancesCreated + 1 }
          value object) object) object root) object value := by
      simp [createV8ObjectForNPObject, hclass, hfresh, hvalue]
    have hmapped : DOMWrapperMap.get (createV8ObjectForNPObject rt object root w).world object
        = some value := by
      rw [hcreate]
      simp [DOMWrapperMap.get, DOMWrapperMap.set]
    have hforget := hpresent _ value hmapped
    have hgone : DOMWrapperMap.get (forgetV8ObjectForNPObject object
        (createV8ObjectForNPObject rt object root w).world).world object = none := by
      rw [hforget]
      simp [DOMWrapperMap.get, _NPN_ReleaseObject, DOMWrapperMap.removeAndDispose]
    have hfresh2 : w.npObjectMap object = none := hfresh
    refine ⟨?_, ?_, ?_, ?_⟩
    · rw [hforget, hcreate]
      funext k
      by_cases hk : k = object
      · subst hk
        simp [_NPN_ReleaseObject, DOMWrapperMap.removeAndDispose, hfresh2]
      · simp [_NPN_ReleaseObject, DOMWrapperMap.removeAndDispose, V8DOMWrapper.clearNativeInfo,
          DOMWrapperMap.set, _NPN_RegisterObject, _NPN_RetainObject, V8DOMWrapper.setNativeInfo,
          initNPObjectDesc_npObjectMap, hk]
    · rw [hforget, hcreate]
      funext k
      by_cases hk : k = object
      · subst hk
        simp [_NPN_ReleaseObject, DOMWrapperMap.removeAndDispose, V8DOMWrapper.clearNativeInfo,
          DOMWrapperMap.set, _NPN_RegisterObject, _NPN_RetainObject, V8DOMWrapper.setNativeInfo,
          initNPObjectDesc_referenceCount]
      · simp [_NPN_ReleaseObject, DOMWrapperMap.removeAndDispose, V8DOMWrapper.clearNativeInfo,
          DOMWrapperMap.set, _NPN_RegisterObject, _NPN_RetainObject, V8DOMWrapper.setNativeInfo,
          initNPObjectDesc_referenceCount, hk]
    · rw [habsent _ hgone]
    · rw [habsent _ hgone]
      simp [Event.isRelease]

/-- C15, evaluated: object 7 is wrapped afresh in the sample world and then forgotten;
object 1, which the sample world maps to the proxy 10, is forgotten. -/
theorem forgetV8ObjectForNPObject_undoes_wrap_witness :
    (forgetV8ObjectForNPObject 7
      (createV8ObjectForNPObject sampleRuntime 7 none sampleWorld).world).world.npObjectMap
        = sampleWorld.npObjectMap ∧
    (forgetV8ObjectForNPObject 7
      (createV8ObjectForNPObject sampleRuntime 7 none sampleWorld).world).world.referenceCount
        = sampleWorld.referenceCount ∧
    (forgetV8ObjectForNPObject 1 sampleWorld).trace =
      [Event.mapGet 1, Event.clearNativeInfo (V8Object.mk 10),
        Event.mapRemoveAndDispose 1 (V8Object.mk 10), Event.releaseObject 1] :=
  ⟨((forgetV8ObjectForNPObject_undoes_wrap sampleRuntime 7 none sampleWorld).2.2
      rfl (by decide) (by decide)).1,
    ((forgetV8ObjectForNPObject_undoes_wrap sampleRuntime 7 none sampleWorld).2.2
      rfl (by decide) (by decide)).2.1,
    ((forgetV8ObjectForNPObject_undoes_wrap sampleRuntime 1 none sampleWorld).1
      (V8Object.mk 10) (by decide)).1⟩

/-! ## Dispatcher: the output of an enumeration -/

/-- C13. Enumerate output: for a live object whose class has the enumerate capability
(struct version with enumeration and a non-null `enumerate`) and whose `enumerate` call
succeeds reporting a list of identifiers, `npObjectPropertyEnumerator` returns an array
with exactly as many elements, in the reported order, element `i` being the symbol of
`string()` of identifier `i` for a named enumeration and the integer `number()` of
identifier `i` for an indexed one, where `number()` is 0 for a string identifier and
`string()` is null for an integer identifier; no error is raised. When the capability is
absent or the call reports failure the handle returned is empty and no error is raised. -/
theorem npObjectPropertyEnumerator_output (rt : Runtime) (Holder : V8Object)
    (namedProperty : Bool) (w : World) (npObject : NPObject)
    (hself : v8ObjectToNPObject w Holder = some npObject)
    (halive : _NPN_IsAlive w npObject = true) :
    (∀ enumerate, NP_CLASS_STRUCT_VERSION_HAS_ENUM rt (rt._class npObject) = true →
      (rt._class npObject).enumerate = some enumerate →
      (enumerate npObject w).1 = true →
      ∃ r elements, npObjectPropertyEnumerator rt Holder namedProperty w = some r ∧
        r.returnValue = some elements ∧
        elements.length = (enumerate npObject w).2.1.length ∧
        (∀ (i : Nat) (hi : i < (enumerate npObject w).2.1.length) (hj : i < elements.length),
          elements.get ⟨i, hj⟩ =
            if namedProperty then V8Value.symbol ((enumerate npObject w).2.1.get ⟨i, hi⟩).string
            else V8Value.number ((enumerate npObject w).2.1.get ⟨i, hi⟩).number) ∧
        r.trace = [Event.isAlive npObject, Event.enumerate npObject] ∧
        r.world = (enumerate npObject w).2.2) ∧
    ((NP_CLASS_STRUCT_VERSION_HAS_ENUM rt (rt._class npObject) = false ∨
        (rt._class npObject).enumerate = none ∨
        ∃ enumerate, (rt._class npObject).enumerate = some enumerate ∧
          (enumerate npObject w).1 = false) →
      ∃ r, npObjectPropertyEnumerator rt Holder namedProperty w = some r ∧
        r.returnValue = none ∧ ∀ e ∈ r.trace, e.isAnyThrow = false) ∧
    (∀ s, (IdentifierRep.m_string s).number = 0 ∧ (IdentifierRep.m_string s).string = some s) ∧
    (∀ n, (IdentifierRep.m_number n).string = none ∧ (IdentifierRep.m_number n).number = n) := by
  refine ⟨?_, ?_, fun s => ⟨rfl, rfl⟩, fun n => ⟨rfl, rfl⟩⟩
  · intro enumerate hversion hcap hsuccess
    have h : npObjectPropertyEnumerator rt Holder namedProperty w =
        some ⟨some ((enumerate npObject w).2.1.map (enumeratedElement namedProperty)),
          (enumerate npObject w).2.2, [Event.isAlive npObject, Event.enumerate npObject]⟩ := by
      simp [npObjectPropertyEnumerator, hself, halive, hversion, hcap, hsuccess]
    refine ⟨_, _, h, rfl, by simp, ?_, rfl, rfl⟩
    intro i hi hj
    simp [enumeratedElement]
  · intro habsent
    cases hversion : NP_CLASS_STRUCT_VERSION_HAS_ENUM rt (rt._class npObject) with
    | false =>
      refine ⟨⟨none, w, [Event.isAlive npObject]⟩, ?_, rfl, by simp [Event.isAnyThrow]⟩
      simp [npObjectPropertyEnumerator, hself, halive, hversion]
    | true =>
      cases hcap : (rt._class npObject).enumerate with
      | none =>
        refine ⟨⟨none, w, [Event.isAlive npObject]⟩, ?_, rfl, by simp [Event.isAnyThrow]⟩
        simp [npObjectPropertyEnumerator, hself, halive, hversion, hcap]
      | some enumerate =>
        rcases habsent with h | h | ⟨f, hf, hfalse⟩
        · rw [hversion] at h; cases h
        · rw [hcap] at h; cases h
        · rw [hcap] at hf
          cases hf
          refine ⟨⟨none, (enumerate npObject w).2.2,
            [Event.isAlive npObject, Event.enumerate npObject]⟩, ?_, rfl,
            by simp [Event.isAnyThrow]⟩
          simp [npObjectPropertyEnumerator, hself, halive, hversion, hcap, hfalse]

/-- C13, evaluated on the proxy 10 of the quiet object 1, whose `enumerate` reports the
string identifier "x" and the integer identifier 4: the named enumeration yields the
symbol "x" and a null symbol, the indexed one the integers 0 and 4. -/
theorem npObjectPropertyEnumerator_output_witness :
    (∃ r, npObjectPropertyEnumerator sampleRuntime (V8Object.mk 10) true sampleWorld = some r ∧
      r.returnValue = some [V8Value.symbol (some "x"), V8Value.symbol none]) ∧
    (∃ r, npObjectPropertyEnumerator sampleRuntime (V8Object.mk 10) false sampleWorld = some r ∧
      r.returnValue = some [V8Value.number 0, V8Value.number 4]) := by
  obtain ⟨r, elements, hr, hret, -, -, -, -⟩ :=
    (npObjectPropertyEnumerator_output sampleRuntime (V8Object.mk 10) true sampleWorld 1 rfl rfl).1
      (fun _ w => (true, [IdentifierRep.m_string "x", IdentifierRep.m_number 4], w)) rfl rfl rfl
  obtain ⟨r2, elements2, hr2, hret2, -, -, -, -⟩ :=
    (npObjectPropertyEnumerator_output sampleRuntime (V8Object.mk 10) false sampleWorld 1 rfl rfl).1
      (fun _ w => (true, [IdentifierRep.m_string "x", IdentifierRep.m_number 4], w)) rfl rfl rfl
  refine ⟨⟨r, hr, ?_⟩, ⟨r2, hr2, ?_⟩⟩
  · have h : npObjectPropertyEnumerator sampleRuntime (V8Object.mk 10) true sampleWorld =
        some ⟨some [V8Value.symbol (some "x"), V8Value.symbol none], sampleWorld,
          [Event.isAlive 1, Event.enumerate 1]⟩ := by
      simp [npObjectPropertyEnumerator, v8ObjectToNPObject, sampleWorld, sampleRuntime,
        _NPN_IsAlive, NP_CLASS_STRUCT_VERSION_HAS_ENUM, quietClass, enumeratedElement,
        IdentifierRep.string]
    rw [h] at hr
    cases hr
    rfl
  · have h : npObjectPropertyEnumerator sampleRuntime (V8Object.mk 10) false sampleWorld =
        some ⟨some [V8Value.number 0, V8Value.number 4], sampleWorld,
          [Event.isAlive 1, Event.enumerate 1]⟩ := by
      simp [npObjectPropertyEnumerator, v8ObjectToNPObject, sampleWorld, sampleRuntime,
        _NPN_IsAlive, NP_CLASS_STRUCT_VERSION_HAS_ENUM, quietClass, enumeratedElement,
        IdentifierRep.number]
    rw [h] at hr2
    cases hr2
    rfl

/-! ## `CachedScript`: the nosniff check -/

/-- C16. `CachedScript::mimeTypeAllowedByNosniff`, with `!` applied before `==`, returns
false exactly when the `X-Content-Type-Options` header parses to
`ContentTypeOptionsNosniff` and the lower-cased MIME type of the response is not a
supported JavaScript MIME type, and true in every other case. -/
theorem mimeTypeAllowedByNosniff_false_iff (c : HTTPCollaborators) (m_response : ResourceResponse) :
    (CachedScript.mimeTypeAllowedByNosniff c m_response = false ↔
      c.parseContentTypeOptionsHeader (m_response.httpHeaderField "X-Content-Type-Options")
        = ContentTypeOptionsDisposition.ContentTypeOptionsNosniff ∧
      c.isSupportedJavaScriptMIMEType
        (c.lower (c.extractMIMETypeFromMediaType (m_response.httpHeaderField "Content-Type")))
          = false) ∧
    (CachedScript.mimeTypeAllowedByNosniff c m_response = true ↔
      ¬ (c.parseContentTypeOptionsHeader (m_response.httpHeaderField "X-Content-Type-Options")
          = ContentTypeOptionsDisposition.ContentTypeOptionsNosniff ∧
        c.isSupportedJavaScriptMIMEType
          (c.lower (c.extractMIMETypeFromMediaType (m_response.httpHeaderField "Content-Type")))
            = false)) := by
  unfold CachedScript.mimeTypeAllowedByNosniff CachedScript.mimeType
  cases c.parseContentTypeOptionsHeader (m_response.httpHeaderField "X-Content-Type-Options") <;>
    cases c.isSupportedJavaScriptMIMEType
      (c.lower (c.extractMIMETypeFromMediaType (m_response.httpHeaderField "Content-Type"))) <;>
    simp [logicalNot, boolToInt, ContentTypeOptionsDisposition.toInt]

/-! ## Dispatcher: liveness around every native call -/

theorem liveOnly_hasProperty (rt : Runtime) (o : NPObject) :
    (rt.liveOnly._class o).hasProperty = (rt._class o).hasProperty.map
      (fun f o identifier w => if _NPN_IsAlive w o then f o identifier w else (false, w)) := rfl

theorem liveOnly_getProperty (rt : Runtime) (o : NPObject) :
    (rt.liveOnly._class o).getProperty = (rt._class o).getProperty.map
      (fun f o identifier w =>
        if _NPN_IsAlive w o then f o identifier w else (false, NPVariant.void, w)) := rfl

theorem liveOnly_setProperty (rt : Runtime) (o : NPObject) :
    (rt.liveOnly._class o).setProperty = (rt._class o).setProperty.map
      (fun f o identifier value w =>
        if _NPN_IsAlive w o then f o identifier value w else (false, w)) := rfl

theorem liveOnly_hasMethod (rt : Runtime) (o : NPObject) :
    (rt.liveOnly._class o).hasMethod = (rt._class o).hasMethod.map
      (fun f o identifier w => if _NPN_IsAlive w o then f o identifier w else (false, w)) := rfl

theorem liveOnly_invoke (rt : Runtime) (o : NPObject) :
    (rt.liveOnly._class o).invoke = (rt._class o).invoke.map
      (fun f o identifier args argCount w =>
        if _NPN_IsAlive w o then f o identifier args argCount w
        else (false, NPVariant.void, w)) := rfl

theorem liveOnly_invokeDefault (rt : Runtime) (o : NPObject) :
    (rt.liveOnly._class o).invokeDefault = (rt._class o).invokeDefault.map
      (fun f o args argCount w =>
        if _NPN_IsAlive w o then f o args argCount w else (false, NPVariant.void, w)) := rfl

theorem liveOnly_construct (rt : Runtime) (o : NPObject) :
    (rt.liveOnly._class o).construct = (rt._class o).construct.map
      (fun f o args argCount w =>
        if _NPN_IsAlive w o then f o args argCount w else (false, NPVariant.void, w)) := rfl

theorem liveOnly_convertNPVariantToV8Object (rt : Runtime) :
    rt.liveOnly.convertNPVariantToV8Object = rt.convertNPVariantToV8Object := rfl

theorem liveOnly_convertV8ObjectToNPVariant (rt : Runtime) :
    rt.liveOnly.convertV8ObjectToNPVariant = rt.convertV8ObjectToNPVariant := rfl

theorem liveOnly_getStringIdentifier (rt : Runtime) :
    rt.liveOnly.getStringIdentifier = rt.getStringIdentifier := rfl

theorem liveOnly_npObjectInternalFieldCount (rt : Runtime) :
    rt.liveOnly.npObjectInternalFieldCount = rt.npObjectInternalFieldCount := rfl

theorem getPropertyBranch_liveOnly (rt : Runtime)
    (getProperty : NPObject → NPIdentifier → World → Bool × NPVariant × World)
    (npObject : NPObject) (identifier : NPIdentifier) (w : World) :
    getPropertyBranch rt.liveOnly
        (fun o identifier w =>
          if _NPN_IsAlive w o then getProperty o identifier w else (false, NPVariant.void, w))
        npObject identifier w
      = getPropertyBranch rt getProperty npObject identifier w := by
  cases halive : _NPN_IsAlive w npObject with
  | false => simp [getPropertyBranch, halive]
  | true => simp [getPropertyBranch, halive, liveOnly_convertNPVariantToV8Object]

theorem getMethodBranch_liveOnly (rt : Runtime) (npObject : NPObject) (identifier : NPIdentifier)
    (key : V8Value) (w : World) :
    getMethodBranch rt.liveOnly npObject identifier key w
      = getMethodBranch rt npObject identifier key w := by
  cases halive : _NPN_IsAlive w npObject with
  | false => simp [getMethodBranch, halive]
  | true =>
    cases hkey : key.IsString <;> cases hcap : (rt._class npObject).hasMethod <;>
      simp [getMethodBranch, halive, hkey, hcap, liveOnly_hasMethod]

theorem npObjectGetProperty_liveOnly (rt : Runtime) (self : V8Object) (identifier : NPIdentifier)
    (key : V8Value) (w : World) :
    npObjectGetProperty rt.liveOnly self identifier key w
      = npObjectGetProperty rt self identifier key w := by
  cases hself : v8ObjectToNPObject w self with
  | none => simp [npObjectGetProperty, hself]
  | some npObject =>
    cases halive : _NPN_IsAlive w npObject with
    | false => simp [npObjectGetProperty, hself, halive]
    | true =>
      cases hhp : (rt._class npObject).hasProperty <;>
        cases hgp : (rt._class npObject).getProperty <;>
        simp [npObjectGetProperty, hself, halive, hhp, hgp, liveOnly_hasProperty,
          liveOnly_getProperty, getMethodBranch_liveOnly, getPropertyBranch_liveOnly]

theorem npObjectSetProperty_liveOnly (rt : Runtime) (self : V8Object) (identifier : NPIdentifier)
    (value : V8Value) (w : World) :
    npObjectSetProperty rt.liveOnly self identifier value w
      = npObjectSetProperty rt self identifier value w := by
  cases hself : v8ObjectToNPObject w self with
  | none => simp [npObjectSetProperty, hself]
  | some npObject =>
    cases halive : _NPN_IsAlive w npObject with
    | false => simp [npObjectSetProperty, hself, halive]
    | true =>
      cases hhp : (rt._class npObject).hasProperty with
      | none => simp [npObjectSetProperty, hself, halive, hhp, liveOnly_hasProperty]
      | some hasProperty =>
        cases hsp : (rt._class npObject).setProperty with
        | none =>
          simp [npObjectSetProperty, hself, halive, hhp, hsp, liveOnly_hasProperty,
            liveOnly_setProperty]
        | some setProperty =>
          cases hhas : (hasProperty npObject identifier w).1 with
          | false =>
            simp [npObjectSetProperty, hself, halive, hhp, hsp, hhas, liveOnly_hasProperty,
              liveOnly_setProperty]
          | true =>
            cases hstill : _NPN_IsAlive (hasProperty npObject identifier w).2 npObject <;>
              simp [npObjectSetProperty, hself, halive, hhp, hsp, hhas, hstill,
                liveOnly_hasProperty, liveOnly_setProperty, liveOnly_convertV8ObjectToNPVariant]

theorem holderNPObject_liveOnly (rt : Runtime) (w : World) (holder : Holder) :
    holderNPObject rt.liveOnly w holder = holderNPObject rt w holder := by
  cases holder <;> simp [holderNPObject, liveOnly_npObjectInternalFieldCount]

theorem invokeSwitch_liveOnly (rt : Runtime) (functionId : InvokeFunctionType)
    (npObject : NPObject) (Data : V8Value) (npArgs : List NPVariant) (numArgs : Nat) (w : World)
    (halive : _NPN_IsAlive w npObject = true) :
    invokeSwitch rt.liveOnly functionId npObject Data npArgs numArgs w
      = invokeSwitch rt functionId npObject Data npArgs numArgs w := by
  cases functionId with
  | InvokeMethod =>
    cases h : (rt._class npObject).invoke <;>
      simp [invokeSwitch, h, halive, liveOnly_invoke, liveOnly_getStringIdentifier]
  | InvokeConstruct =>
    cases h : (rt._class npObject).construct <;>
      simp [invokeSwitch, h, halive, liveOnly_construct]
  | InvokeDefault =>
    cases h : (rt._class npObject).invokeDefault <;>
      simp [invokeSwitch, h, halive, liveOnly_invokeDefault]

theorem npObjectInvokeImpl_liveOnly (rt : Runtime) (args : Arguments)
    (functionId : InvokeFunctionType) (w : World) :
    npObjectInvokeImpl rt.liveOnly args functionId w = npObjectInvokeImpl rt args functionId w := by
  cases hholder : holderNPObject rt w args.Holder with
  | none => simp [npObjectInvokeImpl, holderNPObject_liveOnly, hholder]
  | some npObject =>
    cases npObject with
    | none => simp [npObjectInvokeImpl, holderNPObject_liveOnly, hholder]
    | some npObject =>
      cases halive : _NPN_IsAlive w npObject with
      | false => simp [npObjectInvokeImpl, holderNPObject_liveOnly, hholder, halive]
      | true =>
        simp [npObjectInvokeImpl, invokeLive, marshalledArgs, holderNPObject_liveOnly, hholder,
          halive, invokeSwitch_liveOnly, liveOnly_convertV8ObjectToNPVariant,
          liveOnly_convertNPVariantToV8Object]

theorem recheckedFrom_marshalCalls (npObject owner : NPObject) :
    ∀ (l : List V8Value) (k : Nat) (rest : List Event),
      recheckedFrom npObject true (marshalCalls owner k l ++ rest)
        = recheckedFrom npObject true rest := by
  intro l
  induction l with
  | nil => intro k rest; simp [marshalCalls]
  | cons a l ih =>
    intro k rest
    simp [marshalCalls, recheckedFrom, Event.isVtableCall, Event.isMarshal, ih]

theorem recheckedFrom_releaseCalls (npObject : NPObject) (checked : Bool) :
    ∀ (n k : Nat) (rest : List Event),
      recheckedFrom npObject checked (releaseCalls k n ++ rest)
        = recheckedFrom npObject checked rest := by
  intro n
  induction n with
  | zero => intro k rest; simp [releaseCalls]
  | succ n ih =>
    intro k rest
    simp [releaseCalls, recheckedFrom, Event.isVtableCall, Event.isMarshal, ih]

theorem npObjectGetProperty_rechecked (rt : Runtime) (self : V8Object) (identifier : NPIdentifier)
    (key : V8Value) (w : World) (npObject : NPObject)
    (hself : v8ObjectToNPObject w self = some npObject) :
    livenessRechecked npObject (npObjectGetProperty rt self identifier key w).trace = true := by
  simp only [npObjectGetProperty, hself, getPropertyBranch, getMethodBranch, getMethodTemplate,
    Outcome.after]
  repeat' split
  all_goals
    simp [livenessRechecked, recheckedFrom, Event.isVtableCall, Event.isMarshal, npObjectDeleted]

theorem npObjectSetProperty_rechecked (rt : Runtime) (self : V8Object) (identifier : NPIdentifier)
    (value : V8Value) (w : World) (npObject : NPObject)
    (hself : v8ObjectToNPObject w self = some npObject) :
    livenessRechecked npObject (npObjectSetProperty rt self identifier value w).trace = true := by
  simp only [npObjectSetProperty, hself]
  repeat' split
  all_goals
    simp [livenessRechecked, recheckedFrom, Event.isVtableCall, Event.isMarshal, npObjectDeleted]

theorem npObjectInvokeImpl_rechecked (rt : Runtime) (args : Arguments)
    (functionId : InvokeFunctionType) (w : World) (npObject : NPObject)
    (hholder : holderNPObject rt w args.Holder = some (some npObject)) :
    livenessRechecked npObject (npObjectInvokeImpl rt args functionId w).trace = true := by
  cases halive : _NPN_IsAlive w npObject with
  | false =>
    simp [npObjectInvokeImpl, hholder, halive, livenessRechecked, recheckedFrom,
      Event.isVtableCall, Event.isMarshal, npObjectDeleted]
  | true =>
    obtain ⟨ending, htrace, -, hend⟩ :=
      npObjectInvokeImpl_live rt args functionId w npObject hholder halive
    have hending : recheckedFrom npObject true ending = true := by
      rcases hend with ⟨-, h, -⟩ | ⟨-, h, -⟩ <;>
        simp [h, recheckedFrom, Event.isVtableCall, Event.isMarshal]
    have hthrown : ∀ (c : Bool) (rest : List Event),
        recheckedFrom npObject c
          ((if (invokeSwitch rt functionId npObject args.Data
              (marshalledArgs rt npObject args.args) args.Length w).1.1 = false
            then [errorCallingMethod] else []) ++ rest) = recheckedFrom npObject c rest := by
      intro c rest
      split <;>
        simp [recheckedFrom, errorCallingMethod, Event.isVtableCall, Event.isMarshal]
    have htail : ∀ (c : Bool),
        recheckedFrom npObject c
          ((if (invokeSwitch rt functionId npObject args.Data
              (marshalledArgs rt npObject args.args) args.Length w).1.1 = false
            then [errorCallingMethod] else []) ++
            (releaseCalls 0 args.Length ++ (Event.isAlive npObject :: ending))) = true := by
      intro c
      rw [hthrown, recheckedFrom_releaseCalls]
      simp [recheckedFrom, hending]
    rw [htrace]
    simp only [livenessRechecked, List.append_assoc, List.singleton_append]
    rw [recheckedFrom]
    simp only [if_true]
    rw [recheckedFrom_marshalCalls]
    rcases invokeSwitch_cases rt functionId npObject args.Data
      (marshalledArgs rt npObject args.args) args.Length w with ⟨-, hs⟩ | ⟨c, e, -, hs, hcall, -⟩
    · have h2 : (invokeSwitch rt functionId npObject args.Data
          (marshalledArgs rt npObject args.args) args.Length w).2 = [] := by rw [hs]
      rw [h2, List.nil_append]
      exact htail true
    · have h2 : (invokeSwitch rt functionId npObject args.Data
          (marshalledArgs rt npObject args.args) args.Length w).2 = [e] := by rw [hs]
      rw [h2, List.singleton_append, recheckedFrom]
      have hne : e ≠ Event.isAlive npObject := by
        intro h
        rw [h] at hcall
        cases hcall
      simp only [hne, if_false, hcall, if_true, Bool.true_and]
      exact htail false

/-- C14. Liveness is re-checked around every native call, with each call into the
capability table a step that may change the world, the alive flag of its object included.
In `npObjectGetProperty`, `npObjectSetProperty` and `npObjectInvokeImpl`: first, no
capability is invoked on an object that is not alive at the moment of the call: every run
is the same, in value returned, world left and calls made, when each capability is
replaced by one that has no effect on an object that is not alive; second, in the calls
of every run, each call into the capability table and each marshalling call is preceded
by a call of `_NPN_IsAlive` on the receiver made after the previous call into the
capability table. -/
theorem liveness_rechecked_around_native_calls (rt : Runtime) (w : World) :
    (∀ self identifier key,
      npObjectGetProperty rt.liveOnly self identifier key w
        = npObjectGetProperty rt self identifier key w) ∧
    (∀ self identifier value,
      npObjectSetProperty rt.liveOnly self identifier value w
        = npObjectSetProperty rt self identifier value w) ∧
    (∀ args functionId,
      npObjectInvokeImpl rt.liveOnly args functionId w = npObjectInvokeImpl rt args functionId w) ∧
    (∀ self identifier key npObject, v8ObjectToNPObject w self = some npObject →
      livenessRechecked npObject (npObjectGetProperty rt self identifier key w).trace = true) ∧
    (∀ self identifier value npObject, v8ObjectToNPObject w self = some npObject →
      livenessRechecked npObject (npObjectSetProperty rt self identifier value w).trace = true) ∧
    (∀ args functionId npObject, holderNPObject rt w args.Holder = some (some npObject) →
      livenessRechecked npObject (npObjectInvokeImpl rt args functionId w).trace = true) :=
  ⟨fun self identifier key => npObjectGetProperty_liveOnly rt self identifier key w,
    fun self identifier value => npObjectSetProperty_liveOnly rt self identifier value w,
    fun args functionId => npObjectInvokeImpl_liveOnly rt args functionId w,
    fun self identifier key npObject h =>
      npObjectGetProperty_rechecked rt self identifier key w npObject h,
    fun self identifier value npObject h =>
      npObjectSetProperty_rechecked rt self identifier value w npObject h,
    fun args functionId npObject h =>
      npObjectInvokeImpl_rechecked rt args functionId w npObject h⟩

/-- C14, evaluated on a get on the proxy 20 of the self-destroying object 2 and on a method
call with one argument on the same proxy. -/
theorem liveness_rechecked_around_native_calls_witness :
    livenessRechecked 2 (npObjectGetProperty sampleRuntime (V8Object.mk 20)
      (IdentifierRep.m_string "x") (V8Value.string "x") sampleWorld).trace = true ∧
    livenessRechecked 2 (npObjectInvokeImpl sampleRuntime
      ⟨Holder.other (V8Object.mk 20) 3, [V8Value.number 5], V8Value.string "f", false⟩
      InvokeFunctionType.InvokeMethod sampleWorld).trace = true ∧
    npObjectSetProperty sampleRuntime.liveOnly (V8Object.mk 20) (IdentifierRep.m_string "x")
        (V8Value.number 1) sampleWorld
      = npObjectSetProperty sampleRuntime (V8Object.mk 20) (IdentifierRep.m_string "x")
        (V8Value.number 1) sampleWorld :=
  ⟨(liveness_rechecked_around_native_calls sampleRuntime sampleWorld).2.2.2.1 (V8Object.mk 20)
      (IdentifierRep.m_string "x") (V8Value.string "x") 2 rfl,
    (liveness_rechecked_around_native_calls sampleRuntime sampleWorld).2.2.2.2.2
      ⟨Holder.other (V8Object.mk 20) 3, [V8Value.number 5], V8Value.string "f", false⟩
      InvokeFunctionType.InvokeMethod 2 rfl,
    (liveness_rechecked_around_native_calls sampleRuntime sampleWorld).2.1 (V8Object.mk 20)
      (IdentifierRep.m_string "x") (V8Value.number 1)⟩

/-- The `liveOnly` equation separates the operations: `npObjectPropertyEnumerator`, which
calls `enumerate` on the dead object 4 of the sample world, returns identifiers with the
sample runtime and none when capabilities have no effect on an object that is not alive. -/
theorem npObjectPropertyEnumerator_depends_on_dead_call :
    (npObjectPropertyEnumerator sampleRuntime (V8Object.mk 40) true sampleWorld).map
        (fun r => r.returnValue) = some (some [V8Value.symbol (some "x")]) ∧
    (npObjectPropertyEnumerator sampleRuntime.liveOnly (V8Object.mk 40) true sampleWorld).map
        (fun r => r.returnValue) = some none := by
  constructor <;>
    simp [npObjectPropertyEnumerator, v8ObjectToNPObject, sampleWorld, sampleRuntime,
      Runtime.liveOnly, NPClass.liveOnly, _NPN_IsAlive, NP_CLASS_STRUCT_VERSION_HAS_ENUM,
      selfDestroyingClass, enumeratedElement, IdentifierRep.string]

/-! ## Dispatcher: one method template per identifier -/

theorem templatesKept_refl (w : World) : templatesKept w w :=
  fun _ _ h => h

theorem templatesKept_trans {w1 w2 w3 : World} (h12 : templatesKept w1 w2)
    (h23 : templatesKept w2 w3) : templatesKept w1 w3 :=
  fun key t h => h23 key t (h12 key t h)

theorem getMethodTemplate_cached (identifier : NPIdentifier) (key : V8Value) (w : World)
    (t : FunctionTemplate) (h : V8NPTemplateMap.get w identifier = some t) :
    getMethodTemplate identifier key w =
      ⟨Handle.value (V8Value.function t.id key.stringCast), w, [Event.templateGet identifier]⟩ := by
  simp [getMethodTemplate, h]

theorem getMethodTemplate_created (identifier : NPIdentifier) (key : V8Value) (w : World)
    (h : V8NPTemplateMap.get w identifier = none) :
    getMethodTemplate identifier key w =
      ⟨Handle.value (V8Value.function w.templatesCreated key.stringCast),
        V8NPTemplateMap.set { w with templatesCreated := w.templatesCreated + 1 } identifier
          ⟨w.templatesCreated, key⟩,
        [Event.templateGet identifier, Event.templateSet identifier ⟨w.templatesCreated, key⟩]⟩ := by
  simp [getMethodTemplate, h]

theorem getMethodTemplate_kept (identifier : NPIdentifier) (key : V8Value) (w : World) :
    templatesKept w (getMethodTemplate identifier key w).world := by
  cases h : V8NPTemplateMap.get w identifier with
  | some t =>
    rw [getMethodTemplate_cached identifier key w t h]
    exact templatesKept_refl w
  | none =>
    rw [getMethodTemplate_created identifier key w h]
    intro k t hk
    by_cases hki : k = identifier
    · subst hki
      rw [h] at hk
      cases hk
    · simpa [V8NPTemplateMap.get, V8NPTemplateMap.set, hki] using hk

/-- After the template step the map has a template for the identifier, and the function
returned is made from it. -/
theorem getMethodTemplate_served (identifier : NPIdentifier) (key : V8Value) (w : World) :
    ∃ t, V8NPTemplateMap.get (getMethodTemplate identifier key w).world identifier = some t ∧
      (getMethodTemplate identifier key w).returnValue
        = Handle.value (V8Value.function t.id key.stringCast) ∧
      (V8NPTemplateMap.get w identifier = some t ∨ V8NPTemplateMap.get w identifier = none) := by
  cases h : V8NPTemplateMap.get w identifier with
  | some t =>
    rw [getMethodTemplate_cached identifier key w t h]
    exact ⟨t, h, rfl, Or.inl rfl⟩
  | none =>
    rw [getMethodTemplate_created identifier key w h]
    exact ⟨⟨w.templatesCreated, key⟩, by simp [V8NPTemplateMap.get, V8NPTemplateMap.set], rfl,
      Or.inr rfl⟩

theorem after_after {α : Type} (o : Outcome α) (a b : List Event) :
    (o.after a).after b = o.after (b ++ a) := by
  simp [Outcome.after]

/-- The method branch either makes no call to the template map, or ends with the template
step of lines 247-261, run in a world that the earlier native calls left. -/
theorem getMethodBranch_template_step (rt : Runtime) (npObject : NPObject)
    (identifier : NPIdentifier) (key : V8Value) (w : World) :
    (∀ e ∈ (getMethodBranch rt npObject identifier key w).trace, e.isTemplateCall = false) ∨
    ∃ w0 earlier, getMethodBranch rt npObject identifier key w
        = (getMethodTemplate identifier key w0).after earlier ∧
      (∀ e ∈ earlier, e.isTemplateCall = false) ∧
      (rt.keepsTemplates → templatesKept w w0) := by
  cases halive : _NPN_IsAlive w npObject with
  | false =>
    left
    simp [getMethodBranch, halive, npObjectDeleted, Event.isTemplateCall]
  | true =>
    cases hkey : key.IsString with
    | false =>
      left
      simp [getMethodBranch, halive, hkey, Event.isTemplateCall]
    | true =>
      cases hcap : (rt._class npObject).hasMethod with
      | none =>
        left
        simp [getMethodBranch, halive, hkey, hcap, Event.isTemplateCall]
      | some hasMethod =>
        cases hhas : (hasMethod npObject identifier w).1 with
        | false =>
          left
          simp [getMethodBranch, halive, hkey, hcap, hhas, Event.isTemplateCall]
        | true =>
          cases hstill : _NPN_IsAlive (hasMethod npObject identifier w).2 npObject with
          | false =>
            left
            simp [getMethodBranch, halive, hkey, hcap, hhas, hstill, npObjectDeleted,
              Event.isTemplateCall]
          | true =>
            right
            refine ⟨(hasMethod npObject identifier w).2,
              [Event.isAlive npObject, Event.hasMethod npObject identifier, Event.isAlive npObject],
              ?_, ?_, ?_⟩
            · simp [getMethodBranch, halive, hkey, hcap, hhas, hstill]
            · simp [Event.isTemplateCall]
            · intro hkeep
              exact (hkeep npObject identifier w).2.2 hasMethod hcap

theorem getPropertyBranch_no_template (rt : Runtime)
    (getProperty : NPObject → NPIdentifier → World → Bool × NPVariant × World)
    (npObject : NPObject) (identifier : NPIdentifier) (w : World) :
    ∀ e ∈ (getPropertyBranch rt getProperty npObject identifier w).trace,
      e.isTemplateCall = false := by
  simp only [getPropertyBranch]
  repeat' split
  all_goals simp [npObjectDeleted, Event.isTemplateCall]

theorem getPropertyBranch_world (rt : Runtime)
    (getProperty : NPObject → NPIdentifier → World → Bool × NPVariant × World)
    (npObject : NPObject) (identifier : NPIdentifier) (w : World) :
    (getPropertyBranch rt getProperty npObject identifier w).world = w ∨
    (getPropertyBranch rt getProperty npObject identifier w).world
      = (getProperty npObject identifier w).2.2 := by
  simp only [getPropertyBranch]
  repeat' split
  all_goals simp

/-- A run of `npObjectGetProperty` either makes no call to the template map, or ends with
the template step of lines 247-261, run in a world that the earlier native calls left. -/
theorem npObjectGetProperty_template_step (rt : Runtime) (self : V8Object)
    (identifier : NPIdentifier) (key : V8Value) (w : World) :
    (∀ e ∈ (npObjectGetProperty rt self identifier key w).trace, e.isTemplateCall = false) ∨
    ∃ w0 earlier, npObjectGetProperty rt self identifier key w
        = (getMethodTemplate identifier key w0).after earlier ∧
      (∀ e ∈ earlier, e.isTemplateCall = false) ∧
      (rt.keepsTemplates → templatesKept w w0) := by
  cases hself : v8ObjectToNPObject w self with
  | none =>
    left
    simp [npObjectGetProperty, hself, npObjectDeleted, Event.isTemplateCall]
  | some npObject =>
    cases halive : _NPN_IsAlive w npObject with
    | false =>
      left
      simp [npObjectGetProperty, hself, halive, npObjectDeleted, Event.isTemplateCall]
    | true =>
      have hmethod : ∀ (w1 : World) (before : List Event),
          (∀ e ∈ before, e.isTemplateCall = false) →
          (rt.keepsTemplates → templatesKept w w1) →
          ((∀ e ∈ ((getMethodBranch rt npObject identifier key w1).after before).trace,
              e.isTemplateCall = false) ∨
            ∃ w0 earlier, (getMethodBranch rt npObject identifier key w1).after before
                = (getMethodTemplate identifier key w0).after earlier ∧
              (∀ e ∈ earlier, e.isTemplateCall = false) ∧
              (rt.keepsTemplates → templatesKept w w0)) := by
        intro w1 before hbefore hw1
        rcases getMethodBranch_template_step rt npObject identifier key w1 with h | ⟨w0, earlier, h, he, hk⟩
        · left
          intro e he
          simp only [Outcome.after, List.mem_append] at he
          rcases he with he | he
          · exact hbefore e he
          · exact h e he
        · right
          refine ⟨w0, before ++ earlier, ?_, ?_, ?_⟩
          · rw [h, after_after]
          · intro e hmem
            rcases List.mem_append.mp hmem with hmem | hmem
            · exact hbefore e hmem
            · exact he e hmem
          · intro hkeep
            exact templatesKept_trans (hw1 hkeep) (hk hkeep)
      cases hhp : (rt._class npObject).hasProperty with
      | none =>
        have h : npObjectGetProperty rt self identifier key w
            = (getMethodBranch rt npObject identifier key w).after [Event.isAlive npObject] := by
          simp [npObjectGetProperty, hself, halive, hhp]
        rw [h]
        exact hmethod w _ (by simp [Event.isTemplateCall]) (fun _ => templatesKept_refl w)
      | some hasProperty =>
        cases hgp : (rt._class npObject).getProperty with
        | none =>
          have h : npObjectGetProperty rt self identifier key w
              = (getMethodBranch rt npObject identifier key w).after [Event.isAlive npObject] := by
            simp [npObjectGetProperty, hself, halive, hhp, hgp]
          rw [h]
          exact hmethod w _ (by simp [Event.isTemplateCall]) (fun _ => templatesKept_refl w)
        | some getProperty =>
          cases hhas : (hasProperty npObject identifier w).1 with
          | true =>
            left
            have h : npObjectGetProperty rt self identifier key w
                = (getPropertyBranch rt getProperty npObject identifier
                    (hasProperty npObject identifier w).2).after
                    [Event.isAlive npObject, Event.hasProperty npObject identifier] := by
              simp [npObjectGetProperty, hself, halive, hhp, hgp, hhas]
            rw [h]
            intro e he
            simp only [Outcome.after, List.mem_append] at he
            rcases he with he | he
            · revert he
              simp only [List.mem_cons, List.not_mem_nil, or_false]
              rintro (rfl | rfl) <;> rfl
            · exact getPropertyBranch_no_template rt getProperty npObject identifier _ e he
          | false =>
            have h : npObjectGetProperty rt self identifier key w
                = (getMethodBranch rt npObject identifier key
                    (hasProperty npObject identifier w).2).after
                    [Event.isAlive npObject, Event.hasProperty npObject identifier] := by
              simp [npObjectGetProperty, hself, halive, hhp, hgp, hhas]
            rw [h]
            exact hmethod _ _ (by simp [Event.isTemplateCall])
              (fun hkeep => (hkeep npObject identifier w).1 hasProperty hhp)

theorem getMethodBranch_kept (rt : Runtime) (hkeep : rt.keepsTemplates) (npObject : NPObject)
    (identifier : NPIdentifier) (key : V8Value) (w : World) :
    templatesKept w (getMethodBranch rt npObject identifier key w).world := by
  cases halive : _NPN_IsAlive w npObject with
  | false =>
    simp only [getMethodBranch, halive, if_true]
    exact templatesKept_refl w
  | true =>
    cases hkey : key.IsString with
    | false =>
      simp only [getMethodBranch, halive, hkey]
      exact templatesKept_refl w
    | true =>
      cases hcap : (rt._class npObject).hasMethod with
      | none =>
        simp only [getMethodBranch, halive, hkey, hcap]
        exact templatesKept_refl w
      | some hasMethod =>
        have hcall := (hkeep npObject identifier w).2.2 hasMethod hcap
        cases hhas : (hasMethod npObject identifier w).1 with
        | false =>
          have h : (getMethodBranch rt npObject identifier key w).world
              = (hasMethod npObject identifier w).2 := by
            simp [getMethodBranch, halive, hkey, hcap, hhas]
          rw [h]
          exact hcall
        | true =>
          cases hstill : _NPN_IsAlive (hasMethod npObject identifier w).2 npObject with
          | false =>
            have h : (getMethodBranch rt npObject identifier key w).world
                = (hasMethod npObject identifier w).2 := by
              simp [getMethodBranch, halive, hkey, hcap, hhas, hstill]
            rw [h]
            exact hcall
          | true =>
            have h : (getMethodBranch rt npObject identifier key w).world
                = (getMethodTemplate identifier key (hasMethod npObject identifier w).2).world := by
              simp [getMethodBranch, halive, hkey, hcap, hhas, hstill, Outcome.after]
            rw [h]
            exact templatesKept_trans hcall (getMethodTemplate_kept identifier key _)

/-- A run of `npObjectGetProperty` disposes of no template when its native calls do not. -/
theorem npObjectGetProperty_kept (rt : Runtime) (hkeep : rt.keepsTemplates) (self : V8Object)
    (identifier : NPIdentifier) (key : V8Value) (w : World) :
    templatesKept w (npObjectGetProperty rt self identifier key w).world := by
  cases hself : v8ObjectToNPObject w self with
  | none =>
    simp only [npObjectGetProperty, hself]
    exact templatesKept_refl w
  | some npObject =>
    cases halive : _NPN_IsAlive w npObject with
    | false =>
      simp only [npObjectGetProperty, hself, halive, if_true]
      exact templatesKept_refl w
    | true =>
      cases hhp : (rt._class npObject).hasProperty with
      | none =>
        have h : (npObjectGetProperty rt self identifier key w).world
            = (getMethodBranch rt npObject identifier key w).world := by
          simp [npObjectGetProperty, hself, halive, hhp, Outcome.after]
        rw [h]
        exact getMethodBranch_kept rt hkeep npObject identifier key w
      | some hasProperty =>
        cases hgp : (rt._class npObject).getProperty with
        | none =>
          have h : (npObjectGetProperty rt self identifier key w).world
              = (getMethodBranch rt npObject identifier key w).world := by
            simp [npObjectGetProperty, hself, halive, hhp, hgp, Outcome.after]
          rw [h]
          exact getMethodBranch_kept rt hkeep npObject identifier key w
        | some getProperty =>
          have hcall := (hkeep npObject identifier w).1 hasProperty hhp
          cases hhas : (hasProperty npObject identifier w).1 with
          | true =>
            have h : (npObjectGetProperty rt self identifier key w).world
                = (getPropertyBranch rt getProperty npObject identifier
                    (hasProperty npObject identifier w).2).world := by
              simp [npObjectGetProperty, hself, halive, hhp, hgp, hhas, Outcome.after]
            rw [h]
            rcases getPropertyBranch_world rt getProperty npObject identifier
              (hasProperty npObject identifier w).2 with h2 | h2
            · rw [h2]
              exact hcall
            · rw [h2]
              exact templatesKept_trans hcall
                ((hkeep npObject identifier (hasProperty npObject identifier w).2).2.1
                  getProperty hgp)
          | false =>
            have h : (npObjectGetProperty rt self identifier key w).world
                = (getMethodBranch rt npObject identifier key
                    (hasProperty npObject identifier w).2).world := by
              simp [npObjectGetProperty, hself, halive, hhp, hgp, hhas, Outcome.after]
            rw [h]
            exact templatesKept_trans hcall
              (getMethodBranch_kept rt hkeep npObject identifier key _)

theorem npObjectGetPropertySequence_kept (rt : Runtime) (hkeep : rt.keepsTemplates) :
    ∀ (calls : List (V8Object × NPIdentifier × V8Value)) (w : World),
      templatesKept w (npObjectGetPropertySequence rt calls w) := by
  intro calls
  induction calls with
  | nil => intro w; exact templatesKept_refl w
  | cons call rest ih =>
    intro w
    simp only [npObjectGetPropertySequence]
    exact templatesKept_trans (npObjectGetProperty_kept rt hkeep call.1 call.2.1 call.2.2 w)
      (ih _)

/-- A method lookup ends with the template step, made in the world `hasMethod` left, after
calls none of which touches the template map. -/
theorem methodLookup_run (rt : Runtime) (self : V8Object) (identifier : NPIdentifier)
    (key : V8Value) (w step : World) (h : methodLookup rt self identifier key w step) :
    ∃ earlier, npObjectGetProperty rt self identifier key w
        = (getMethodTemplate identifier key step).after earlier ∧
      ∀ e ∈ earlier, e.isTemplateCall = false := by
  obtain ⟨npObject, after, hasMethod, hself, halive, hprop, hafter, hkey, hcap, hhas, hstep,
    hstill⟩ := h
  subst hstep
  have hbranch : getMethodBranch rt npObject identifier key after
      = (getMethodTemplate identifier key (hasMethod npObject identifier after).2).after
          [Event.isAlive npObject, Event.hasMethod npObject identifier, Event.isAlive npObject] := by
    simp [getMethodBranch, hafter, hkey, hcap, hhas, hstill]
  rcases hprop with ⟨habsent, hw⟩ | ⟨hasProperty, getProperty, hhp, hgp, hfalse, hw⟩
  · subst hw
    refine ⟨[Event.isAlive npObject] ++ [Event.isAlive npObject,
      Event.hasMethod npObject identifier, Event.isAlive npObject], ?_, ?_⟩
    · rw [← after_after, ← hbranch]
      rcases habsent with h | h
      · simp [npObjectGetProperty, hself, halive, h]
      · cases hhp : (rt._class npObject).hasProperty <;>
          simp [npObjectGetProperty, hself, halive, h, hhp]
    · simp [Event.isTemplateCall]
  · subst hw
    refine ⟨[Event.isAlive npObject, Event.hasProperty npObject identifier]
      ++ [Event.isAlive npObject, Event.hasMethod npObject identifier, Event.isAlive npObject],
      ?_, ?_⟩
    · rw [← after_after, ← hbranch]
      simp [npObjectGetProperty, hself, halive, hhp, hgp, hfalse]
    · simp [Event.isTemplateCall]

/-- The calls of `npObjectGetProperty` to the template map: a `set` is made only for the
identifier looked up and only when the map has none for it; a run that consults the map
returns the function of the template then stored; templates are kept along sequences of
runs; two runs consulting the map for one identifier are served from one template. -/
theorem method_template_calls (rt : Runtime) :
    (∀ self identifier key w k t,
      Event.templateSet k t ∈ (npObjectGetProperty rt self identifier key w).trace →
      k = identifier ∧
      ∃ w0 earlier, npObjectGetProperty rt self identifier key w
          = (getMethodTemplate identifier key w0).after earlier ∧
        V8NPTemplateMap.get w0 identifier = none ∧
        V8NPTemplateMap.setAssertion
          { w0 with templatesCreated := w0.templatesCreated + 1 } identifier = true ∧
        (npObjectGetProperty rt self identifier key w).world
          = V8NPTemplateMap.set { w0 with templatesCreated := w0.templatesCreated + 1 }
              identifier t) ∧
    (∀ self identifier key w k,
      Event.templateGet k ∈ (npObjectGetProperty rt self identifier key w).trace →
      k = identifier ∧
      ∃ t, V8NPTemplateMap.get (npObjectGetProperty rt self identifier key w).world identifier
          = some t ∧
        (npObjectGetProperty rt self identifier key w).returnValue
          = Handle.value (V8Value.function t.id key.stringCast)) ∧
    (rt.keepsTemplates → ∀ calls w, templatesKept w (npObjectGetPropertySequence rt calls w)) ∧
    (rt.keepsTemplates → ∀ self1 self2 identifier key1 key2 between w,
      Event.templateGet identifier ∈ (npObjectGetProperty rt self1 identifier key1 w).trace →
      Event.templateGet identifier ∈ (npObjectGetProperty rt self2 identifier key2
        (npObjectGetPropertySequence rt between
          (npObjectGetProperty rt self1 identifier key1 w).world)).trace →
      ∃ t : FunctionTemplate,
        (npObjectGetProperty rt self1 identifier key1 w).returnValue
          = Handle.value (V8Value.function t.id key1.stringCast) ∧
        (npObjectGetProperty rt self2 identifier key2
          (npObjectGetPropertySequence rt between
            (npObjectGetProperty rt self1 identifier key1 w).world)).returnValue
          = Handle.value (V8Value.function t.id key2.stringCast) ∧
        (∀ k t0, Event.templateSet k t0 ∉ (npObjectGetProperty rt self2 identifier key2
          (npObjectGetPropertySequence rt between
            (npObjectGetProperty rt self1 identifier key1 w).world)).trace)) := by
  have hstep : ∀ self identifier key w (e : Event), e.isTemplateCall = true →
      e ∈ (npObjectGetProperty rt self identifier key w).trace →
      ∃ w0 earlier, npObjectGetProperty rt self identifier key w
          = (getMethodTemplate identifier key w0).after earlier ∧
        e ∈ (getMethodTemplate identifier key w0).trace ∧
        (∀ e1 ∈ earlier, e1.isTemplateCall = false) ∧
        (rt.keepsTemplates → templatesKept w w0) := by
    intro self identifier key w e hcall hmem
    rcases npObjectGetProperty_template_step rt self identifier key w with h | ⟨w0, earlier, h, he, hk⟩
    · rw [h e hmem] at hcall
      cases hcall
    · refine ⟨w0, earlier, h, ?_, he, hk⟩
      rw [h] at hmem
      simp only [Outcome.after, List.mem_append] at hmem
      rcases hmem with hmem | hmem
      · rw [he e hmem] at hcall
        cases hcall
      · exact hmem
  have hserved : ∀ self identifier key w k,
      Event.templateGet k ∈ (npObjectGetProperty rt self identifier key w).trace →
      k = identifier ∧
      ∃ t, V8NPTemplateMap.get (npObjectGetProperty rt self identifier key w).world identifier
          = some t ∧
        (npObjectGetProperty rt self identifier key w).returnValue
          = Handle.value (V8Value.function t.id key.stringCast) := by
    intro self identifier key w k hmem
    obtain ⟨w0, earlier, h, hin, -, -⟩ :=
      hstep self identifier key w (Event.templateGet k) rfl hmem
    constructor
    · cases hget : V8NPTemplateMap.get w0 identifier with
      | some t0 =>
        rw [getMethodTemplate_cached identifier key w0 t0 hget] at hin
        simpa using hin
      | none =>
        rw [getMethodTemplate_created identifier key w0 hget] at hin
        simpa using hin
    · obtain ⟨t, ht, hret, -⟩ := getMethodTemplate_served identifier key w0
      exact ⟨t, by rw [h]; exact ht, by rw [h]; exact hret⟩
  refine ⟨?_, hserved, fun hkeep => npObjectGetPropertySequence_kept rt hkeep, ?_⟩
  · intro self identifier key w k t hmem
    obtain ⟨w0, earlier, h, hin, -, -⟩ :=
      hstep self identifier key w (Event.templateSet k t) rfl hmem
    cases hget : V8NPTemplateMap.get w0 identifier with
    | some t0 =>
      rw [getMethodTemplate_cached identifier key w0 t0 hget] at hin
      simp at hin
    | none =>
      rw [getMethodTemplate_created identifier key w0 hget] at hin
      simp only [List.mem_cons, reduceCtorEq, Event.templateSet.injEq, List.not_mem_nil,
        or_false, false_or] at hin
      obtain ⟨hk, ht⟩ := hin
      refine ⟨hk, w0, earlier, h, hget, ?_, ?_⟩
      · have hnone : w0.templateMap identifier = none := hget
        simp [V8NPTemplateMap.setAssertion, hnone]
      · rw [h, getMethodTemplate_created identifier key w0 hget, ht]
        rfl
  · intro hkeep self1 self2 identifier key1 key2 between w h1 h2
    obtain ⟨-, t, ht, hret1⟩ := hserved self1 identifier key1 w identifier h1
    have hmid := npObjectGetPropertySequence_kept rt hkeep between _ identifier t ht
    obtain ⟨w0, earlier, h, -, he, hk⟩ :=
      hstep self2 identifier key2 _ (Event.templateGet identifier) rfl h2
    have hw0 := hk hkeep identifier t hmid
    have hrun := getMethodTemplate_cached identifier key2 w0 t hw0
    refine ⟨t, hret1, ?_, ?_⟩
    · rw [h, hrun]
      rfl
    · intro k t0 hmem
      rw [h, hrun] at hmem
      simp only [Outcome.after, List.mem_append, List.mem_singleton, reduceCtorEq, or_false] at hmem
      have := he _ hmem
      cases this

theorem methodRuntime_keepsTemplates : methodRuntime.keepsTemplates := by
  intro o identifier w
  refine ⟨?_, ?_, ?_⟩
  · intro f hf
    simp [methodRuntime, methodClass, bareClass] at hf
  · intro f hf
    simp [methodRuntime, methodClass, bareClass] at hf
  · intro f hf
    simp [methodRuntime, methodClass, bareClass] at hf
    rw [← hf]
    exact templatesKept_refl w

theorem methodLookup_kept (rt : Runtime) (hkeep : rt.keepsTemplates) (self : V8Object)
    (identifier : NPIdentifier) (key : V8Value) (w step : World)
    (h : methodLookup rt self identifier key w step) : templatesKept w step := by
  obtain ⟨npObject, after, hasMethod, -, -, hprop, -, -, hcap, -, hstep, -⟩ := h
  subst hstep
  have hafter : templatesKept w after := by
    rcases hprop with ⟨-, hw⟩ | ⟨hasProperty, getProperty, hhp, -, -, hw⟩
    · rw [hw]
      exact templatesKept_refl w
    · rw [hw]
      exact (hkeep npObject identifier w).1 hasProperty hhp
  exact templatesKept_trans hafter ((hkeep npObject identifier after).2.2 hasMethod hcap)

/-- C12. One method template per identifier, for `npObjectGetProperty` and the shared
`V8NPTemplateMap`. A method lookup (receiver with a live object, property branch not
taken, string key, `hasMethod` present and true, object alive throughout) consults the
map for its identifier: when the map has a template it returns the function of that
template and leaves the map alone, and when it has none it creates a fresh template,
stores it under the identifier alone and returns its function. So
`V8NPTemplateMap::set` is called only in a method lookup, only for the identifier looked
up and only when the map has no template for it: its assertion holds. When no native call
disposes of a template, no sequence of runs disposes of or replaces a template (each
identifier keeps the one template it has), and two method lookups of the same identifier,
on any two receivers and with any sequence of runs in between, return functions of the
same template, the second without creating one. -/
theorem one_method_template_per_identifier (rt : Runtime) :
    (∀ self identifier key w step, methodLookup rt self identifier key w step →
      (∀ t, step.templateMap identifier = some t →
        (npObjectGetProperty rt self identifier key w).returnValue
          = Handle.value (V8Value.function t.id key.stringCast) ∧
        (npObjectGetProperty rt self identifier key w).world = step ∧
        (npObjectGetProperty rt self identifier key w).trace.filter Event.isTemplateCall
          = [Event.templateGet identifier]) ∧
      (step.templateMap identifier = none →
        (npObjectGetProperty rt self identifier key w).returnValue
          = Handle.value (V8Value.function step.templatesCreated key.stringCast) ∧
        (npObjectGetProperty rt self identifier key w).world.templateMap identifier
          = some ⟨step.templatesCreated, key⟩ ∧
        (∀ k, k ≠ identifier →
          (npObjectGetProperty rt self identifier key w).world.templateMap k
            = step.templateMap k) ∧
        (npObjectGetProperty rt self identifier key w).world.templatesCreated
          = step.templatesCreated + 1 ∧
        (npObjectGetProperty rt self identifier key w).trace.filter Event.isTemplateCall
          = [Event.templateGet identifier,
              Event.templateSet identifier ⟨step.templatesCreated, key⟩])) ∧
    (rt.keepsTemplates → ∀ self1 self2 identifier key1 key2 between w step1 step2,
      methodLookup rt self1 identifier key1 w step1 →
      methodLookup rt self2 identifier key2
        (npObjectGetPropertySequence rt between
          (npObjectGetProperty rt self1 identifier key1 w).world) step2 →
      ∃ t : FunctionTemplate,
        (npObjectGetProperty rt self1 identifier key1 w).returnValue
          = Handle.value (V8Value.function t.id key1.stringCast) ∧
        (npObjectGetProperty rt self2 identifier key2
          (npObjectGetPropertySequence rt between
            (npObjectGetProperty rt self1 identifier key1 w).world)).returnValue
          = Handle.value (V8Value.function t.id key2.stringCast) ∧
        (npObjectGetProperty rt self2 identifier key2
          (npObjectGetPropertySequence rt between
            (npObjectGetProperty rt self1 identifier key1 w).world)).world.templateMap identifier
          = some t ∧
        (npObjectGetProperty rt self2 identifier key2
          (npObjectGetPropertySequence rt between
            (npObjectGetProperty rt self1 identifier key1 w).world)).trace.filter
              Event.isTemplateCall
          = [Event.templateGet identifier]) ∧
    (∀ self identifier key w k t,
      Event.templateSet k t ∈ (npObjectGetProperty rt self identifier key w).trace →
      k = identifier ∧
      ∃ w0 earlier, npObjectGetProperty rt self identifier key w
          = (getMethodTemplate identifier key w0).after earlier ∧
        V8NPTemplateMap.get w0 identifier = none ∧
        V8NPTemplateMap.setAssertion
          { w0 with templatesCreated := w0.templatesCreated + 1 } identifier = true ∧
        (npObjectGetProperty rt self identifier key w).world
          = V8NPTemplateMap.set { w0 with templatesCreated := w0.templatesCreated + 1 }
              identifier t) ∧
    (∀ self identifier key w k,
      Event.templateGet k ∈ (npObjectGetProperty rt self identifier key w).trace →
      k = identifier ∧
      ∃ t, V8NPTemplateMap.get (npObjectGetProperty rt self identifier key w).world identifier
          = some t ∧
        (npObjectGetProperty rt self identifier key w).returnValue
          = Handle.value (V8Value.function t.id key.stringCast)) ∧
    (rt.keepsTemplates → ∀ calls w, templatesKept w (npObjectGetPropertySequence rt calls w)) ∧
    (rt.keepsTemplates → ∀ self1 self2 identifier key1 key2 between w,
      Event.templateGet identifier ∈ (npObjectGetProperty rt self1 identifier key1 w).trace →
      Event.templateGet identifier ∈ (npObjectGetProperty rt self2 identifier key2
        (npObjectGetPropertySequence rt between
          (npObjectGetProperty rt self1 identifier key1 w).world)).trace →
      ∃ t : FunctionTemplate,
        (npObjectGetProperty rt self1 identifier key1 w).returnValue
          = Handle.value (V8Value.function t.id key1.stringCast) ∧
        (npObjectGetProperty rt self2 identifier key2
          (npObjectGetPropertySequence rt between
            (npObjectGetProperty rt self1 identifier key1 w).world)).returnValue
          = Handle.value (V8Value.function t.id key2.stringCast) ∧
        (∀ k t0, Event.templateSet k t0 ∉ (npObjectGetProperty rt self2 identifier key2
          (npObjectGetPropertySequence rt between
            (npObjectGetProperty rt self1 identifier key1 w).world)).trace)) := by
  have hold := method_template_calls rt
  have hlookup : ∀ self identifier key w step, methodLookup rt self identifier key w step →
      (∀ t, step.templateMap identifier = some t →
        (npObjectGetProperty rt self identifier key w).returnValue
          = Handle.value (V8Value.function t.id key.stringCast) ∧
        (npObjectGetProperty rt self identifier key w).world = step ∧
        (npObjectGetProperty rt self identifier key w).trace.filter Event.isTemplateCall
          = [Event.templateGet identifier]) ∧
      (step.templateMap identifier = none →
        (npObjectGetProperty rt self identifier key w).returnValue
          = Handle.value (V8Value.function step.templatesCreated key.stringCast) ∧
        (npObjectGetProperty rt self identifier key w).world.templateMap identifier
          = some ⟨step.templatesCreated, key⟩ ∧
        (∀ k, k ≠ identifier →
          (npObjectGetProperty rt self identifier key w).world.templateMap k
            = step.templateMap k) ∧
        (npObjectGetProperty rt self identifier key w).world.templatesCreated
          = step.templatesCreated + 1 ∧
        (npObjectGetProperty rt self identifier key w).trace.filter Event.isTemplateCall
          = [Event.templateGet identifier,
              Event.templateSet identifier ⟨step.templatesCreated, key⟩]) := by
    intro self identifier key w step h
    obtain ⟨earlier, hrun, hearlier⟩ := methodLookup_run rt self identifier key w step h
    have hfil : earlier.filter Event.isTemplateCall = [] := filter_nil_of_forall hearlier
    constructor
    · intro t ht
      rw [hrun, getMethodTemplate_cached identifier key step t ht]
      simp [Outcome.after, List.filter_append, hfil, Event.isTemplateCall]
    · intro hnone
      rw [hrun, getMethodTemplate_created identifier key step hnone]
      refine ⟨rfl, ?_, ?_, rfl, ?_⟩
      · simp [Outcome.after, V8NPTemplateMap.set]
      · intro k hk
        simp [Outcome.after, V8NPTemplateMap.set, hk]
      · simp [Outcome.after, List.filter_append, hfil, Event.isTemplateCall]
  have hconsults : ∀ self identifier key w step, methodLookup rt self identifier key w step →
      Event.templateGet identifier ∈ (npObjectGetProperty rt self identifier key w).trace := by
    intro self identifier key w step h
    have hmem : Event.templateGet identifier ∈
        (npObjectGetProperty rt self identifier key w).trace.filter Event.isTemplateCall := by
      cases ht : step.templateMap identifier with
      | some t => rw [((hlookup self identifier key w step h).1 t ht).2.2]; simp
      | none => rw [((hlookup self identifier key w step h).2 ht).2.2.2.2]; simp
    exact (List.mem_filter.mp hmem).1
  refine ⟨hlookup, ?_, hold.1, hold.2.1, hold.2.2.1, hold.2.2.2⟩
  intro hkeep self1 self2 identifier key1 key2 between w step1 step2 h1 h2
  have hfirst : ∃ t : FunctionTemplate,
      (npObjectGetProperty rt self1 identifier key1 w).world.templateMap identifier = some t ∧
      (npObjectGetProperty rt self1 identifier key1 w).returnValue
        = Handle.value (V8Value.function t.id key1.stringCast) := by
    cases ht : step1.templateMap identifier with
    | some t =>
      obtain ⟨hr, hw, -⟩ := (hlookup self1 identifier key1 w step1 h1).1 t ht
      exact ⟨t, by rw [hw]; exact ht, hr⟩
    | none =>
      obtain ⟨hr, hw, -⟩ := (hlookup self1 identifier key1 w step1 h1).2 ht
      exact ⟨⟨step1.templatesCreated, key1⟩, hw, hr⟩
  obtain ⟨t, ht, hret1⟩ := hfirst
  have hmid : (npObjectGetPropertySequence rt between
      (npObjectGetProperty rt self1 identifier key1 w).world).templateMap identifier = some t :=
    hold.2.2.1 hkeep between _ identifier t ht
  have hstep2 : step2.templateMap identifier = some t :=
    methodLookup_kept rt hkeep self2 identifier key2 _ step2 h2 identifier t hmid
  obtain ⟨hr, hw, hf⟩ := (hlookup self2 identifier key2 _ step2 h2).1 t hstep2
  exact ⟨t, hret1, hr, by rw [hw]; exact hstep2, hf⟩

/-- C12, evaluated: in the method runtime the method "f" is looked up on the proxy 10 of
object 1 and then on the proxy 20 of object 2; both lookups return the function of one
template, and the second only reads the map. -/
theorem one_method_template_per_identifier_witness :
    methodLookup methodRuntime (V8Object.mk 10) (IdentifierRep.m_string "f")
      (V8Value.string "f") sampleWorld sampleWorld ∧
    ∃ t : FunctionTemplate,
      (npObjectGetProperty methodRuntime (V8Object.mk 10) (IdentifierRep.m_string "f")
        (V8Value.string "f") sampleWorld).returnValue
          = Handle.value (V8Value.function t.id "f") ∧
      (npObjectGetProperty methodRuntime (V8Object.mk 20) (IdentifierRep.m_string "f")
        (V8Value.string "f")
        (npObjectGetProperty methodRuntime (V8Object.mk 10) (IdentifierRep.m_string "f")
          (V8Value.string "f") sampleWorld).world).returnValue
          = Handle.value (V8Value.function t.id "f") ∧
      (npObjectGetProperty methodRuntime (V8Object.mk 20) (IdentifierRep.m_string "f")
        (V8Value.string "f")
        (npObjectGetProperty methodRuntime (V8Object.mk 10) (IdentifierRep.m_string "f")
          (V8Value.string "f") sampleWorld).world).trace.filter Event.isTemplateCall
          = [Event.templateGet (IdentifierRep.m_string "f")] :=
  have h1 : methodLookup methodRuntime (V8Object.mk 10) (IdentifierRep.m_string "f")
      (V8Value.string "f") sampleWorld sampleWorld :=
    ⟨1, sampleWorld, fun _ _ w => (true, w), rfl, rfl, Or.inl ⟨Or.inl rfl, rfl⟩, rfl, rfl, rfl,
      rfl, rfl, rfl⟩
  have h2 : methodLookup methodRuntime (V8Object.mk 20) (IdentifierRep.m_string "f")
      (V8Value.string "f")
      (npObjectGetPropertySequence methodRuntime []
        (npObjectGetProperty methodRuntime (V8Object.mk 10) (IdentifierRep.m_string "f")
          (V8Value.string "f") sampleWorld).world)
      (npObjectGetProperty methodRuntime (V8Object.mk 10) (IdentifierRep.m_string "f")
        (V8Value.string "f") sampleWorld).world :=
    ⟨2, (npObjectGetProperty methodRuntime (V8Object.mk 10) (IdentifierRep.m_string "f")
        (V8Value.string "f") sampleWorld).world, fun _ _ w => (true, w), rfl, rfl,
      Or.inl ⟨Or.inl rfl, rfl⟩, rfl, rfl, rfl, rfl, rfl, rfl⟩
  ⟨h1, ((one_method_template_per_identifier methodRuntime).2.1 methodRuntime_keepsTemplates
    (V8Object.mk 10) (V8Object.mk 20) (IdentifierRep.m_string "f") (V8Value.string "f")
    (V8Value.string "f") [] sampleWorld sampleWorld _ h1 h2).imp
      (fun _ h => ⟨h.1, h.2.1, h.2.2.2⟩)⟩

end WebCore
